import Mathlib

/-! # go-chrome: protocol facades and the socket core

A shallow embedding of the typed protocol facades of the repository
(`chrome.css.go`, `chrome.dom.go`, `protocol/chrome.debugger.go`,
`protocol/chrome.application_cache.go`,
`socket/protocol.headless_experimental.go`) and of the socket core they call.

The facades are written against the socket interface only, so every facade
method is embedded as a function of an arbitrary socket: the socket's state is
passed explicitly, `SendCommand` returns the command as the socket left it, and
the Go standard library's `json.Marshal` / `json.Unmarshal` are parameters.
The socket core itself (pending-request table, event router) is not among the
source files; it is modelled from the specification and marked as such.
-/

namespace GoChrome

/-! ## Data model -/

mutual
/-- Opaque structured data carried as a parameter or result payload. -/
inductive Payload where
  | null
  | bool (b : Bool)
  | num (n : Int)
  | str (s : String)
  | arr (items : PayloadList)
  | obj (fields : PayloadFields)
  deriving DecidableEq
/-- Elements of a payload array. -/
inductive PayloadList where
  | nil
  | cons (head : Payload) (tail : PayloadList)
  deriving DecidableEq
/-- Fields of a payload object. -/
inductive PayloadFields where
  | nil
  | cons (key : String) (value : Payload) (rest : PayloadFields)
  deriving DecidableEq
end

/-- Go's `[]byte`. -/
abbrev Bytes := List UInt8

/-- A non-nil Go `error` value. The kinds are the ones the specification names
(section 7); `other` stands for any other error, such as one returned by the
JSON library. A Go `error` is `Option GoError`, `none` being `nil`. -/
inductive GoError where
  | connection (msg : String)
  | notOpen
  | connectionClosed
  | protocolFormat (msg : String)
  | duplicateID (id : Nat)
  | staleResponse (id : Nat)
  | remote (code : Int) (message : String)
  | other (msg : String)
  deriving DecidableEq, Repr

/-- The `interface{}` a command carries as its parameters: the untyped `nil`,
or a typed parameter pointer (`none` is a nil pointer of that type). -/
inductive Params where
  | nil
  | ptr (p : Option Payload)
  deriving DecidableEq

/-- The command object shared by a facade method and the socket. `method` and
`params` are set by the facade; `id`, `result` and `Err` belong to the socket. -/
structure Command where
  method : String
  params : Params
  id : Nat := 0
  result : Option Payload := none
  Err : Option GoError := none
  deriving DecidableEq

/-- Modelled from the spec: `sock.NewCommand(method, params)`, whose body is not
among the source files. The specification's data model has the facade create the
command with its method name and parameter payload, the correlation ID, result
and error being filled in by the core. -/
def NewCommand (method : String) (params : Params) : Command :=
  { method := method, params := params }

/-- The accessor `command.Error()`. -/
def Command.Error (command : Command) : Option GoError := command.Err

/-- The accessor `command.Result()` of the `protocol` package, an `interface{}`. -/
def Command.Result (command : Command) : Option Payload := command.result

/-- The frame handed to an event handler of the `socket` package: an event
carries a method name and params (specification, section 6). -/
structure Response where
  Method : String
  Params : Bytes
  deriving DecidableEq

/-- What a handler can touch: the state the user's callback works on, and the
errors written to the logger by `log.Error`. -/
structure HandlerState (υ : Type) where
  user : υ
  logged : List GoError

/-- The logger call `log.Error(err)`. -/
def log.Error {υ : Type} (err : GoError) (st : HandlerState υ) : HandlerState υ :=
  { st with logged := st.logged ++ [err] }

/-- Running the user's callback on a decoded event. -/
def HandlerState.call {υ : Type} (callback : υ → υ) (st : HandlerState υ) : HandlerState υ :=
  { st with user := callback st.user }

/-- An event handler of the `socket` package: `func(response *Response)` under
an event name. -/
structure EventHandler (υ : Type) where
  Name : String
  Callback : Response → HandlerState υ → HandlerState υ

/-- The constructor `sock.NewEventHandler(name, callback)`. -/
def NewEventHandler {υ : Type} (name : String)
    (callback : Response → HandlerState υ → HandlerState υ) : EventHandler υ :=
  { Name := name, Callback := callback }

namespace protocol

/-- An event handler of the `chrome` package's `protocol` import:
`func(name string, params []byte)` under an event name. -/
structure EventHandler (υ : Type) where
  Name : String
  Callback : String → Bytes → HandlerState υ → HandlerState υ

/-- The constructor `protocol.NewEventHandler(name, callback)`. -/
def NewEventHandler {υ : Type} (name : String)
    (callback : String → Bytes → HandlerState υ → HandlerState υ) : EventHandler υ :=
  { Name := name, Callback := callback }

end protocol

/-- Modelled from the spec: the socket as the facades see it (`sock.Socketer`,
and `*Socket` in the `chrome` package), whose declaration is not among the
source files. The operations are those of the Command Facade (specification,
sections 4.5 and 6): submit a command, register an event handler, remove one.
`σ` is the socket's own state and `H` the handler type of the package.
`SendCommand` works on the command through a pointer, so it returns the command
as it stands when the call returns. -/
structure Socketer (σ : Type) (H : Type) where
  SendCommand : σ → Command → σ × Command
  AddEventHandler : σ → H → σ
  RemoveEventHandler : σ → Nat → σ

/-- One call made on a socket. -/
inductive SocketCall (H : Type) where
  | SendCommand (sent : Command) (returned : Command)
  | AddEventHandler (handler : H)
  | RemoveEventHandler (handle : Nat)

/-- The same socket, recording every call made on it: the state is paired with
the list of calls so far, oldest first. -/
def Socketer.traced {σ H : Type} (socket : Socketer σ H) :
    Socketer (σ × List (SocketCall H)) H where
  SendCommand := fun w command =>
    (((socket.SendCommand w.1 command).1,
      w.2 ++ [SocketCall.SendCommand command (socket.SendCommand w.1 command).2]),
     (socket.SendCommand w.1 command).2)
  AddEventHandler := fun w handler =>
    (socket.AddEventHandler w.1 handler, w.2 ++ [SocketCall.AddEventHandler handler])
  RemoveEventHandler := fun w handle =>
    (socket.RemoveEventHandler w.1 handle, w.2 ++ [SocketCall.RemoveEventHandler handle])

/-- The Go JSON library at a result or event type `R`: the zero value `R{}`,
`json.Marshal` of an `interface{}`, and `json.Unmarshal(data, &v)`, which
returns the target as it leaves it together with the error. -/
structure Json (R : Type) where
  zero : R
  Marshal : Payload → Except GoError Bytes
  Unmarshal : Bytes → R → R × Option GoError

/-! ## The facades

Every method below is the body of the Go method of the same name. -/

/-- The receiver of the HeadlessExperimental facade: it holds its socket. -/
structure HeadlessExperimentalProtocol (σ : Type) (υ : Type) where
  Socket : Socketer σ (EventHandler υ)

/-- Go method `CSS.Enable` (chrome.css.go, line 10). -/
def CSS.Enable {σ H : Type} (socket : Socketer σ H) (w : σ) :
    σ × Option GoError :=
  let command : Command := { method := "CSS.enable", params := Params.nil }
  let sent := socket.SendCommand w command
  (sent.1, sent.2.Err)

/-- Go method `CSS.Disable` (chrome.css.go, line 34). -/
def CSS.Disable {σ H : Type} (socket : Socketer σ H) (w : σ) :
    σ × Option GoError :=
  let command : Command := { method := "CSS.disable", params := Params.nil }
  let sent := socket.SendCommand w command
  (sent.1, sent.2.Err)

/-- Go method `CSS.GetMatchedStylesForNode` (chrome.css.go, line 46). -/
def CSS.GetMatchedStylesForNode {σ H : Type} (socket : Socketer σ H) (w : σ) (params : Option Payload) :
    σ × Option GoError :=
  let command : Command := { method := "CSS.getMatchedStylesForNode", params := (Params.ptr params) }
  let sent := socket.SendCommand w command
  (sent.1, sent.2.Err)

/-- Go method `CSS.GetInlineStylesForNode` (chrome.css.go, line 58). -/
def CSS.GetInlineStylesForNode {σ H : Type} (socket : Socketer σ H) (w : σ) (params : Option Payload) :
    σ × Option GoError :=
  let command : Command := { method := "CSS.getInlineStylesForNode", params := (Params.ptr params) }
  let sent := socket.SendCommand w command
  (sent.1, sent.2.Err)

/-- Go method `CSS.GetComputedStyleForNode` (chrome.css.go, line 71). -/
def CSS.GetComputedStyleForNode {σ H : Type} (socket : Socketer σ H) (w : σ) (params : Option Payload) :
    σ × Option GoError :=
  let command : Command := { method := "CSS.getComputedStyleForNode", params := (Params.ptr params) }
  let sent := socket.SendCommand w command
  (sent.1, sent.2.Err)

/-- Go method `CSS.GetPlatformFontsForNode` (chrome.css.go, line 83). -/
def CSS.GetPlatformFontsForNode {σ H : Type} (socket : Socketer σ H) (w : σ) (params : Option Payload) :
    σ × Option GoError :=
  let command : Command := { method := "CSS.getPlatformFontsForNode", params := (Params.ptr params) }
  let sent := socket.SendCommand w command
  (sent.1, sent.2.Err)

/-- Go method `CSS.GetStyleSheetText` (chrome.css.go, line 96). -/
def CSS.GetStyleSheetText {σ H : Type} (socket : Socketer σ H) (w : σ) (params : Option Payload) :
    σ × Option GoError :=
  let command : Command := { method := "CSS.getStyleSheetText", params := (Params.ptr params) }
  let sent := socket.SendCommand w command
  (sent.1, sent.2.Err)

/-- Go method `CSS.CollectClassNames` (chrome.css.go, line 108). -/
def CSS.CollectClassNames {σ H : Type} (socket : Socketer σ H) (w : σ) (params : Option Payload) :
    σ × Option GoError :=
  let command : Command := { method := "CSS.collectClassNames", params := (Params.ptr params) }
  let sent := socket.SendCommand w command
  (sent.1, sent.2.Err)

/-- Go method `CSS.SetStyleSheetText` (chrome.css.go, line 120). -/
def CSS.SetStyleSheetText {σ H : Type} (socket : Socketer σ H) (w : σ) (params : Option Payload) :
    σ × Option GoError :=
  let command : Command := { method := "CSS.setStyleSheetText", params := (Params.ptr params) }
  let sent := socket.SendCommand w command
  (sent.1, sent.2.Err)

/-- Go method `CSS.SetRuleSelector` (chrome.css.go, line 132). -/
def CSS.SetRuleSelector {σ H : Type} (socket : Socketer σ H) (w : σ) (params : Option Payload) :
    σ × Option GoError :=
  let command : Command := { method := "CSS.setRuleSelector", params := (Params.ptr params) }
  let sent := socket.SendCommand w command
  (sent.1, sent.2.Err)

/-- Go method `CSS.SetKeyframeKey` (chrome.css.go, line 144). -/
def CSS.SetKeyframeKey {σ H : Type} (socket : Socketer σ H) (w : σ) (params : Option Payload) :
    σ × Option GoError :=
  let command : Command := { method := "CSS.setKeyframeKey", params := (Params.ptr params) }
  let sent := socket.SendCommand w command
  (sent.1, sent.2.Err)

/-- Go method `CSS.SetStyleTexts` (chrome.css.go, line 156). -/
def CSS.SetStyleTexts {σ H : Type} (socket : Socketer σ H) (w : σ) (params : Option Payload) :
    σ × Option GoError :=
  let command : Command := { method := "CSS.setStyleTexts", params := (Params.ptr params) }
  let sent := socket.SendCommand w command
  (sent.1, sent.2.Err)

/-- Go method `CSS.SetMediaText` (chrome.css.go, line 168). -/
def CSS.SetMediaText {σ H : Type} (socket : Socketer σ H) (w : σ) (params : Option Payload) :
    σ × Option GoError :=
  let command : Command := { method := "CSS.setMediaText", params := (Params.ptr params) }
  let sent := socket.SendCommand w command
  (sent.1, sent.2.Err)

/-- Go method `CSS.CreateStyleSheet` (chrome.css.go, line 180). -/
def CSS.CreateStyleSheet {σ H : Type} (socket : Socketer σ H) (w : σ) (params : Option Payload) :
    σ × Option GoError :=
  let command : Command := { method := "CSS.createStyleSheet", params := (Params.ptr params) }
  let sent := socket.SendCommand w command
  (sent.1, sent.2.Err)

/-- Go method `CSS.AddRule` (chrome.css.go, line 192). -/
def CSS.AddRule {σ H : Type} (socket : Socketer σ H) (w : σ) (params : Option Payload) :
    σ × Option GoError :=
  let command : Command := { method := "CSS.addRule", params := (Params.ptr params) }
  let sent := socket.SendCommand w command
  (sent.1, sent.2.Err)

/-- Go method `CSS.ForcePseudoState` (chrome.css.go, line 205). -/
def CSS.ForcePseudoState {σ H : Type} (socket : Socketer σ H) (w : σ) (params : Option Payload) :
    σ × Option GoError :=
  let command : Command := { method := "CSS.forcePseudoState", params := (Params.ptr params) }
  let sent := socket.SendCommand w command
  (sent.1, sent.2.Err)

/-- Go method `CSS.GetMediaQueries` (chrome.css.go, line 218). -/
def CSS.GetMediaQueries {σ H : Type} (socket : Socketer σ H) (w : σ) (params : Option Payload) :
    σ × Option GoError :=
  let command : Command := { method := "CSS.getMediaQueries", params := (Params.ptr params) }
  let sent := socket.SendCommand w command
  (sent.1, sent.2.Err)

/-- Go method `CSS.SetEffectivePropertyValueForNode` (chrome.css.go, line 230). -/
def CSS.SetEffectivePropertyValueForNode {σ H : Type} (socket : Socketer σ H) (w : σ) (params : Option Payload) :
    σ × Option GoError :=
  let command : Command := { method := "CSS.setEffectivePropertyValueForNode", params := (Params.ptr params) }
  let sent := socket.SendCommand w command
  (sent.1, sent.2.Err)

/-- Go method `CSS.GetBackgroundColors` (chrome.css.go, line 243). -/
def CSS.GetBackgroundColors {σ H : Type} (socket : Socketer σ H) (w : σ) (params : Option Payload) :
    σ × Option GoError :=
  let command : Command := { method := "CSS.getBackgroundColors", params := (Params.ptr params) }
  let sent := socket.SendCommand w command
  (sent.1, sent.2.Err)

/-- Go method `CSS.StartRuleUsageTracking` (chrome.css.go, line 255). -/
def CSS.StartRuleUsageTracking {σ H : Type} (socket : Socketer σ H) (w : σ) :
    σ × Option GoError :=
  let command : Command := { method := "CSS.startRuleUsageTracking", params := Params.nil }
  let sent := socket.SendCommand w command
  (sent.1, sent.2.Err)

/-- Go method `CSS.TakeCoverageDelta` (chrome.css.go, line 267). -/
def CSS.TakeCoverageDelta {σ H : Type} (socket : Socketer σ H) (w : σ) :
    σ × Option GoError :=
  let command : Command := { method := "CSS.takeCoverageDelta", params := Params.nil }
  let sent := socket.SendCommand w command
  (sent.1, sent.2.Err)

/-- Go method `CSS.StopRuleUsageTracking` (chrome.css.go, line 280). -/
def CSS.StopRuleUsageTracking {σ H : Type} (socket : Socketer σ H) (w : σ) :
    σ × Option GoError :=
  let command : Command := { method := "CSS.stopRuleUsageTracking", params := Params.nil }
  let sent := socket.SendCommand w command
  (sent.1, sent.2.Err)

/-- Go method `CSS.OnMediaQueryResultChanged` (chrome.css.go, line 292). The Go body ends in
`return command.Err` although it declares no `command`; that value is not
modelled, the method's effect on the socket is. -/
def CSS.OnMediaQueryResultChanged {σ υ E : Type} (json : Json E) (socket : Socketer σ (protocol.EventHandler υ))
    (w : σ) (callback : E → υ → υ) : σ :=
  let handler := protocol.NewEventHandler "CSS.mediaQueryResultChanged"
    (fun _name params st =>
      let event := json.zero
      match (json.Unmarshal params event).2 with
      | some err => log.Error err st
      | none => st.call (callback (json.Unmarshal params event).1))
  socket.AddEventHandler w handler

/-- Go method `CSS.OnFontsUpdated` (chrome.css.go, line 314). The Go body ends in
`return command.Err` although it declares no `command`; that value is not
modelled, the method's effect on the socket is. -/
def CSS.OnFontsUpdated {σ υ E : Type} (json : Json E) (socket : Socketer σ (protocol.EventHandler υ))
    (w : σ) (callback : E → υ → υ) : σ :=
  let handler := protocol.NewEventHandler "CSS.fontsUpdated"
    (fun _name params st =>
      let event := json.zero
      match (json.Unmarshal params event).2 with
      | some err => log.Error err st
      | none => st.call (callback (json.Unmarshal params event).1))
  socket.AddEventHandler w handler

/-- Go method `CSS.OnStyleSheetChanged` (chrome.css.go, line 334). The Go body ends in
`return command.Err` although it declares no `command`; that value is not
modelled, the method's effect on the socket is. -/
def CSS.OnStyleSheetChanged {σ υ E : Type} (json : Json E) (socket : Socketer σ (protocol.EventHandler υ))
    (w : σ) (callback : E → υ → υ) : σ :=
  let handler := protocol.NewEventHandler "CSS.styleSheetChanged"
    (fun _name params st =>
      let event := json.zero
      match (json.Unmarshal params event).2 with
      | some err => log.Error err st
      | none => st.call (callback (json.Unmarshal params event).1))
  socket.AddEventHandler w handler

/-- Go method `CSS.OnStyleSheetAdded` (chrome.css.go, line 354). The Go body ends in
`return command.Err` although it declares no `command`; that value is not
modelled, the method's effect on the socket is. -/
def CSS.OnStyleSheetAdded {σ υ E : Type} (json : Json E) (socket : Socketer σ (protocol.EventHandler υ))
    (w : σ) (callback : E → υ → υ) : σ :=
  let handler := protocol.NewEventHandler "CSS.styleSheetAdded"
    (fun _name params st =>
      let event := json.zero
      match (json.Unmarshal params event).2 with
      | some err => log.Error err st
      | none => st.call (callback (json.Unmarshal params event).1))
  socket.AddEventHandler w handler

/-- Go method `CSS.OnStyleSheetRemoved` (chrome.css.go, line 374). The Go body ends in
`return command.Err` although it declares no `command`; that value is not
modelled, the method's effect on the socket is. -/
def CSS.OnStyleSheetRemoved {σ υ E : Type} (json : Json E) (socket : Socketer σ (protocol.EventHandler υ))
    (w : σ) (callback : E → υ → υ) : σ :=
  let handler := protocol.NewEventHandler "CSS.styleSheetRemoved"
    (fun _name params st =>
      let event := json.zero
      match (json.Unmarshal params event).2 with
      | some err => log.Error err st
      | none => st.call (callback (json.Unmarshal params event).1))
  socket.AddEventHandler w handler

/-- Go method `DOM.Enable` (chrome.dom.go, line 10). -/
def DOM.Enable {σ H : Type} (socket : Socketer σ H) (w : σ) :
    σ × Option GoError :=
  let command : Command := { method := "DOM.enable", params := Params.nil }
  let sent := socket.SendCommand w command
  (sent.1, sent.2.Err)

/-- Go method `DOM.Disable` (chrome.dom.go, line 35). -/
def DOM.Disable {σ H : Type} (socket : Socketer σ H) (w : σ) :
    σ × Option GoError :=
  let command : Command := { method := "DOM.disable", params := Params.nil }
  let sent := socket.SendCommand w command
  (sent.1, sent.2.Err)

/-- Go method `DOM.GetDocument` (chrome.dom.go, line 47). -/
def DOM.GetDocument {σ H : Type} (socket : Socketer σ H) (w : σ) (params : Option Payload) :
    σ × Option GoError :=
  let command : Command := { method := "DOM.getDocument", params := (Params.ptr params) }
  let sent := socket.SendCommand w command
  (sent.1, sent.2.Err)

/-- Go method `DOM.GetFlattenedDocument` (chrome.dom.go, line 59). -/
def DOM.GetFlattenedDocument {σ H : Type} (socket : Socketer σ H) (w : σ) (params : Option Payload) :
    σ × Option GoError :=
  let command : Command := { method := "DOM.getFlattenedDocument", params := (Params.ptr params) }
  let sent := socket.SendCommand w command
  (sent.1, sent.2.Err)

/-- Go method `DOM.RequestChildNodes` (chrome.dom.go, line 71). -/
def DOM.RequestChildNodes {σ H : Type} (socket : Socketer σ H) (w : σ) (params : Option Payload) :
    σ × Option GoError :=
  let command : Command := { method := "DOM.requestChildNodes", params := (Params.ptr params) }
  let sent := socket.SendCommand w command
  (sent.1, sent.2.Err)

/-- Go method `DOM.QuerySelector` (chrome.dom.go, line 85). -/
def DOM.QuerySelector {σ H : Type} (socket : Socketer σ H) (w : σ) (params : Option Payload) :
    σ × Option GoError :=
  let command : Command := { method := "DOM.querySelector", params := (Params.ptr params) }
  let sent := socket.SendCommand w command
  (sent.1, sent.2.Err)

/-- Go method `DOM.SetNodeName` (chrome.dom.go, line 97). -/
def DOM.SetNodeName {σ H : Type} (socket : Socketer σ H) (w : σ) (params : Option Payload) :
    σ × Option GoError :=
  let command : Command := { method := "DOM.setNodeName", params := (Params.ptr params) }
  let sent := socket.SendCommand w command
  (sent.1, sent.2.Err)

/-- Go method `DOM.SetNodeValue` (chrome.dom.go, line 109). -/
def DOM.SetNodeValue {σ H : Type} (socket : Socketer σ H) (w : σ) (params : Option Payload) :
    σ × Option GoError :=
  let command : Command := { method := "DOM.setNodeValue", params := (Params.ptr params) }
  let sent := socket.SendCommand w command
  (sent.1, sent.2.Err)

/-- Go method `DOM.RemoveNode` (chrome.dom.go, line 121). -/
def DOM.RemoveNode {σ H : Type} (socket : Socketer σ H) (w : σ) (params : Option Payload) :
    σ × Option GoError :=
  let command : Command := { method := "DOM.removeNode", params := (Params.ptr params) }
  let sent := socket.SendCommand w command
  (sent.1, sent.2.Err)

/-- Go method `DOM.SetAttributeValue` (chrome.dom.go, line 133). -/
def DOM.SetAttributeValue {σ H : Type} (socket : Socketer σ H) (w : σ) (params : Option Payload) :
    σ × Option GoError :=
  let command : Command := { method := "DOM.setAttributeValue", params := (Params.ptr params) }
  let sent := socket.SendCommand w command
  (sent.1, sent.2.Err)

/-- Go method `DOM.SetAttributesAsText` (chrome.dom.go, line 145). -/
def DOM.SetAttributesAsText {σ H : Type} (socket : Socketer σ H) (w : σ) (params : Option Payload) :
    σ × Option GoError :=
  let command : Command := { method := "DOM.setAttributesAsText", params := (Params.ptr params) }
  let sent := socket.SendCommand w command
  (sent.1, sent.2.Err)

/-- Go method `DOM.RemoveAttribute` (chrome.dom.go, line 158). -/
def DOM.RemoveAttribute {σ H : Type} (socket : Socketer σ H) (w : σ) (params : Option Payload) :
    σ × Option GoError :=
  let command : Command := { method := "DOM.removeAttribute", params := (Params.ptr params) }
  let sent := socket.SendCommand w command
  (sent.1, sent.2.Err)

/-- Go method `DOM.GetOuterHTML` (chrome.dom.go, line 170). -/
def DOM.GetOuterHTML {σ H : Type} (socket : Socketer σ H) (w : σ) (params : Option Payload) :
    σ × Option GoError :=
  let command : Command := { method := "DOM.getOuterHTML", params := (Params.ptr params) }
  let sent := socket.SendCommand w command
  (sent.1, sent.2.Err)

/-- Go method `DOM.SetOuterHTML` (chrome.dom.go, line 182). -/
def DOM.SetOuterHTML {σ H : Type} (socket : Socketer σ H) (w : σ) (params : Option Payload) :
    σ × Option GoError :=
  let command : Command := { method := "DOM.setOuterHTML", params := (Params.ptr params) }
  let sent := socket.SendCommand w command
  (sent.1, sent.2.Err)

/-- Go method `DOM.PerformSearch` (chrome.dom.go, line 194). -/
def DOM.PerformSearch {σ H : Type} (socket : Socketer σ H) (w : σ) (params : Option Payload) :
    σ × Option GoError :=
  let command : Command := { method := "DOM.performSearch", params := (Params.ptr params) }
  let sent := socket.SendCommand w command
  (sent.1, sent.2.Err)

/-- Go method `DOM.GetSearchResults` (chrome.dom.go, line 207). -/
def DOM.GetSearchResults {σ H : Type} (socket : Socketer σ H) (w : σ) (params : Option Payload) :
    σ × Option GoError :=
  let command : Command := { method := "DOM.getSearchResults", params := (Params.ptr params) }
  let sent := socket.SendCommand w command
  (sent.1, sent.2.Err)

/-- Go method `DOM.DiscardSearchResults` (chrome.dom.go, line 220). -/
def DOM.DiscardSearchResults {σ H : Type} (socket : Socketer σ H) (w : σ) (params : Option Payload) :
    σ × Option GoError :=
  let command : Command := { method := "DOM.discardSearchResults", params := (Params.ptr params) }
  let sent := socket.SendCommand w command
  (sent.1, sent.2.Err)

/-- Go method `DOM.RequestNode` (chrome.dom.go, line 233). -/
def DOM.RequestNode {σ H : Type} (socket : Socketer σ H) (w : σ) (params : Option Payload) :
    σ × Option GoError :=
  let command : Command := { method := "DOM.requestNode", params := (Params.ptr params) }
  let sent := socket.SendCommand w command
  (sent.1, sent.2.Err)

/-- Go method `DOM.PushNodeByPathToFrontend` (chrome.dom.go, line 247). -/
def DOM.PushNodeByPathToFrontend {σ H : Type} (socket : Socketer σ H) (w : σ) (params : Option Payload) :
    σ × Option GoError :=
  let command : Command := { method := "DOM.pushNodeByPathToFrontend", params := (Params.ptr params) }
  let sent := socket.SendCommand w command
  (sent.1, sent.2.Err)

/-- Go method `DOM.PushNodesByBackendIDsToFrontend` (chrome.dom.go, line 260). -/
def DOM.PushNodesByBackendIDsToFrontend {σ H : Type} (socket : Socketer σ H) (w : σ) (params : Option Payload) :
    σ × Option GoError :=
  let command : Command := { method := "DOM.pushNodesByBackendIdsToFrontend", params := (Params.ptr params) }
  let sent := socket.SendCommand w command
  (sent.1, sent.2.Err)

/-- Go method `DOM.SetInspectedNode` (chrome.dom.go, line 273). -/
def DOM.SetInspectedNode {σ H : Type} (socket : Socketer σ H) (w : σ) (params : Option Payload) :
    σ × Option GoError :=
  let command : Command := { method := "DOM.setInspectedNode", params := (Params.ptr params) }
  let sent := socket.SendCommand w command
  (sent.1, sent.2.Err)

/-- Go method `DOM.ResolveNode` (chrome.dom.go, line 286). -/
def DOM.ResolveNode {σ H : Type} (socket : Socketer σ H) (w : σ) (params : Option Payload) :
    σ × Option GoError :=
  let command : Command := { method := "DOM.resolveNode", params := (Params.ptr params) }
  let sent := socket.SendCommand w command
  (sent.1, sent.2.Err)

/-- Go method `DOM.GetAttributes` (chrome.dom.go, line 298). -/
def DOM.GetAttributes {σ H : Type} (socket : Socketer σ H) (w : σ) (params : Option Payload) :
    σ × Option GoError :=
  let command : Command := { method := "DOM.getAttributes", params := (Params.ptr params) }
  let sent := socket.SendCommand w command
  (sent.1, sent.2.Err)

/-- Go method `DOM.CopyTo` (chrome.dom.go, line 310). -/
def DOM.CopyTo {σ H : Type} (socket : Socketer σ H) (w : σ) (params : Option Payload) :
    σ × Option GoError :=
  let command : Command := { method := "DOM.copyTo", params := (Params.ptr params) }
  let sent := socket.SendCommand w command
  (sent.1, sent.2.Err)

/-- Go method `DOM.MoveTo` (chrome.dom.go, line 323). -/
def DOM.MoveTo {σ H : Type} (socket : Socketer σ H) (w : σ) (params : Option Payload) :
    σ × Option GoError :=
  let command : Command := { method := "DOM.moveTo", params := (Params.ptr params) }
  let sent := socket.SendCommand w command
  (sent.1, sent.2.Err)

/-- Go method `DOM.Undo` (chrome.dom.go, line 335). -/
def DOM.Undo {σ H : Type} (socket : Socketer σ H) (w : σ) :
    σ × Option GoError :=
  let command : Command := { method := "DOM.undo", params := Params.nil }
  let sent := socket.SendCommand w command
  (sent.1, sent.2.Err)

/-- Go method `DOM.Redo` (chrome.dom.go, line 347). -/
def DOM.Redo {σ H : Type} (socket : Socketer σ H) (w : σ) :
    σ × Option GoError :=
  let command : Command := { method := "DOM.redo", params := Params.nil }
  let sent := socket.SendCommand w command
  (sent.1, sent.2.Err)

/-- Go method `DOM.MarkUndoableState` (chrome.dom.go, line 359). -/
def DOM.MarkUndoableState {σ H : Type} (socket : Socketer σ H) (w : σ) :
    σ × Option GoError :=
  let command : Command := { method := "DOM.markUndoableState", params := Params.nil }
  let sent := socket.SendCommand w command
  (sent.1, sent.2.Err)

/-- Go method `DOM.Focus` (chrome.dom.go, line 371). -/
def DOM.Focus {σ H : Type} (socket : Socketer σ H) (w : σ) (params : Option Payload) :
    σ × Option GoError :=
  let command : Command := { method := "DOM.focus", params := (Params.ptr params) }
  let sent := socket.SendCommand w command
  (sent.1, sent.2.Err)

/-- Go method `DOM.SetFileInputFiles` (chrome.dom.go, line 383). -/
def DOM.SetFileInputFiles {σ H : Type} (socket : Socketer σ H) (w : σ) (params : Option Payload) :
    σ × Option GoError :=
  let command : Command := { method := "DOM.setFileInputFiles", params := (Params.ptr params) }
  let sent := socket.SendCommand w command
  (sent.1, sent.2.Err)

/-- Go method `DOM.GetBoxModel` (chrome.dom.go, line 395). -/
def DOM.GetBoxModel {σ H : Type} (socket : Socketer σ H) (w : σ) (params : Option Payload) :
    σ × Option GoError :=
  let command : Command := { method := "DOM.getBoxModel", params := (Params.ptr params) }
  let sent := socket.SendCommand w command
  (sent.1, sent.2.Err)

/-- Go method `DOM.GetNodeForLocation` (chrome.dom.go, line 407). -/
def DOM.GetNodeForLocation {σ H : Type} (socket : Socketer σ H) (w : σ) (params : Option Payload) :
    σ × Option GoError :=
  let command : Command := { method := "DOM.getNodeForLocation", params := (Params.ptr params) }
  let sent := socket.SendCommand w command
  (sent.1, sent.2.Err)

/-- Go method `DOM.GetRelayoutBoundary` (chrome.dom.go, line 419). -/
def DOM.GetRelayoutBoundary {σ H : Type} (socket : Socketer σ H) (w : σ) (params : Option Payload) :
    σ × Option GoError :=
  let command : Command := { method := "DOM.getRelayoutBoundary", params := (Params.ptr params) }
  let sent := socket.SendCommand w command
  (sent.1, sent.2.Err)

/-- Go method `DOM.DescribeNode` (chrome.dom.go, line 431). -/
def DOM.DescribeNode {σ H : Type} (socket : Socketer σ H) (w : σ) (params : Option Payload) :
    σ × Option GoError :=
  let command : Command := { method := "DOM.describeNode", params := (Params.ptr params) }
  let sent := socket.SendCommand w command
  (sent.1, sent.2.Err)

/-- Go method `DOM.OnDocumentUpdated` (chrome.dom.go, line 444). The Go body ends in
`return command.Err` although it declares no `command`; that value is not
modelled, the method's effect on the socket is. -/
def DOM.OnDocumentUpdated {σ υ E : Type} (json : Json E) (socket : Socketer σ (protocol.EventHandler υ))
    (w : σ) (callback : E → υ → υ) : σ :=
  let handler := protocol.NewEventHandler "DOM.documentUpdated"
    (fun _name params st =>
      let event := json.zero
      match (json.Unmarshal params event).2 with
      | some err => log.Error err st
      | none => st.call (callback (json.Unmarshal params event).1))
  socket.AddEventHandler w handler

/-- Go method `DOM.OnSetChildNodes` (chrome.dom.go, line 464). The Go body ends in
`return command.Err` although it declares no `command`; that value is not
modelled, the method's effect on the socket is. -/
def DOM.OnSetChildNodes {σ υ E : Type} (json : Json E) (socket : Socketer σ (protocol.EventHandler υ))
    (w : σ) (callback : E → υ → υ) : σ :=
  let handler := protocol.NewEventHandler "DOM.setChildNodes"
    (fun _name params st =>
      let event := json.zero
      match (json.Unmarshal params event).2 with
      | some err => log.Error err st
      | none => st.call (callback (json.Unmarshal params event).1))
  socket.AddEventHandler w handler

/-- Go method `DOM.OnAttributeModified` (chrome.dom.go, line 485). The Go body ends in
`return command.Err` although it declares no `command`; that value is not
modelled, the method's effect on the socket is. -/
def DOM.OnAttributeModified {σ υ E : Type} (json : Json E) (socket : Socketer σ (protocol.EventHandler υ))
    (w : σ) (callback : E → υ → υ) : σ :=
  let handler := protocol.NewEventHandler "DOM.attributeModified"
    (fun _name params st =>
      let event := json.zero
      match (json.Unmarshal params event).2 with
      | some err => log.Error err st
      | none => st.call (callback (json.Unmarshal params event).1))
  socket.AddEventHandler w handler

/-- Go method `DOM.OnAttributeRemoved` (chrome.dom.go, line 505). The Go body ends in
`return command.Err` although it declares no `command`; that value is not
modelled, the method's effect on the socket is. -/
def DOM.OnAttributeRemoved {σ υ E : Type} (json : Json E) (socket : Socketer σ (protocol.EventHandler υ))
    (w : σ) (callback : E → υ → υ) : σ :=
  let handler := protocol.NewEventHandler "DOM.attributeRemoved"
    (fun _name params st =>
      let event := json.zero
      match (json.Unmarshal params event).2 with
      | some err => log.Error err st
      | none => st.call (callback (json.Unmarshal params event).1))
  socket.AddEventHandler w handler

/-- Go method `DOM.OnInlineStyleInvalidated` (chrome.dom.go, line 525). The Go body ends in
`return command.Err` although it declares no `command`; that value is not
modelled, the method's effect on the socket is. -/
def DOM.OnInlineStyleInvalidated {σ υ E : Type} (json : Json E) (socket : Socketer σ (protocol.EventHandler υ))
    (w : σ) (callback : E → υ → υ) : σ :=
  let handler := protocol.NewEventHandler "DOM.inlineStyleInvalidated"
    (fun _name params st =>
      let event := json.zero
      match (json.Unmarshal params event).2 with
      | some err => log.Error err st
      | none => st.call (callback (json.Unmarshal params event).1))
  socket.AddEventHandler w handler

/-- Go method `DOM.OnCharacterDataModified` (chrome.dom.go, line 545). The Go body ends in
`return command.Err` although it declares no `command`; that value is not
modelled, the method's effect on the socket is. -/
def DOM.OnCharacterDataModified {σ υ E : Type} (json : Json E) (socket : Socketer σ (protocol.EventHandler υ))
    (w : σ) (callback : E → υ → υ) : σ :=
  let handler := protocol.NewEventHandler "DOM.characterDataModified"
    (fun _name params st =>
      let event := json.zero
      match (json.Unmarshal params event).2 with
      | some err => log.Error err st
      | none => st.call (callback (json.Unmarshal params event).1))
  socket.AddEventHandler w handler

/-- Go method `DOM.OnChildNodeCountUpdated` (chrome.dom.go, line 565). The Go body ends in
`return command.Err` although it declares no `command`; that value is not
modelled, the method's effect on the socket is. -/
def DOM.OnChildNodeCountUpdated {σ υ E : Type} (json : Json E) (socket : Socketer σ (protocol.EventHandler υ))
    (w : σ) (callback : E → υ → υ) : σ :=
  let handler := protocol.NewEventHandler "DOM.childNodeCountUpdated"
    (fun _name params st =>
      let event := json.zero
      match (json.Unmarshal params event).2 with
      | some err => log.Error err st
      | none => st.call (callback (json.Unmarshal params event).1))
  socket.AddEventHandler w handler

/-- Go method `DOM.OnChildNodeInserted` (chrome.dom.go, line 585). The Go body ends in
`return command.Err` although it declares no `command`; that value is not
modelled, the method's effect on the socket is. -/
def DOM.OnChildNodeInserted {σ υ E : Type} (json : Json E) (socket : Socketer σ (protocol.EventHandler υ))
    (w : σ) (callback : E → υ → υ) : σ :=
  let handler := protocol.NewEventHandler "DOM.childNodeInserted"
    (fun _name params st =>
      let event := json.zero
      match (json.Unmarshal params event).2 with
      | some err => log.Error err st
      | none => st.call (callback (json.Unmarshal params event).1))
  socket.AddEventHandler w handler

/-- Go method `DOM.OnChildNodeRemoved` (chrome.dom.go, line 605). The Go body ends in
`return command.Err` although it declares no `command`; that value is not
modelled, the method's effect on the socket is. -/
def DOM.OnChildNodeRemoved {σ υ E : Type} (json : Json E) (socket : Socketer σ (protocol.EventHandler υ))
    (w : σ) (callback : E → υ → υ) : σ :=
  let handler := protocol.NewEventHandler "DOM.childNodeRemoved"
    (fun _name params st =>
      let event := json.zero
      match (json.Unmarshal params event).2 with
      | some err => log.Error err st
      | none => st.call (callback (json.Unmarshal params event).1))
  socket.AddEventHandler w handler

/-- Go method `DOM.OnShadowRootPushed` (chrome.dom.go, line 625). The Go body ends in
`return command.Err` although it declares no `command`; that value is not
modelled, the method's effect on the socket is. -/
def DOM.OnShadowRootPushed {σ υ E : Type} (json : Json E) (socket : Socketer σ (protocol.EventHandler υ))
    (w : σ) (callback : E → υ → υ) : σ :=
  let handler := protocol.NewEventHandler "DOM.shadowRootPushed"
    (fun _name params st =>
      let event := json.zero
      match (json.Unmarshal params event).2 with
      | some err => log.Error err st
      | none => st.call (callback (json.Unmarshal params event).1))
  socket.AddEventHandler w handler

/-- Go method `DOM.OnShadowRootPopped` (chrome.dom.go, line 645). The Go body ends in
`return command.Err` although it declares no `command`; that value is not
modelled, the method's effect on the socket is. -/
def DOM.OnShadowRootPopped {σ υ E : Type} (json : Json E) (socket : Socketer σ (protocol.EventHandler υ))
    (w : σ) (callback : E → υ → υ) : σ :=
  let handler := protocol.NewEventHandler "DOM.shadowRootPopped"
    (fun _name params st =>
      let event := json.zero
      match (json.Unmarshal params event).2 with
      | some err => log.Error err st
      | none => st.call (callback (json.Unmarshal params event).1))
  socket.AddEventHandler w handler

/-- Go method `DOM.OnPseudoElementAdded` (chrome.dom.go, line 665). The Go body ends in
`return command.Err` although it declares no `command`; that value is not
modelled, the method's effect on the socket is. -/
def DOM.OnPseudoElementAdded {σ υ E : Type} (json : Json E) (socket : Socketer σ (protocol.EventHandler υ))
    (w : σ) (callback : E → υ → υ) : σ :=
  let handler := protocol.NewEventHandler "DOM.pseudoElementAdded"
    (fun _name params st =>
      let event := json.zero
      match (json.Unmarshal params event).2 with
      | some err => log.Error err st
      | none => st.call (callback (json.Unmarshal params event).1))
  socket.AddEventHandler w handler

/-- Go method `DOM.OnPseudoElementRemoved` (chrome.dom.go, line 685). The Go body ends in
`return command.Err` although it declares no `command`; that value is not
modelled, the method's effect on the socket is. -/
def DOM.OnPseudoElementRemoved {σ υ E : Type} (json : Json E) (socket : Socketer σ (protocol.EventHandler υ))
    (w : σ) (callback : E → υ → υ) : σ :=
  let handler := protocol.NewEventHandler "DOM.pseudoElementRemoved"
    (fun _name params st =>
      let event := json.zero
      match (json.Unmarshal params event).2 with
      | some err => log.Error err st
      | none => st.call (callback (json.Unmarshal params event).1))
  socket.AddEventHandler w handler

/-- Go method `DOM.OnDistributedNodesUpdated` (chrome.dom.go, line 705). The Go body ends in
`return command.Err` although it declares no `command`; that value is not
modelled, the method's effect on the socket is. -/
def DOM.OnDistributedNodesUpdated {σ υ E : Type} (json : Json E) (socket : Socketer σ (protocol.EventHandler υ))
    (w : σ) (callback : E → υ → υ) : σ :=
  let handler := protocol.NewEventHandler "DOM.distributedNodesUpdated"
    (fun _name params st =>
      let event := json.zero
      match (json.Unmarshal params event).2 with
      | some err => log.Error err st
      | none => st.call (callback (json.Unmarshal params event).1))
  socket.AddEventHandler w handler

/-- Go method `_debugger.ContinueToLocation` (protocol/chrome.debugger.go, line 12). -/
def Debugger.ContinueToLocation {σ H : Type} (socket : Socketer σ H) (w : σ) (params : Option Payload) :
    σ × Option GoError :=
  let command := NewCommand "Debugger.continueToLocation" (Params.ptr params)
  let sent := socket.SendCommand w command
  (sent.1, sent.2.Error)

/-- Go method `_debugger.Disable` (protocol/chrome.debugger.go, line 37). -/
def Debugger.Disable {σ H : Type} (socket : Socketer σ H) (w : σ) :
    σ × Option GoError :=
  let command := NewCommand "Debugger.disable" Params.nil
  let sent := socket.SendCommand w command
  (sent.1, sent.2.Error)

/-- Go method `_debugger.Enable` (protocol/chrome.debugger.go, line 50). -/
def Debugger.Enable {σ H : Type} (socket : Socketer σ H) (w : σ) :
    σ × Option GoError :=
  let command := NewCommand "Debugger.enable" Params.nil
  let sent := socket.SendCommand w command
  (sent.1, sent.2.Error)

/-- Go method `_debugger.EvaluateOnCallFrame` (protocol/chrome.debugger.go, line 64). -/
def Debugger.EvaluateOnCallFrame {σ H R : Type} (json : Json R) (socket : Socketer σ H) (w : σ) (params : Option Payload) :
    σ × R × Option GoError :=
  let command := NewCommand "Debugger.evaluateOnCallFrame" (Params.ptr params)
  let result := json.zero
  let sent := socket.SendCommand w command
  if sent.2.Error ≠ none then
    (sent.1, result, sent.2.Error)
  else
    match sent.2.Result with
    | some r =>
      match json.Marshal r with
      | Except.error err => (sent.1, result, some err)
      | Except.ok resultData =>
        if (json.Unmarshal resultData result).2 ≠ none then
          (sent.1, (json.Unmarshal resultData result).1, (json.Unmarshal resultData result).2)
        else
          (sent.1, (json.Unmarshal resultData result).1, sent.2.Error)
    | none => (sent.1, result, sent.2.Error)

/-- Go method `_debugger.GetPossibleBreakpoints` (protocol/chrome.debugger.go, line 96). -/
def Debugger.GetPossibleBreakpoints {σ H R : Type} (json : Json R) (socket : Socketer σ H) (w : σ) (params : Option Payload) :
    σ × R × Option GoError :=
  let command := NewCommand "Debugger.getPossibleBreakpoints" (Params.ptr params)
  let result := json.zero
  let sent := socket.SendCommand w command
  if sent.2.Error ≠ none then
    (sent.1, result, sent.2.Error)
  else
    match sent.2.Result with
    | some r =>
      match json.Marshal r with
      | Except.error err => (sent.1, result, some err)
      | Except.ok resultData =>
        if (json.Unmarshal resultData result).2 ≠ none then
          (sent.1, (json.Unmarshal resultData result).1, (json.Unmarshal resultData result).2)
        else
          (sent.1, (json.Unmarshal resultData result).1, sent.2.Error)
    | none => (sent.1, result, sent.2.Error)

/-- Go method `_debugger.GetScriptSource` (protocol/chrome.debugger.go, line 129). -/
def Debugger.GetScriptSource {σ H R : Type} (json : Json R) (socket : Socketer σ H) (w : σ) (params : Option Payload) :
    σ × R × Option GoError :=
  let command := NewCommand "Debugger.getScriptSource" (Params.ptr params)
  let result := json.zero
  let sent := socket.SendCommand w command
  if sent.2.Error ≠ none then
    (sent.1, result, sent.2.Error)
  else
    match sent.2.Result with
    | some r =>
      match json.Marshal r with
      | Except.error err => (sent.1, result, some err)
      | Except.ok resultData =>
        if (json.Unmarshal resultData result).2 ≠ none then
          (sent.1, (json.Unmarshal resultData result).1, (json.Unmarshal resultData result).2)
        else
          (sent.1, (json.Unmarshal resultData result).1, sent.2.Error)
    | none => (sent.1, result, sent.2.Error)

/-- Go method `_debugger.GetStackTrace` (protocol/chrome.debugger.go, line 161). -/
def Debugger.GetStackTrace {σ H R : Type} (json : Json R) (socket : Socketer σ H) (w : σ) (params : Option Payload) :
    σ × R × Option GoError :=
  let command := NewCommand "Debugger.getStackTrace" (Params.ptr params)
  let result := json.zero
  let sent := socket.SendCommand w command
  if sent.2.Error ≠ none then
    (sent.1, result, sent.2.Error)
  else
    match sent.2.Result with
    | some r =>
      match json.Marshal r with
      | Except.error err => (sent.1, result, some err)
      | Except.ok resultData =>
        if (json.Unmarshal resultData result).2 ≠ none then
          (sent.1, (json.Unmarshal resultData result).1, (json.Unmarshal resultData result).2)
        else
          (sent.1, (json.Unmarshal resultData result).1, sent.2.Error)
    | none => (sent.1, result, sent.2.Error)

/-- Go method `_debugger.Pause` (protocol/chrome.debugger.go, line 193). -/
def Debugger.Pause {σ H : Type} (socket : Socketer σ H) (w : σ) :
    σ × Option GoError :=
  let command := NewCommand "Debugger.pause" Params.nil
  let sent := socket.SendCommand w command
  (sent.1, sent.2.Error)

/-- Go method `_debugger.PauseOnAsyncCall` (protocol/chrome.debugger.go, line 206). -/
def Debugger.PauseOnAsyncCall {σ H : Type} (socket : Socketer σ H) (w : σ) (params : Option Payload) :
    σ × Option GoError :=
  let command := NewCommand "Debugger.pauseOnAsyncCall" (Params.ptr params)
  let sent := socket.SendCommand w command
  (sent.1, sent.2.Error)

/-- Go method `_debugger.RemoveBreakpoint` (protocol/chrome.debugger.go, line 220). -/
def Debugger.RemoveBreakpoint {σ H : Type} (socket : Socketer σ H) (w : σ) (params : Option Payload) :
    σ × Option GoError :=
  let command := NewCommand "Debugger.removeBreakpoint" (Params.ptr params)
  let sent := socket.SendCommand w command
  (sent.1, sent.2.Error)

/-- Go method `_debugger.RestartFrame` (protocol/chrome.debugger.go, line 234). -/
def Debugger.RestartFrame {σ H R : Type} (json : Json R) (socket : Socketer σ H) (w : σ) (params : Option Payload) :
    σ × R × Option GoError :=
  let command := NewCommand "Debugger.restartFrame" (Params.ptr params)
  let result := json.zero
  let sent := socket.SendCommand w command
  if sent.2.Error ≠ none then
    (sent.1, result, sent.2.Error)
  else
    match sent.2.Result with
    | some r =>
      match json.Marshal r with
      | Except.error err => (sent.1, result, some err)
      | Except.ok resultData =>
        if (json.Unmarshal resultData result).2 ≠ none then
          (sent.1, (json.Unmarshal resultData result).1, (json.Unmarshal resultData result).2)
        else
          (sent.1, (json.Unmarshal resultData result).1, sent.2.Error)
    | none => (sent.1, result, sent.2.Error)

/-- Go method `_debugger.Resume` (protocol/chrome.debugger.go, line 266). -/
def Debugger.Resume {σ H : Type} (socket : Socketer σ H) (w : σ) :
    σ × Option GoError :=
  let command := NewCommand "Debugger.resume" Params.nil
  let sent := socket.SendCommand w command
  (sent.1, sent.2.Error)

/-- Go method `_debugger.ScheduleStepIntoAsync` (protocol/chrome.debugger.go, line 279). -/
def Debugger.ScheduleStepIntoAsync {σ H : Type} (socket : Socketer σ H) (w : σ) :
    σ × Option GoError :=
  let command := NewCommand "Debugger.scheduleStepIntoAsync" Params.nil
  let sent := socket.SendCommand w command
  (sent.1, sent.2.Error)

/-- Go method `_debugger.SearchInContent` (protocol/chrome.debugger.go, line 295). -/
def Debugger.SearchInContent {σ H R : Type} (json : Json R) (socket : Socketer σ H) (w : σ) (params : Option Payload) :
    σ × R × Option GoError :=
  let command := NewCommand "Debugger.searchInContent" (Params.ptr params)
  let result := json.zero
  let sent := socket.SendCommand w command
  if sent.2.Error ≠ none then
    (sent.1, result, sent.2.Error)
  else
    match sent.2.Result with
    | some r =>
      match json.Marshal r with
      | Except.error err => (sent.1, result, some err)
      | Except.ok resultData =>
        if (json.Unmarshal resultData result).2 ≠ none then
          (sent.1, (json.Unmarshal resultData result).1, (json.Unmarshal resultData result).2)
        else
          (sent.1, (json.Unmarshal resultData result).1, sent.2.Error)
    | none => (sent.1, result, sent.2.Error)

/-- Go method `_debugger.SetAsyncCallStackDepth` (protocol/chrome.debugger.go, line 327). -/
def Debugger.SetAsyncCallStackDepth {σ H : Type} (socket : Socketer σ H) (w : σ) (params : Option Payload) :
    σ × Option GoError :=
  let command := NewCommand "Debugger.setAsyncCallStackDepth" (Params.ptr params)
  let sent := socket.SendCommand w command
  (sent.1, sent.2.Error)

/-- Go method `_debugger.SetBlackboxPatterns` (protocol/chrome.debugger.go, line 341). -/
def Debugger.SetBlackboxPatterns {σ H : Type} (socket : Socketer σ H) (w : σ) (params : Option Payload) :
    σ × Option GoError :=
  let command := NewCommand "Debugger.setBlackboxPatterns" (Params.ptr params)
  let sent := socket.SendCommand w command
  (sent.1, sent.2.Error)

/-- Go method `_debugger.SetBlackboxedRanges` (protocol/chrome.debugger.go, line 358). -/
def Debugger.SetBlackboxedRanges {σ H : Type} (socket : Socketer σ H) (w : σ) (params : Option Payload) :
    σ × Option GoError :=
  let command := NewCommand "Debugger.setBlackboxedRanges" (Params.ptr params)
  let sent := socket.SendCommand w command
  (sent.1, sent.2.Error)

/-- Go method `_debugger.SetBreakpoint` (protocol/chrome.debugger.go, line 375). -/
def Debugger.SetBreakpoint {σ H R : Type} (json : Json R) (socket : Socketer σ H) (w : σ) (params : Option Payload) :
    σ × R × Option GoError :=
  let command := NewCommand "Debugger.setBreakpoint" (Params.ptr params)
  let result := json.zero
  let sent := socket.SendCommand w command
  if sent.2.Error ≠ none then
    (sent.1, result, sent.2.Error)
  else
    match sent.2.Result with
    | some r =>
      match json.Marshal r with
      | Except.error err => (sent.1, result, some err)
      | Except.ok resultData =>
        if (json.Unmarshal resultData result).2 ≠ none then
          (sent.1, (json.Unmarshal resultData result).1, (json.Unmarshal resultData result).2)
        else
          (sent.1, (json.Unmarshal resultData result).1, sent.2.Error)
    | none => (sent.1, result, sent.2.Error)

/-- Go method `_debugger.SetBreakpointByURL` (protocol/chrome.debugger.go, line 407). -/
def Debugger.SetBreakpointByURL {σ H R : Type} (json : Json R) (socket : Socketer σ H) (w : σ) (params : Option Payload) :
    σ × R × Option GoError :=
  let command := NewCommand "Debugger.setBreakpointByUrl" (Params.ptr params)
  let result := json.zero
  let sent := socket.SendCommand w command
  if sent.2.Error ≠ none then
    (sent.1, result, sent.2.Error)
  else
    match sent.2.Result with
    | some r =>
      match json.Marshal r with
      | Except.error err => (sent.1, result, some err)
      | Except.ok resultData =>
        if (json.Unmarshal resultData result).2 ≠ none then
          (sent.1, (json.Unmarshal resultData result).1, (json.Unmarshal resultData result).2)
        else
          (sent.1, (json.Unmarshal resultData result).1, sent.2.Error)
    | none => (sent.1, result, sent.2.Error)

/-- Go method `_debugger.SetBreakpointsActive` (protocol/chrome.debugger.go, line 442). -/
def Debugger.SetBreakpointsActive {σ H : Type} (socket : Socketer σ H) (w : σ) (params : Option Payload) :
    σ × Option GoError :=
  let command := NewCommand "Debugger.setBreakpointsActive" (Params.ptr params)
  let sent := socket.SendCommand w command
  (sent.1, sent.2.Error)

/-- Go method `_debugger.SetPauseOnExceptions` (protocol/chrome.debugger.go, line 456). -/
def Debugger.SetPauseOnExceptions {σ H : Type} (socket : Socketer σ H) (w : σ) (params : Option Payload) :
    σ × Option GoError :=
  let command := NewCommand "Debugger.setPauseOnExceptions" (Params.ptr params)
  let sent := socket.SendCommand w command
  (sent.1, sent.2.Error)

/-- Go method `_debugger.SetReturnValue` (protocol/chrome.debugger.go, line 471). -/
def Debugger.SetReturnValue {σ H : Type} (socket : Socketer σ H) (w : σ) (params : Option Payload) :
    σ × Option GoError :=
  let command := NewCommand "Debugger.setReturnValue" (Params.ptr params)
  let sent := socket.SendCommand w command
  (sent.1, sent.2.Error)

/-- Go method `_debugger.SetScriptSource` (protocol/chrome.debugger.go, line 486). -/
def Debugger.SetScriptSource {σ H R : Type} (json : Json R) (socket : Socketer σ H) (w : σ) (params : Option Payload) :
    σ × R × Option GoError :=
  let command := NewCommand "Debugger.setScriptSource" (Params.ptr params)
  let result := json.zero
  let sent := socket.SendCommand w command
  if sent.2.Error ≠ none then
    (sent.1, result, sent.2.Error)
  else
    match sent.2.Result with
    | some r =>
      match json.Marshal r with
      | Except.error err => (sent.1, result, some err)
      | Except.ok resultData =>
        if (json.Unmarshal resultData result).2 ≠ none then
          (sent.1, (json.Unmarshal resultData result).1, (json.Unmarshal resultData result).2)
        else
          (sent.1, (json.Unmarshal resultData result).1, sent.2.Error)
    | none => (sent.1, result, sent.2.Error)

/-- Go method `_debugger.SetSkipAllPauses` (protocol/chrome.debugger.go, line 518). -/
def Debugger.SetSkipAllPauses {σ H : Type} (socket : Socketer σ H) (w : σ) (params : Option Payload) :
    σ × Option GoError :=
  let command := NewCommand "Debugger.setSkipAllPauses" (Params.ptr params)
  let sent := socket.SendCommand w command
  (sent.1, sent.2.Error)

/-- Go method `_debugger.SetVariableValue` (protocol/chrome.debugger.go, line 532). -/
def Debugger.SetVariableValue {σ H : Type} (socket : Socketer σ H) (w : σ) (params : Option Payload) :
    σ × Option GoError :=
  let command := NewCommand "Debugger.setVariableValue" (Params.ptr params)
  let sent := socket.SendCommand w command
  (sent.1, sent.2.Error)

/-- Go method `_debugger.StepInto` (protocol/chrome.debugger.go, line 547). -/
def Debugger.StepInto {σ H : Type} (socket : Socketer σ H) (w : σ) (params : Option Payload) :
    σ × Option GoError :=
  let command := NewCommand "Debugger.stepInto" (Params.ptr params)
  let sent := socket.SendCommand w command
  (sent.1, sent.2.Error)

/-- Go method `_debugger.StepOut` (protocol/chrome.debugger.go, line 561). -/
def Debugger.StepOut {σ H : Type} (socket : Socketer σ H) (w : σ) :
    σ × Option GoError :=
  let command := NewCommand "Debugger.stepOut" Params.nil
  let sent := socket.SendCommand w command
  (sent.1, sent.2.Error)

/-- Go method `_debugger.StepOver` (protocol/chrome.debugger.go, line 574). -/
def Debugger.StepOver {σ H : Type} (socket : Socketer σ H) (w : σ) :
    σ × Option GoError :=
  let command := NewCommand "Debugger.stepOver" Params.nil
  let sent := socket.SendCommand w command
  (sent.1, sent.2.Error)

/-- Go method `_debugger.OnBreakpointResolved` (protocol/chrome.debugger.go, line 587). -/
def Debugger.OnBreakpointResolved {σ υ E : Type} (json : Json E) (socket : Socketer σ (EventHandler υ))
    (w : σ) (callback : E → υ → υ) : σ :=
  let handler := NewEventHandler "Debugger.breakpointResolved"
    (fun response st =>
      let event := json.zero
      match (json.Unmarshal response.Params event).2 with
      | some err => log.Error err st
      | none => st.call (callback (json.Unmarshal response.Params event).1))
  socket.AddEventHandler w handler

/-- Go method `_debugger.OnPaused` (protocol/chrome.debugger.go, line 611). -/
def Debugger.OnPaused {σ υ E : Type} (json : Json E) (socket : Socketer σ (EventHandler υ))
    (w : σ) (callback : E → υ → υ) : σ :=
  let handler := NewEventHandler "Debugger.paused"
    (fun response st =>
      let event := json.zero
      match (json.Unmarshal response.Params event).2 with
      | some err => log.Error err st
      | none => st.call (callback (json.Unmarshal response.Params event).1))
  socket.AddEventHandler w handler

/-- Go method `_debugger.OnResumed` (protocol/chrome.debugger.go, line 635). -/
def Debugger.OnResumed {σ υ E : Type} (json : Json E) (socket : Socketer σ (EventHandler υ))
    (w : σ) (callback : E → υ → υ) : σ :=
  let handler := NewEventHandler "Debugger.resumed"
    (fun response st =>
      let event := json.zero
      match (json.Unmarshal response.Params event).2 with
      | some err => log.Error err st
      | none => st.call (callback (json.Unmarshal response.Params event).1))
  socket.AddEventHandler w handler

/-- Go method `_debugger.OnScriptFailedToParse` (protocol/chrome.debugger.go, line 659). -/
def Debugger.OnScriptFailedToParse {σ υ E : Type} (json : Json E) (socket : Socketer σ (EventHandler υ))
    (w : σ) (callback : E → υ → υ) : σ :=
  let handler := NewEventHandler "Debugger.scriptFailedToParse"
    (fun response st =>
      let event := json.zero
      match (json.Unmarshal response.Params event).2 with
      | some err => log.Error err st
      | none => st.call (callback (json.Unmarshal response.Params event).1))
  socket.AddEventHandler w handler

/-- Go method `_debugger.OnScriptParsed` (protocol/chrome.debugger.go, line 683). -/
def Debugger.OnScriptParsed {σ υ E : Type} (json : Json E) (socket : Socketer σ (EventHandler υ))
    (w : σ) (callback : E → υ → υ) : σ :=
  let handler := NewEventHandler "Debugger.scriptParsed"
    (fun response st =>
      let event := json.zero
      match (json.Unmarshal response.Params event).2 with
      | some err => log.Error err st
      | none => st.call (callback (json.Unmarshal response.Params event).1))
  socket.AddEventHandler w handler

/-- Go method `_applicationcache.Enable` (protocol/chrome.application_cache.go, line 12). -/
def ApplicationCache.Enable {σ H : Type} (socket : Socketer σ H) (w : σ) :
    σ × Option GoError :=
  let command := NewCommand "ApplicationCache.enable" Params.nil
  let sent := socket.SendCommand w command
  (sent.1, sent.2.Error)

/-- Go method `_applicationcache.GetForFrame` (protocol/chrome.application_cache.go, line 35). -/
def ApplicationCache.GetForFrame {σ H R : Type} (json : Json R) (socket : Socketer σ H) (w : σ) (params : Option Payload) :
    σ × R × Option GoError :=
  let command := NewCommand "ApplicationCache.getApplicationCacheForFrame" (Params.ptr params)
  let result := json.zero
  let sent := socket.SendCommand w command
  if sent.2.Error ≠ none then
    (sent.1, result, sent.2.Error)
  else
    match sent.2.Result with
    | some r =>
      match json.Marshal r with
      | Except.error err => (sent.1, result, some err)
      | Except.ok resultData =>
        if (json.Unmarshal resultData result).2 ≠ none then
          (sent.1, (json.Unmarshal resultData result).1, (json.Unmarshal resultData result).2)
        else
          (sent.1, (json.Unmarshal resultData result).1, sent.2.Error)
    | none => (sent.1, result, sent.2.Error)

/-- Go method `_applicationcache.GetFramesWithManifests` (protocol/chrome.application_cache.go, line 68). -/
def ApplicationCache.GetFramesWithManifests {σ H R : Type} (json : Json R) (socket : Socketer σ H) (w : σ) :
    σ × R × Option GoError :=
  let command := NewCommand "ApplicationCache.getFramesWithManifests" Params.nil
  let result := json.zero
  let sent := socket.SendCommand w command
  if sent.2.Error ≠ none then
    (sent.1, result, sent.2.Error)
  else
    match sent.2.Result with
    | some r =>
      match json.Marshal r with
      | Except.error err => (sent.1, result, some err)
      | Except.ok resultData =>
        if (json.Unmarshal resultData result).2 ≠ none then
          (sent.1, (json.Unmarshal resultData result).1, (json.Unmarshal resultData result).2)
        else
          (sent.1, (json.Unmarshal resultData result).1, sent.2.Error)
    | none => (sent.1, result, sent.2.Error)

/-- Go method `_applicationcache.GetManifestForFrame` (protocol/chrome.application_cache.go, line 100). -/
def ApplicationCache.GetManifestForFrame {σ H R : Type} (json : Json R) (socket : Socketer σ H) (w : σ) (params : Option Payload) :
    σ × R × Option GoError :=
  let command := NewCommand "ApplicationCache.getManifestForFrame" (Params.ptr params)
  let result := json.zero
  let sent := socket.SendCommand w command
  if sent.2.Error ≠ none then
    (sent.1, result, sent.2.Error)
  else
    match sent.2.Result with
    | some r =>
      match json.Marshal r with
      | Except.error err => (sent.1, result, some err)
      | Except.ok resultData =>
        if (json.Unmarshal resultData result).2 ≠ none then
          (sent.1, (json.Unmarshal resultData result).1, (json.Unmarshal resultData result).2)
        else
          (sent.1, (json.Unmarshal resultData result).1, sent.2.Error)
    | none => (sent.1, result, sent.2.Error)

/-- Go method `_applicationcache.OnApplicationCacheStatusUpdated` (protocol/chrome.application_cache.go, line 132). -/
def ApplicationCache.OnApplicationCacheStatusUpdated {σ υ E : Type} (json : Json E) (socket : Socketer σ (EventHandler υ))
    (w : σ) (callback : E → υ → υ) : σ :=
  let handler := NewEventHandler "ApplicationCache.applicationCacheStatusUpdated"
    (fun response st =>
      let event := json.zero
      match (json.Unmarshal response.Params event).2 with
      | some err => log.Error err st
      | none => st.call (callback (json.Unmarshal response.Params event).1))
  socket.AddEventHandler w handler

/-- Go method `_applicationcache.OnNetworkStateUpdated` (protocol/chrome.application_cache.go, line 155). -/
def ApplicationCache.OnNetworkStateUpdated {σ υ E : Type} (json : Json E) (socket : Socketer σ (EventHandler υ))
    (w : σ) (callback : E → υ → υ) : σ :=
  let handler := NewEventHandler "ApplicationCache.networkStateUpdated"
    (fun response st =>
      let event := json.zero
      match (json.Unmarshal response.Params event).2 with
      | some err => log.Error err st
      | none => st.call (callback (json.Unmarshal response.Params event).1))
  socket.AddEventHandler w handler

/-- Go method `HeadlessExperimentalProtocol.BeginFrame`
(socket/protocol.headless_experimental.go, line 10). In this package
`command.Result()` is a `[]byte`, taken here as the parameter `Result`; `result`
is a pointer, and `json.Unmarshal` is given a pointer to that pointer, so the
decoder works on an `Option R` and may leave it nil. -/
def HeadlessExperimentalProtocol.BeginFrame {σ υ R : Type} (zero : R) (Result : Command → Bytes)
    (Unmarshal : Bytes → Option R → Option R × Option GoError)
    (protocol : HeadlessExperimentalProtocol σ υ) (w : σ) (params : Option Payload) :
    σ × Option R × Option GoError :=
  let command := NewCommand "HeadlessExperimental.beginFrame" (Params.ptr params)
  let result : Option R := some zero
  let sent := protocol.Socket.SendCommand w command
  if sent.2.Error ≠ none then
    (sent.1, result, sent.2.Error)
  else
    (sent.1, (Unmarshal (Result sent.2) result).1, (Unmarshal (Result sent.2) result).2)

/-- Go method `HeadlessExperimentalProtocol.Disable` (socket/protocol.headless_experimental.go, line 43). -/
def HeadlessExperimentalProtocol.Disable {σ υ : Type} (protocol : HeadlessExperimentalProtocol σ υ) (w : σ) :
    σ × Option GoError :=
  let command := NewCommand "HeadlessExperimental.disable" Params.nil
  let sent := protocol.Socket.SendCommand w command
  (sent.1, sent.2.Error)

/-- Go method `HeadlessExperimentalProtocol.Enable` (socket/protocol.headless_experimental.go, line 54). -/
def HeadlessExperimentalProtocol.Enable {σ υ : Type} (protocol : HeadlessExperimentalProtocol σ υ) (w : σ) :
    σ × Option GoError :=
  let command := NewCommand "HeadlessExperimental.enable" Params.nil
  let sent := protocol.Socket.SendCommand w command
  (sent.1, sent.2.Error)

/-- Go method `HeadlessExperimentalProtocol.OnMainFrameReadyForScreenshots` (socket/protocol.headless_experimental.go, line 65). -/
def HeadlessExperimentalProtocol.OnMainFrameReadyForScreenshots {σ υ E : Type} (json : Json E) (protocol : HeadlessExperimentalProtocol σ υ)
    (w : σ) (callback : E → υ → υ) : σ :=
  let handler := NewEventHandler "HeadlessExperimental.mainFrameReadyForScreenshots"
    (fun response st =>
      let event := json.zero
      match (json.Unmarshal response.Params event).2 with
      | some err => log.Error err st
      | none => st.call (callback (json.Unmarshal response.Params event).1))
  protocol.Socket.AddEventHandler w handler

/-- Go method `HeadlessExperimentalProtocol.OnNeedsBeginFramesChanged` (socket/protocol.headless_experimental.go, line 91). -/
def HeadlessExperimentalProtocol.OnNeedsBeginFramesChanged {σ υ E : Type} (json : Json E) (protocol : HeadlessExperimentalProtocol σ υ)
    (w : σ) (callback : E → υ → υ) : σ :=
  let handler := NewEventHandler "HeadlessExperimental.needsBeginFramesChanged"
    (fun response st =>
      let event := json.zero
      match (json.Unmarshal response.Params event).2 with
      | some err => log.Error err st
      | none => st.call (callback (json.Unmarshal response.Params event).1))
  protocol.Socket.AddEventHandler w handler
/-! ## The methods by shape -/

/-- The facade command methods that return only an error. -/
inductive ErrorMethod where
  | CSS_Enable
  | CSS_Disable
  | CSS_GetMatchedStylesForNode
  | CSS_GetInlineStylesForNode
  | CSS_GetComputedStyleForNode
  | CSS_GetPlatformFontsForNode
  | CSS_GetStyleSheetText
  | CSS_CollectClassNames
  | CSS_SetStyleSheetText
  | CSS_SetRuleSelector
  | CSS_SetKeyframeKey
  | CSS_SetStyleTexts
  | CSS_SetMediaText
  | CSS_CreateStyleSheet
  | CSS_AddRule
  | CSS_ForcePseudoState
  | CSS_GetMediaQueries
  | CSS_SetEffectivePropertyValueForNode
  | CSS_GetBackgroundColors
  | CSS_StartRuleUsageTracking
  | CSS_TakeCoverageDelta
  | CSS_StopRuleUsageTracking
  | DOM_Enable
  | DOM_Disable
  | DOM_GetDocument
  | DOM_GetFlattenedDocument
  | DOM_RequestChildNodes
  | DOM_QuerySelector
  | DOM_SetNodeName
  | DOM_SetNodeValue
  | DOM_RemoveNode
  | DOM_SetAttributeValue
  | DOM_SetAttributesAsText
  | DOM_RemoveAttribute
  | DOM_GetOuterHTML
  | DOM_SetOuterHTML
  | DOM_PerformSearch
  | DOM_GetSearchResults
  | DOM_DiscardSearchResults
  | DOM_RequestNode
  | DOM_PushNodeByPathToFrontend
  | DOM_PushNodesByBackendIDsToFrontend
  | DOM_SetInspectedNode
  | DOM_ResolveNode
  | DOM_GetAttributes
  | DOM_CopyTo
  | DOM_MoveTo
  | DOM_Undo
  | DOM_Redo
  | DOM_MarkUndoableState
  | DOM_Focus
  | DOM_SetFileInputFiles
  | DOM_GetBoxModel
  | DOM_GetNodeForLocation
  | DOM_GetRelayoutBoundary
  | DOM_DescribeNode
  | Debugger_ContinueToLocation
  | Debugger_Disable
  | Debugger_Enable
  | Debugger_Pause
  | Debugger_PauseOnAsyncCall
  | Debugger_RemoveBreakpoint
  | Debugger_Resume
  | Debugger_ScheduleStepIntoAsync
  | Debugger_SetAsyncCallStackDepth
  | Debugger_SetBlackboxPatterns
  | Debugger_SetBlackboxedRanges
  | Debugger_SetBreakpointsActive
  | Debugger_SetPauseOnExceptions
  | Debugger_SetReturnValue
  | Debugger_SetSkipAllPauses
  | Debugger_SetVariableValue
  | Debugger_StepInto
  | Debugger_StepOut
  | Debugger_StepOver
  | ApplicationCache_Enable
  deriving DecidableEq, Repr

/-- The Go method a name of `ErrorMethod` stands for. -/
def ErrorMethod.run {σ H : Type} (m : ErrorMethod) (socket : Socketer σ H) (w : σ)
    (params : Option Payload) : σ × Option GoError :=
  match m with
  | .CSS_Enable => CSS.Enable socket w
  | .CSS_Disable => CSS.Disable socket w
  | .CSS_GetMatchedStylesForNode => CSS.GetMatchedStylesForNode socket w params
  | .CSS_GetInlineStylesForNode => CSS.GetInlineStylesForNode socket w params
  | .CSS_GetComputedStyleForNode => CSS.GetComputedStyleForNode socket w params
  | .CSS_GetPlatformFontsForNode => CSS.GetPlatformFontsForNode socket w params
  | .CSS_GetStyleSheetText => CSS.GetStyleSheetText socket w params
  | .CSS_CollectClassNames => CSS.CollectClassNames socket w params
  | .CSS_SetStyleSheetText => CSS.SetStyleSheetText socket w params
  | .CSS_SetRuleSelector => CSS.SetRuleSelector socket w params
  | .CSS_SetKeyframeKey => CSS.SetKeyframeKey socket w params
  | .CSS_SetStyleTexts => CSS.SetStyleTexts socket w params
  | .CSS_SetMediaText => CSS.SetMediaText socket w params
  | .CSS_CreateStyleSheet => CSS.CreateStyleSheet socket w params
  | .CSS_AddRule => CSS.AddRule socket w params
  | .CSS_ForcePseudoState => CSS.ForcePseudoState socket w params
  | .CSS_GetMediaQueries => CSS.GetMediaQueries socket w params
  | .CSS_SetEffectivePropertyValueForNode => CSS.SetEffectivePropertyValueForNode socket w params
  | .CSS_GetBackgroundColors => CSS.GetBackgroundColors socket w params
  | .CSS_StartRuleUsageTracking => CSS.StartRuleUsageTracking socket w
  | .CSS_TakeCoverageDelta => CSS.TakeCoverageDelta socket w
  | .CSS_StopRuleUsageTracking => CSS.StopRuleUsageTracking socket w
  | .DOM_Enable => DOM.Enable socket w
  | .DOM_Disable => DOM.Disable socket w
  | .DOM_GetDocument => DOM.GetDocument socket w params
  | .DOM_GetFlattenedDocument => DOM.GetFlattenedDocument socket w params
  | .DOM_RequestChildNodes => DOM.RequestChildNodes socket w params
  | .DOM_QuerySelector => DOM.QuerySelector socket w params
  | .DOM_SetNodeName => DOM.SetNodeName socket w params
  | .DOM_SetNodeValue => DOM.SetNodeValue socket w params
  | .DOM_RemoveNode => DOM.RemoveNode socket w params
  | .DOM_SetAttributeValue => DOM.SetAttributeValue socket w params
  | .DOM_SetAttributesAsText => DOM.SetAttributesAsText socket w params
  | .DOM_RemoveAttribute => DOM.RemoveAttribute socket w params
  | .DOM_GetOuterHTML => DOM.GetOuterHTML socket w params
  | .DOM_SetOuterHTML => DOM.SetOuterHTML socket w params
  | .DOM_PerformSearch => DOM.PerformSearch socket w params
  | .DOM_GetSearchResults => DOM.GetSearchResults socket w params
  | .DOM_DiscardSearchResults => DOM.DiscardSearchResults socket w params
  | .DOM_RequestNode => DOM.RequestNode socket w params
  | .DOM_PushNodeByPathToFrontend => DOM.PushNodeByPathToFrontend socket w params
  | .DOM_PushNodesByBackendIDsToFrontend => DOM.PushNodesByBackendIDsToFrontend socket w params
  | .DOM_SetInspectedNode => DOM.SetInspectedNode socket w params
  | .DOM_ResolveNode => DOM.ResolveNode socket w params
  | .DOM_GetAttributes => DOM.GetAttributes socket w params
  | .DOM_CopyTo => DOM.CopyTo socket w params
  | .DOM_MoveTo => DOM.MoveTo socket w params
  | .DOM_Undo => DOM.Undo socket w
  | .DOM_Redo => DOM.Redo socket w
  | .DOM_MarkUndoableState => DOM.MarkUndoableState socket w
  | .DOM_Focus => DOM.Focus socket w params
  | .DOM_SetFileInputFiles => DOM.SetFileInputFiles socket w params
  | .DOM_GetBoxModel => DOM.GetBoxModel socket w params
  | .DOM_GetNodeForLocation => DOM.GetNodeForLocation socket w params
  | .DOM_GetRelayoutBoundary => DOM.GetRelayoutBoundary socket w params
  | .DOM_DescribeNode => DOM.DescribeNode socket w params
  | .Debugger_ContinueToLocation => Debugger.ContinueToLocation socket w params
  | .Debugger_Disable => Debugger.Disable socket w
  | .Debugger_Enable => Debugger.Enable socket w
  | .Debugger_Pause => Debugger.Pause socket w
  | .Debugger_PauseOnAsyncCall => Debugger.PauseOnAsyncCall socket w params
  | .Debugger_RemoveBreakpoint => Debugger.RemoveBreakpoint socket w params
  | .Debugger_Resume => Debugger.Resume socket w
  | .Debugger_ScheduleStepIntoAsync => Debugger.ScheduleStepIntoAsync socket w
  | .Debugger_SetAsyncCallStackDepth => Debugger.SetAsyncCallStackDepth socket w params
  | .Debugger_SetBlackboxPatterns => Debugger.SetBlackboxPatterns socket w params
  | .Debugger_SetBlackboxedRanges => Debugger.SetBlackboxedRanges socket w params
  | .Debugger_SetBreakpointsActive => Debugger.SetBreakpointsActive socket w params
  | .Debugger_SetPauseOnExceptions => Debugger.SetPauseOnExceptions socket w params
  | .Debugger_SetReturnValue => Debugger.SetReturnValue socket w params
  | .Debugger_SetSkipAllPauses => Debugger.SetSkipAllPauses socket w params
  | .Debugger_SetVariableValue => Debugger.SetVariableValue socket w params
  | .Debugger_StepInto => Debugger.StepInto socket w params
  | .Debugger_StepOut => Debugger.StepOut socket w
  | .Debugger_StepOver => Debugger.StepOver socket w
  | .ApplicationCache_Enable => ApplicationCache.Enable socket w

/-- The protocol URL in the doc comment of the method, where it has one. -/
def ErrorMethod.docURL : ErrorMethod → Option String
  | .CSS_Enable => none
  | .CSS_Disable => none
  | .CSS_GetMatchedStylesForNode => none
  | .CSS_GetInlineStylesForNode => none
  | .CSS_GetComputedStyleForNode => none
  | .CSS_GetPlatformFontsForNode => none
  | .CSS_GetStyleSheetText => none
  | .CSS_CollectClassNames => none
  | .CSS_SetStyleSheetText => none
  | .CSS_SetRuleSelector => none
  | .CSS_SetKeyframeKey => none
  | .CSS_SetStyleTexts => none
  | .CSS_SetMediaText => none
  | .CSS_CreateStyleSheet => none
  | .CSS_AddRule => none
  | .CSS_ForcePseudoState => none
  | .CSS_GetMediaQueries => none
  | .CSS_SetEffectivePropertyValueForNode => none
  | .CSS_GetBackgroundColors => none
  | .CSS_StartRuleUsageTracking => none
  | .CSS_TakeCoverageDelta => none
  | .CSS_StopRuleUsageTracking => none
  | .DOM_Enable => none
  | .DOM_Disable => none
  | .DOM_GetDocument => none
  | .DOM_GetFlattenedDocument => none
  | .DOM_RequestChildNodes => none
  | .DOM_QuerySelector => none
  | .DOM_SetNodeName => none
  | .DOM_SetNodeValue => none
  | .DOM_RemoveNode => none
  | .DOM_SetAttributeValue => none
  | .DOM_SetAttributesAsText => none
  | .DOM_RemoveAttribute => none
  | .DOM_GetOuterHTML => none
  | .DOM_SetOuterHTML => none
  | .DOM_PerformSearch => none
  | .DOM_GetSearchResults => none
  | .DOM_DiscardSearchResults => none
  | .DOM_RequestNode => none
  | .DOM_PushNodeByPathToFrontend => none
  | .DOM_PushNodesByBackendIDsToFrontend => none
  | .DOM_SetInspectedNode => none
  | .DOM_ResolveNode => none
  | .DOM_GetAttributes => none
  | .DOM_CopyTo => none
  | .DOM_MoveTo => none
  | .DOM_Undo => none
  | .DOM_Redo => none
  | .DOM_MarkUndoableState => none
  | .DOM_Focus => none
  | .DOM_SetFileInputFiles => none
  | .DOM_GetBoxModel => none
  | .DOM_GetNodeForLocation => none
  | .DOM_GetRelayoutBoundary => none
  | .DOM_DescribeNode => none
  | .Debugger_ContinueToLocation => some "https://chromedevtools.github.io/devtools-protocol/tot/Debugger/#method-continueToLocation"
  | .Debugger_Disable => some "https://chromedevtools.github.io/devtools-protocol/tot/Debugger/#method-disable"
  | .Debugger_Enable => some "https://chromedevtools.github.io/devtools-protocol/tot/Debugger/#method-enable"
  | .Debugger_Pause => some "https://chromedevtools.github.io/devtools-protocol/tot/Debugger/#method-pause"
  | .Debugger_PauseOnAsyncCall => some "https://chromedevtools.github.io/devtools-protocol/tot/Debugger/#method-pauseOnAsyncCall"
  | .Debugger_RemoveBreakpoint => some "https://chromedevtools.github.io/devtools-protocol/tot/Debugger/#method-removeBreakpoint"
  | .Debugger_Resume => some "https://chromedevtools.github.io/devtools-protocol/tot/Debugger/#method-resume"
  | .Debugger_ScheduleStepIntoAsync => some "https://chromedevtools.github.io/devtools-protocol/tot/Debugger/#method-scheduleStepIntoAsync"
  | .Debugger_SetAsyncCallStackDepth => some "https://chromedevtools.github.io/devtools-protocol/tot/Debugger/#method-setAsyncCallStackDepth"
  | .Debugger_SetBlackboxPatterns => some "https://chromedevtools.github.io/devtools-protocol/tot/Debugger/#method-setBlackboxPatterns"
  | .Debugger_SetBlackboxedRanges => some "https://chromedevtools.github.io/devtools-protocol/tot/Debugger/#method-setBlackboxedRanges"
  | .Debugger_SetBreakpointsActive => some "https://chromedevtools.github.io/devtools-protocol/tot/Debugger/#method-setBreakpointsActive"
  | .Debugger_SetPauseOnExceptions => some "https://chromedevtools.github.io/devtools-protocol/tot/Debugger/#method-setPauseOnExceptions"
  | .Debugger_SetReturnValue => some "https://chromedevtools.github.io/devtools-protocol/tot/Debugger/#method-setReturnValue"
  | .Debugger_SetSkipAllPauses => some "https://chromedevtools.github.io/devtools-protocol/tot/Debugger/#method-setSkipAllPauses"
  | .Debugger_SetVariableValue => some "https://chromedevtools.github.io/devtools-protocol/tot/Debugger/#method-setVariableValue"
  | .Debugger_StepInto => some "https://chromedevtools.github.io/devtools-protocol/tot/Debugger/#method-stepInto"
  | .Debugger_StepOut => some "https://chromedevtools.github.io/devtools-protocol/tot/Debugger/#method-stepOut"
  | .Debugger_StepOver => some "https://chromedevtools.github.io/devtools-protocol/tot/Debugger/#method-stepOver"
  | .ApplicationCache_Enable => some "https://chromedevtools.github.io/devtools-protocol/tot/ApplicationCache/#method-enable"

/-- The protocol domain of the facade the method belongs to. -/
def ErrorMethod.domain : ErrorMethod → String
  | .CSS_Enable => "CSS"
  | .CSS_Disable => "CSS"
  | .CSS_GetMatchedStylesForNode => "CSS"
  | .CSS_GetInlineStylesForNode => "CSS"
  | .CSS_GetComputedStyleForNode => "CSS"
  | .CSS_GetPlatformFontsForNode => "CSS"
  | .CSS_GetStyleSheetText => "CSS"
  | .CSS_CollectClassNames => "CSS"
  | .CSS_SetStyleSheetText => "CSS"
  | .CSS_SetRuleSelector => "CSS"
  | .CSS_SetKeyframeKey => "CSS"
  | .CSS_SetStyleTexts => "CSS"
  | .CSS_SetMediaText => "CSS"
  | .CSS_CreateStyleSheet => "CSS"
  | .CSS_AddRule => "CSS"
  | .CSS_ForcePseudoState => "CSS"
  | .CSS_GetMediaQueries => "CSS"
  | .CSS_SetEffectivePropertyValueForNode => "CSS"
  | .CSS_GetBackgroundColors => "CSS"
  | .CSS_StartRuleUsageTracking => "CSS"
  | .CSS_TakeCoverageDelta => "CSS"
  | .CSS_StopRuleUsageTracking => "CSS"
  | .DOM_Enable => "DOM"
  | .DOM_Disable => "DOM"
  | .DOM_GetDocument => "DOM"
  | .DOM_GetFlattenedDocument => "DOM"
  | .DOM_RequestChildNodes => "DOM"
  | .DOM_QuerySelector => "DOM"
  | .DOM_SetNodeName => "DOM"
  | .DOM_SetNodeValue => "DOM"
  | .DOM_RemoveNode => "DOM"
  | .DOM_SetAttributeValue => "DOM"
  | .DOM_SetAttributesAsText => "DOM"
  | .DOM_RemoveAttribute => "DOM"
  | .DOM_GetOuterHTML => "DOM"
  | .DOM_SetOuterHTML => "DOM"
  | .DOM_PerformSearch => "DOM"
  | .DOM_GetSearchResults => "DOM"
  | .DOM_DiscardSearchResults => "DOM"
  | .DOM_RequestNode => "DOM"
  | .DOM_PushNodeByPathToFrontend => "DOM"
  | .DOM_PushNodesByBackendIDsToFrontend => "DOM"
  | .DOM_SetInspectedNode => "DOM"
  | .DOM_ResolveNode => "DOM"
  | .DOM_GetAttributes => "DOM"
  | .DOM_CopyTo => "DOM"
  | .DOM_MoveTo => "DOM"
  | .DOM_Undo => "DOM"
  | .DOM_Redo => "DOM"
  | .DOM_MarkUndoableState => "DOM"
  | .DOM_Focus => "DOM"
  | .DOM_SetFileInputFiles => "DOM"
  | .DOM_GetBoxModel => "DOM"
  | .DOM_GetNodeForLocation => "DOM"
  | .DOM_GetRelayoutBoundary => "DOM"
  | .DOM_DescribeNode => "DOM"
  | .Debugger_ContinueToLocation => "Debugger"
  | .Debugger_Disable => "Debugger"
  | .Debugger_Enable => "Debugger"
  | .Debugger_Pause => "Debugger"
  | .Debugger_PauseOnAsyncCall => "Debugger"
  | .Debugger_RemoveBreakpoint => "Debugger"
  | .Debugger_Resume => "Debugger"
  | .Debugger_ScheduleStepIntoAsync => "Debugger"
  | .Debugger_SetAsyncCallStackDepth => "Debugger"
  | .Debugger_SetBlackboxPatterns => "Debugger"
  | .Debugger_SetBlackboxedRanges => "Debugger"
  | .Debugger_SetBreakpointsActive => "Debugger"
  | .Debugger_SetPauseOnExceptions => "Debugger"
  | .Debugger_SetReturnValue => "Debugger"
  | .Debugger_SetSkipAllPauses => "Debugger"
  | .Debugger_SetVariableValue => "Debugger"
  | .Debugger_StepInto => "Debugger"
  | .Debugger_StepOut => "Debugger"
  | .Debugger_StepOver => "Debugger"
  | .ApplicationCache_Enable => "ApplicationCache"

/-- Whether the Go method has a `params` argument. -/
def ErrorMethod.takesParams : ErrorMethod → Bool
  | .CSS_Enable => false
  | .CSS_Disable => false
  | .CSS_GetMatchedStylesForNode => true
  | .CSS_GetInlineStylesForNode => true
  | .CSS_GetComputedStyleForNode => true
  | .CSS_GetPlatformFontsForNode => true
  | .CSS_GetStyleSheetText => true
  | .CSS_CollectClassNames => true
  | .CSS_SetStyleSheetText => true
  | .CSS_SetRuleSelector => true
  | .CSS_SetKeyframeKey => true
  | .CSS_SetStyleTexts => true
  | .CSS_SetMediaText => true
  | .CSS_CreateStyleSheet => true
  | .CSS_AddRule => true
  | .CSS_ForcePseudoState => true
  | .CSS_GetMediaQueries => true
  | .CSS_SetEffectivePropertyValueForNode => true
  | .CSS_GetBackgroundColors => true
  | .CSS_StartRuleUsageTracking => false
  | .CSS_TakeCoverageDelta => false
  | .CSS_StopRuleUsageTracking => false
  | .DOM_Enable => false
  | .DOM_Disable => false
  | .DOM_GetDocument => true
  | .DOM_GetFlattenedDocument => true
  | .DOM_RequestChildNodes => true
  | .DOM_QuerySelector => true
  | .DOM_SetNodeName => true
  | .DOM_SetNodeValue => true
  | .DOM_RemoveNode => true
  | .DOM_SetAttributeValue => true
  | .DOM_SetAttributesAsText => true
  | .DOM_RemoveAttribute => true
  | .DOM_GetOuterHTML => true
  | .DOM_SetOuterHTML => true
  | .DOM_PerformSearch => true
  | .DOM_GetSearchResults => true
  | .DOM_DiscardSearchResults => true
  | .DOM_RequestNode => true
  | .DOM_PushNodeByPathToFrontend => true
  | .DOM_PushNodesByBackendIDsToFrontend => true
  | .DOM_SetInspectedNode => true
  | .DOM_ResolveNode => true
  | .DOM_GetAttributes => true
  | .DOM_CopyTo => true
  | .DOM_MoveTo => true
  | .DOM_Undo => false
  | .DOM_Redo => false
  | .DOM_MarkUndoableState => false
  | .DOM_Focus => true
  | .DOM_SetFileInputFiles => true
  | .DOM_GetBoxModel => true
  | .DOM_GetNodeForLocation => true
  | .DOM_GetRelayoutBoundary => true
  | .DOM_DescribeNode => true
  | .Debugger_ContinueToLocation => true
  | .Debugger_Disable => false
  | .Debugger_Enable => false
  | .Debugger_Pause => false
  | .Debugger_PauseOnAsyncCall => true
  | .Debugger_RemoveBreakpoint => true
  | .Debugger_Resume => false
  | .Debugger_ScheduleStepIntoAsync => false
  | .Debugger_SetAsyncCallStackDepth => true
  | .Debugger_SetBlackboxPatterns => true
  | .Debugger_SetBlackboxedRanges => true
  | .Debugger_SetBreakpointsActive => true
  | .Debugger_SetPauseOnExceptions => true
  | .Debugger_SetReturnValue => true
  | .Debugger_SetSkipAllPauses => true
  | .Debugger_SetVariableValue => true
  | .Debugger_StepInto => true
  | .Debugger_StepOut => false
  | .Debugger_StepOver => false
  | .ApplicationCache_Enable => false

/-- The HeadlessExperimental command methods that return only an error. -/
inductive HeadlessErrorMethod where
  | HeadlessExperimental_Disable
  | HeadlessExperimental_Enable
  deriving DecidableEq, Repr

/-- The Go method a name of `HeadlessErrorMethod` stands for. -/
def HeadlessErrorMethod.run {σ υ : Type} (m : HeadlessErrorMethod)
    (protocol : HeadlessExperimentalProtocol σ υ) (w : σ) : σ × Option GoError :=
  match m with
  | .HeadlessExperimental_Disable => HeadlessExperimentalProtocol.Disable protocol w
  | .HeadlessExperimental_Enable => HeadlessExperimentalProtocol.Enable protocol w

/-- The protocol URL in the doc comment of the method, where it has one. -/
def HeadlessErrorMethod.docURL : HeadlessErrorMethod → Option String
  | .HeadlessExperimental_Disable => some "https://chromedevtools.github.io/devtools-protocol/tot/HeadlessExperimental/#method-disable"
  | .HeadlessExperimental_Enable => some "https://chromedevtools.github.io/devtools-protocol/tot/HeadlessExperimental/#method-enable"

/-- The protocol domain of the facade the method belongs to. -/
def HeadlessErrorMethod.domain : HeadlessErrorMethod → String
  | .HeadlessExperimental_Disable => "HeadlessExperimental"
  | .HeadlessExperimental_Enable => "HeadlessExperimental"

/-- The result-bearing methods of the Debugger and ApplicationCache facades. -/
inductive ResultMethod where
  | Debugger_EvaluateOnCallFrame
  | Debugger_GetPossibleBreakpoints
  | Debugger_GetScriptSource
  | Debugger_GetStackTrace
  | Debugger_RestartFrame
  | Debugger_SearchInContent
  | Debugger_SetBreakpoint
  | Debugger_SetBreakpointByURL
  | Debugger_SetScriptSource
  | ApplicationCache_GetForFrame
  | ApplicationCache_GetFramesWithManifests
  | ApplicationCache_GetManifestForFrame
  deriving DecidableEq, Repr

/-- The Go method a name of `ResultMethod` stands for. -/
def ResultMethod.run {σ H R : Type} (m : ResultMethod) (json : Json R) (socket : Socketer σ H)
    (w : σ) (params : Option Payload) : σ × R × Option GoError :=
  match m with
  | .Debugger_EvaluateOnCallFrame => Debugger.EvaluateOnCallFrame json socket w params
  | .Debugger_GetPossibleBreakpoints => Debugger.GetPossibleBreakpoints json socket w params
  | .Debugger_GetScriptSource => Debugger.GetScriptSource json socket w params
  | .Debugger_GetStackTrace => Debugger.GetStackTrace json socket w params
  | .Debugger_RestartFrame => Debugger.RestartFrame json socket w params
  | .Debugger_SearchInContent => Debugger.SearchInContent json socket w params
  | .Debugger_SetBreakpoint => Debugger.SetBreakpoint json socket w params
  | .Debugger_SetBreakpointByURL => Debugger.SetBreakpointByURL json socket w params
  | .Debugger_SetScriptSource => Debugger.SetScriptSource json socket w params
  | .ApplicationCache_GetForFrame => ApplicationCache.GetForFrame json socket w params
  | .ApplicationCache_GetFramesWithManifests => ApplicationCache.GetFramesWithManifests json socket w
  | .ApplicationCache_GetManifestForFrame => ApplicationCache.GetManifestForFrame json socket w params

/-- The protocol URL in the doc comment of the method, where it has one. -/
def ResultMethod.docURL : ResultMethod → Option String
  | .Debugger_EvaluateOnCallFrame => some "https://chromedevtools.github.io/devtools-protocol/tot/Debugger/#method-evaluateOnCallFrame"
  | .Debugger_GetPossibleBreakpoints => some "https://chromedevtools.github.io/devtools-protocol/tot/Debugger/#method-getPossibleBreakpoints"
  | .Debugger_GetScriptSource => some "https://chromedevtools.github.io/devtools-protocol/tot/Debugger/#method-getScriptSource"
  | .Debugger_GetStackTrace => some "https://chromedevtools.github.io/devtools-protocol/tot/Debugger/#method-getStackTrace"
  | .Debugger_RestartFrame => some "https://chromedevtools.github.io/devtools-protocol/tot/Debugger/#method-restartFrame"
  | .Debugger_SearchInContent => some "https://chromedevtools.github.io/devtools-protocol/tot/Debugger/#method-searchInContent"
  | .Debugger_SetBreakpoint => some "https://chromedevtools.github.io/devtools-protocol/tot/Debugger/#method-setBreakpoint"
  | .Debugger_SetBreakpointByURL => some "https://chromedevtools.github.io/devtools-protocol/tot/Debugger/#method-setBreakpointByUrl"
  | .Debugger_SetScriptSource => some "https://chromedevtools.github.io/devtools-protocol/tot/Debugger/#method-setScriptSource"
  | .ApplicationCache_GetForFrame => some "https://chromedevtools.github.io/devtools-protocol/tot/ApplicationCache/#method-getApplicationCacheForFrame"
  | .ApplicationCache_GetFramesWithManifests => some "https://chromedevtools.github.io/devtools-protocol/tot/ApplicationCache/#method-getFramesWithManifests"
  | .ApplicationCache_GetManifestForFrame => some "https://chromedevtools.github.io/devtools-protocol/tot/ApplicationCache/#method-getManifestForFrame"

/-- The protocol domain of the facade the method belongs to. -/
def ResultMethod.domain : ResultMethod → String
  | .Debugger_EvaluateOnCallFrame => "Debugger"
  | .Debugger_GetPossibleBreakpoints => "Debugger"
  | .Debugger_GetScriptSource => "Debugger"
  | .Debugger_GetStackTrace => "Debugger"
  | .Debugger_RestartFrame => "Debugger"
  | .Debugger_SearchInContent => "Debugger"
  | .Debugger_SetBreakpoint => "Debugger"
  | .Debugger_SetBreakpointByURL => "Debugger"
  | .Debugger_SetScriptSource => "Debugger"
  | .ApplicationCache_GetForFrame => "ApplicationCache"
  | .ApplicationCache_GetFramesWithManifests => "ApplicationCache"
  | .ApplicationCache_GetManifestForFrame => "ApplicationCache"

/-- Whether the Go method has a `params` argument. -/
def ResultMethod.takesParams : ResultMethod → Bool
  | .Debugger_EvaluateOnCallFrame => true
  | .Debugger_GetPossibleBreakpoints => true
  | .Debugger_GetScriptSource => true
  | .Debugger_GetStackTrace => true
  | .Debugger_RestartFrame => true
  | .Debugger_SearchInContent => true
  | .Debugger_SetBreakpoint => true
  | .Debugger_SetBreakpointByURL => true
  | .Debugger_SetScriptSource => true
  | .ApplicationCache_GetForFrame => true
  | .ApplicationCache_GetFramesWithManifests => false
  | .ApplicationCache_GetManifestForFrame => true

/-- The `On*` methods of the Debugger and ApplicationCache facades. -/
inductive OnMethod where
  | Debugger_OnBreakpointResolved
  | Debugger_OnPaused
  | Debugger_OnResumed
  | Debugger_OnScriptFailedToParse
  | Debugger_OnScriptParsed
  | ApplicationCache_OnApplicationCacheStatusUpdated
  | ApplicationCache_OnNetworkStateUpdated
  deriving DecidableEq, Repr

/-- The Go method a name of `OnMethod` stands for. -/
def OnMethod.run {σ υ E : Type} (m : OnMethod) (json : Json E)
    (socket : Socketer σ (EventHandler υ)) (w : σ) (callback : E → υ → υ) : σ :=
  match m with
  | .Debugger_OnBreakpointResolved => Debugger.OnBreakpointResolved json socket w callback
  | .Debugger_OnPaused => Debugger.OnPaused json socket w callback
  | .Debugger_OnResumed => Debugger.OnResumed json socket w callback
  | .Debugger_OnScriptFailedToParse => Debugger.OnScriptFailedToParse json socket w callback
  | .Debugger_OnScriptParsed => Debugger.OnScriptParsed json socket w callback
  | .ApplicationCache_OnApplicationCacheStatusUpdated => ApplicationCache.OnApplicationCacheStatusUpdated json socket w callback
  | .ApplicationCache_OnNetworkStateUpdated => ApplicationCache.OnNetworkStateUpdated json socket w callback

/-- The protocol URL in the doc comment of the method, where it has one. -/
def OnMethod.docURL : OnMethod → Option String
  | .Debugger_OnBreakpointResolved => some "https://chromedevtools.github.io/devtools-protocol/tot/Debugger/#event-breakpointResolved"
  | .Debugger_OnPaused => some "https://chromedevtools.github.io/devtools-protocol/tot/Debugger/#event-paused"
  | .Debugger_OnResumed => some "https://chromedevtools.github.io/devtools-protocol/tot/Debugger/#event-resumed"
  | .Debugger_OnScriptFailedToParse => some "https://chromedevtools.github.io/devtools-protocol/tot/Debugger/#event-scriptFailedToParse"
  | .Debugger_OnScriptParsed => some "https://chromedevtools.github.io/devtools-protocol/tot/Debugger/#event-scriptParsed"
  | .ApplicationCache_OnApplicationCacheStatusUpdated => some "https://chromedevtools.github.io/devtools-protocol/tot/ApplicationCache/#event-applicationCacheStatusUpdated"
  | .ApplicationCache_OnNetworkStateUpdated => some "https://chromedevtools.github.io/devtools-protocol/tot/ApplicationCache/#event-networkStateUpdated"

/-- The protocol domain of the facade the method belongs to. -/
def OnMethod.domain : OnMethod → String
  | .Debugger_OnBreakpointResolved => "Debugger"
  | .Debugger_OnPaused => "Debugger"
  | .Debugger_OnResumed => "Debugger"
  | .Debugger_OnScriptFailedToParse => "Debugger"
  | .Debugger_OnScriptParsed => "Debugger"
  | .ApplicationCache_OnApplicationCacheStatusUpdated => "ApplicationCache"
  | .ApplicationCache_OnNetworkStateUpdated => "ApplicationCache"

/-- The `On*` methods of the HeadlessExperimental facade. -/
inductive HeadlessOnMethod where
  | HeadlessExperimental_OnMainFrameReadyForScreenshots
  | HeadlessExperimental_OnNeedsBeginFramesChanged
  deriving DecidableEq, Repr

/-- The Go method a name of `HeadlessOnMethod` stands for. -/
def HeadlessOnMethod.run {σ υ E : Type} (m : HeadlessOnMethod) (json : Json E)
    (protocol : HeadlessExperimentalProtocol σ υ) (w : σ) (callback : E → υ → υ) : σ :=
  match m with
  | .HeadlessExperimental_OnMainFrameReadyForScreenshots => HeadlessExperimentalProtocol.OnMainFrameReadyForScreenshots json protocol w callback
  | .HeadlessExperimental_OnNeedsBeginFramesChanged => HeadlessExperimentalProtocol.OnNeedsBeginFramesChanged json protocol w callback

/-- The protocol URL in the doc comment of the method, where it has one. -/
def HeadlessOnMethod.docURL : HeadlessOnMethod → Option String
  | .HeadlessExperimental_OnMainFrameReadyForScreenshots => some "https://chromedevtools.github.io/devtools-protocol/tot/HeadlessExperimental/#event-mainFrameReadyForScreenshots"
  | .HeadlessExperimental_OnNeedsBeginFramesChanged => some "https://chromedevtools.github.io/devtools-protocol/tot/HeadlessExperimental/#event-needsBeginFramesChanged"

/-- The protocol domain of the facade the method belongs to. -/
def HeadlessOnMethod.domain : HeadlessOnMethod → String
  | .HeadlessExperimental_OnMainFrameReadyForScreenshots => "HeadlessExperimental"
  | .HeadlessExperimental_OnNeedsBeginFramesChanged => "HeadlessExperimental"

/-- The `On*` methods of the `chrome` package facades, CSS and DOM. -/
inductive ChromeOnMethod where
  | CSS_OnMediaQueryResultChanged
  | CSS_OnFontsUpdated
  | CSS_OnStyleSheetChanged
  | CSS_OnStyleSheetAdded
  | CSS_OnStyleSheetRemoved
  | DOM_OnDocumentUpdated
  | DOM_OnSetChildNodes
  | DOM_OnAttributeModified
  | DOM_OnAttributeRemoved
  | DOM_OnInlineStyleInvalidated
  | DOM_OnCharacterDataModified
  | DOM_OnChildNodeCountUpdated
  | DOM_OnChildNodeInserted
  | DOM_OnChildNodeRemoved
  | DOM_OnShadowRootPushed
  | DOM_OnShadowRootPopped
  | DOM_OnPseudoElementAdded
  | DOM_OnPseudoElementRemoved
  | DOM_OnDistributedNodesUpdated
  deriving DecidableEq, Repr

/-- The Go method a name of `ChromeOnMethod` stands for. -/
def ChromeOnMethod.run {σ υ E : Type} (m : ChromeOnMethod) (json : Json E)
    (socket : Socketer σ (protocol.EventHandler υ)) (w : σ) (callback : E → υ → υ) : σ :=
  match m with
  | .CSS_OnMediaQueryResultChanged => CSS.OnMediaQueryResultChanged json socket w callback
  | .CSS_OnFontsUpdated => CSS.OnFontsUpdated json socket w callback
  | .CSS_OnStyleSheetChanged => CSS.OnStyleSheetChanged json socket w callback
  | .CSS_OnStyleSheetAdded => CSS.OnStyleSheetAdded json socket w callback
  | .CSS_OnStyleSheetRemoved => CSS.OnStyleSheetRemoved json socket w callback
  | .DOM_OnDocumentUpdated => DOM.OnDocumentUpdated json socket w callback
  | .DOM_OnSetChildNodes => DOM.OnSetChildNodes json socket w callback
  | .DOM_OnAttributeModified => DOM.OnAttributeModified json socket w callback
  | .DOM_OnAttributeRemoved => DOM.OnAttributeRemoved json socket w callback
  | .DOM_OnInlineStyleInvalidated => DOM.OnInlineStyleInvalidated json socket w callback
  | .DOM_OnCharacterDataModified => DOM.OnCharacterDataModified json socket w callback
  | .DOM_OnChildNodeCountUpdated => DOM.OnChildNodeCountUpdated json socket w callback
  | .DOM_OnChildNodeInserted => DOM.OnChildNodeInserted json socket w callback
  | .DOM_OnChildNodeRemoved => DOM.OnChildNodeRemoved json socket w callback
  | .DOM_OnShadowRootPushed => DOM.OnShadowRootPushed json socket w callback
  | .DOM_OnShadowRootPopped => DOM.OnShadowRootPopped json socket w callback
  | .DOM_OnPseudoElementAdded => DOM.OnPseudoElementAdded json socket w callback
  | .DOM_OnPseudoElementRemoved => DOM.OnPseudoElementRemoved json socket w callback
  | .DOM_OnDistributedNodesUpdated => DOM.OnDistributedNodesUpdated json socket w callback

/-- The protocol URL in the doc comment of the method, where it has one. -/
def ChromeOnMethod.docURL : ChromeOnMethod → Option String
  | .CSS_OnMediaQueryResultChanged => none
  | .CSS_OnFontsUpdated => none
  | .CSS_OnStyleSheetChanged => none
  | .CSS_OnStyleSheetAdded => none
  | .CSS_OnStyleSheetRemoved => none
  | .DOM_OnDocumentUpdated => none
  | .DOM_OnSetChildNodes => none
  | .DOM_OnAttributeModified => none
  | .DOM_OnAttributeRemoved => none
  | .DOM_OnInlineStyleInvalidated => none
  | .DOM_OnCharacterDataModified => none
  | .DOM_OnChildNodeCountUpdated => none
  | .DOM_OnChildNodeInserted => none
  | .DOM_OnChildNodeRemoved => none
  | .DOM_OnShadowRootPushed => none
  | .DOM_OnShadowRootPopped => none
  | .DOM_OnPseudoElementAdded => none
  | .DOM_OnPseudoElementRemoved => none
  | .DOM_OnDistributedNodesUpdated => none

/-- The protocol domain of the facade the method belongs to. -/
def ChromeOnMethod.domain : ChromeOnMethod → String
  | .CSS_OnMediaQueryResultChanged => "CSS"
  | .CSS_OnFontsUpdated => "CSS"
  | .CSS_OnStyleSheetChanged => "CSS"
  | .CSS_OnStyleSheetAdded => "CSS"
  | .CSS_OnStyleSheetRemoved => "CSS"
  | .DOM_OnDocumentUpdated => "DOM"
  | .DOM_OnSetChildNodes => "DOM"
  | .DOM_OnAttributeModified => "DOM"
  | .DOM_OnAttributeRemoved => "DOM"
  | .DOM_OnInlineStyleInvalidated => "DOM"
  | .DOM_OnCharacterDataModified => "DOM"
  | .DOM_OnChildNodeCountUpdated => "DOM"
  | .DOM_OnChildNodeInserted => "DOM"
  | .DOM_OnChildNodeRemoved => "DOM"
  | .DOM_OnShadowRootPushed => "DOM"
  | .DOM_OnShadowRootPopped => "DOM"
  | .DOM_OnPseudoElementAdded => "DOM"
  | .DOM_OnPseudoElementRemoved => "DOM"
  | .DOM_OnDistributedNodesUpdated => "DOM"

/-- The protocol URL in the doc comment of `BeginFrame`. -/
def HeadlessExperimentalProtocol.BeginFrame.docURL : String :=
  "https://chromedevtools.github.io/devtools-protocol/tot/HeadlessExperimental/#method-beginFrame"

/-! ## Observing a recorded run -/

/-- The commands handed to `SendCommand`, in call order. -/
def sentCommands {H : Type} : List (SocketCall H) → List Command
  | [] => []
  | SocketCall.SendCommand sent _ :: calls => sent :: sentCommands calls
  | _ :: calls => sentCommands calls

/-- The commands as `SendCommand` left them, in call order. -/
def returnedCommands {H : Type} : List (SocketCall H) → List Command
  | [] => []
  | SocketCall.SendCommand _ returned :: calls => returned :: returnedCommands calls
  | _ :: calls => returnedCommands calls

/-- The handlers handed to `AddEventHandler`, in call order. -/
def addedHandlers {H : Type} : List (SocketCall H) → List H
  | [] => []
  | SocketCall.AddEventHandler handler :: calls => handler :: addedHandlers calls
  | _ :: calls => addedHandlers calls

/-- The HeadlessExperimental facade over the recording socket. -/
def HeadlessExperimentalProtocol.traced {σ υ : Type} (protocol : HeadlessExperimentalProtocol σ υ) :
    HeadlessExperimentalProtocol (σ × List (SocketCall (EventHandler υ))) υ :=
  { Socket := protocol.Socket.traced }

/-- The rest of `text` after the first occurrence of `marker`, if there is one. -/
def afterMarker (marker : List Char) : List Char → Option (List Char)
  | [] => if marker = [] then some [] else none
  | c :: cs =>
    if marker.isPrefixOf (c :: cs) then some ((c :: cs).drop marker.length)
    else afterMarker marker cs

/-- The wire name a doc comment's protocol URL stands for: the domain, a dot,
and the fragment after `marker` (`#method-` or `#event-`) in the URL. -/
def wireName (domain marker url : String) : Option String :=
  (afterMarker marker.data url.data).map (fun fragment => domain ++ "." ++ String.mk fragment)


/-! ## Sockets to run the facades on -/

/-- A socket that fails every command with `err`, while still attaching the
result payload `r` to it. -/
def failingSocket (H : Type) (err : GoError) (r : Option Payload) : Socketer Unit H where
  SendCommand := fun w command => (w, { command with result := r, Err := some err })
  AddEventHandler := fun w _ => w
  RemoveEventHandler := fun w _ => w

/-- A socket that resolves every command with the result payload `r`. -/
def answeringSocket (H : Type) (r : Option Payload) : Socketer Unit H where
  SendCommand := fun w command => (w, { command with result := r })
  AddEventHandler := fun w _ => w
  RemoveEventHandler := fun w _ => w

/-- A JSON library at the result type `Nat`: a number payload is encoded as one
byte, any other payload is refused, and a byte sequence decodes when it is one
byte long; a failed decode leaves the target at 99. -/
def natJson : Json Nat where
  zero := 0
  Marshal := fun r =>
    match r with
    | Payload.num n => Except.ok [UInt8.ofNat n.toNat]
    | _ => Except.error (GoError.other "json: unsupported value")
  Unmarshal := fun data _ =>
    match data with
    | [b] => (b.toNat, none)
    | _ => (99, some (GoError.other "json: cannot unmarshal"))


/-! ## The socket core

The correlation and event-dispatch engine behind the facades is not among the
source files. The definitions of this section follow the specification. -/

/-- Modelled from the spec: the connection state (section 3), one of
Connecting, Open, Closing, Closed. -/
inductive ConnState where
  | Connecting
  | Open
  | Closing
  | Closed
  deriving DecidableEq, Repr

/-- Modelled from the spec: what a response frame carries for its command, a
result payload or an error (section 4.1, `Response{correlationID, result|error}`). -/
inductive Outcome where
  | result (r : Payload)
  | error (e : GoError)
  deriving DecidableEq

/-- Modelled from the spec: marking a command resolved-with-result or
resolved-with-error (section 3); the one mutation the core makes. -/
def Command.resolveWith (command : Command) : Outcome → Command
  | Outcome.result r => { command with result := some r }
  | Outcome.error e => { command with Err := some e }

/-- Modelled from the spec: a decoded inbound frame (section 4.1), a command
response or an event. -/
inductive Frame where
  | response (id : Nat) (outcome : Outcome)
  | event (name : String) (payload : Payload)
  deriving DecidableEq

/-- Modelled from the spec: the pending-request table (section 4.2), the
in-flight commands keyed by correlation ID, oldest first. -/
abbrev PendingTable := List (Nat × Command)

/-- Modelled from the spec: `register(id, command)` (section 4.2); it fails
with a DuplicateID error when `id` is already present. -/
def PendingTable.register (table : PendingTable) (id : Nat) (command : Command) :
    Except GoError PendingTable :=
  if (table.lookup id).isSome then Except.error (GoError.duplicateID id)
  else Except.ok (table ++ [(id, command)])

/-- Modelled from the spec: the common part of `resolve(id, result)` and
`fail(id, error)` (section 4.2): look the entry up, remove it, and deliver the
outcome to the command; an unknown ID is reported as a stale response and the
table is left as it is. The second component is the command delivered. -/
def PendingTable.settle (table : PendingTable) (id : Nat) (outcome : Outcome) :
    PendingTable × Except GoError Command :=
  match table.lookup id with
  | some command =>
    (table.eraseP (fun entry => entry.1 == id), Except.ok (command.resolveWith outcome))
  | none => (table, Except.error (GoError.staleResponse id))

/-- Modelled from the spec: `resolve(id, result)` (section 4.2). -/
def PendingTable.resolve (table : PendingTable) (id : Nat) (r : Payload) :
    PendingTable × Except GoError Command :=
  table.settle id (Outcome.result r)

/-- Modelled from the spec: `fail(id, error)` (section 4.2). -/
def PendingTable.fail (table : PendingTable) (id : Nat) (e : GoError) :
    PendingTable × Except GoError Command :=
  table.settle id (Outcome.error e)

/-- Modelled from the spec: one step of the `drainAll` pass (section 4.2): fail
the entry under `id` and keep what was delivered. -/
def PendingTable.drainStep (e : GoError) (acc : PendingTable × List Command) (id : Nat) :
    PendingTable × List Command :=
  match (acc.1.fail id e).2 with
  | Except.ok command => ((acc.1.fail id e).1, acc.2 ++ [command])
  | Except.error _ => ((acc.1.fail id e).1, acc.2)

/-- Modelled from the spec: `drainAll(error)` (section 4.2): one pass over the
IDs pending when it starts, failing each with `e`. It returns the table it
leaves and the commands it delivered, in order. -/
def PendingTable.drainAll (table : PendingTable) (e : GoError) : PendingTable × List Command :=
  (table.map Prod.fst).foldl (PendingTable.drainStep e) (table, [])

/-- Modelled from the spec: an event handler registration (section 3): the
event name, the callback and the registration identity used for removal. The
callback works on the user's state and may fail. -/
structure Registration (υ : Type) where
  handle : Nat
  name : String
  callback : Payload → υ → υ × Option GoError

/-- Modelled from the spec: the event router (section 4.3): the registrations
in insertion order, and the next registration handle to give out. -/
structure EventRouter (υ : Type) where
  registry : List (Registration υ)
  nextHandle : Nat

/-- Modelled from the spec: the event router of a new connection (section 4.3),
with no handler registered. -/
def EventRouter.empty (υ : Type) : EventRouter υ :=
  { registry := [], nextHandle := 0 }

/-- Modelled from the spec: `addHandler(eventName, callback) -> registrationHandle`
(section 4.3). -/
def EventRouter.addHandler {υ : Type} (router : EventRouter υ) (eventName : String)
    (callback : Payload → υ → υ × Option GoError) : EventRouter υ × Nat :=
  ({ registry := router.registry ++
        [{ handle := router.nextHandle, name := eventName, callback := callback }],
     nextHandle := router.nextHandle + 1 },
   router.nextHandle)

/-- Modelled from the spec: `removeHandler(registrationHandle)` (section 4.3). -/
def EventRouter.removeHandler {υ : Type} (router : EventRouter υ) (handle : Nat) :
    EventRouter υ :=
  { router with registry := router.registry.filter (fun reg => reg.handle != handle) }

/-- What one dispatch did: the user's state afterwards, the handler failures
reported, and the handles of the handlers invoked, in invocation order. -/
structure Dispatched (υ : Type) where
  user : υ
  reported : List GoError
  invoked : List Nat

/-- Modelled from the spec: the dispatch loop over a snapshot of the registry
(sections 4.3 and 9): a registration under `eventName` is invoked with the
payload; a failure is reported and the loop goes on. -/
def EventRouter.dispatchLoop {υ : Type} (eventName : String) (payload : Payload) :
    List (Registration υ) → Dispatched υ → Dispatched υ
  | [], acc => acc
  | reg :: rest, acc =>
    if reg.name = eventName then
      EventRouter.dispatchLoop eventName payload rest
        { user := (reg.callback payload acc.user).1,
          reported := acc.reported ++ (reg.callback payload acc.user).2.toList,
          invoked := acc.invoked ++ [reg.handle] }
    else
      EventRouter.dispatchLoop eventName payload rest acc

/-- Modelled from the spec: `dispatch(eventName, payload)` (section 4.3): every
currently registered handler for `eventName` is invoked, in registration order. -/
def EventRouter.dispatch {υ : Type} (router : EventRouter υ) (eventName : String)
    (payload : Payload) (user : υ) : Dispatched υ :=
  EventRouter.dispatchLoop eventName payload router.registry
    { user := user, reported := [], invoked := [] }

/-- An operation on the event router. -/
inductive RouterOp (υ : Type) where
  | add (eventName : String) (callback : Payload → υ → υ × Option GoError)
  | remove (handle : Nat)

/-- Applying one operation to the router. -/
def EventRouter.apply {υ : Type} (router : EventRouter υ) : RouterOp υ → EventRouter υ
  | RouterOp.add eventName callback => (router.addHandler eventName callback).1
  | RouterOp.remove handle => router.removeHandler handle

/-- The router after a sequence of operations. -/
def EventRouter.run {υ : Type} (router : EventRouter υ) (ops : List (RouterOp υ)) :
    EventRouter υ :=
  ops.foldl EventRouter.apply router

/-- Modelled from the spec: the socket core (section 2): the connection state,
the next correlation ID, the pending-request table, the event router and the
state the user's handlers work on. For observation it also keeps the commands
whose resolution has been delivered from the pending table (`delivered`), the
commands turned away at submission (`rejected`), the commands written to the
transport (`written`) and the conditions reported (`reported`), oldest first. -/
structure Socket (υ : Type) where
  state : ConnState
  nextID : Nat
  pending : PendingTable
  router : EventRouter υ
  user : υ
  delivered : List Command
  rejected : List Command
  written : List Command
  reported : List GoError

/-- Modelled from the spec: the socket core before `connect` (section 3, state
Connecting): nothing pending, no handler registered. -/
def Socket.init {υ : Type} (user : υ) : Socket υ :=
  { state := ConnState.Connecting, nextID := 0, pending := [], router := EventRouter.empty υ,
    user := user, delivered := [], rejected := [], written := [], reported := [] }

/-- Modelled from the spec: a successful `connect(endpoint)` (section 4.4),
which takes the state from Connecting to Open. -/
def Socket.connect {υ : Type} (s : Socket υ) : Socket υ :=
  if s.state = ConnState.Connecting then { s with state := ConnState.Open } else s

/-- Modelled from the spec: `submit(command)` (section 4.5): allocate a
correlation ID, register the command under it, and send it. When the connection
is not Open the command fails fast with a NotOpen error (section 4.4). -/
def Socket.submit {υ : Type} (s : Socket υ) (command : Command) : Socket υ :=
  if s.state = ConnState.Open then
    match s.pending.register s.nextID { command with id := s.nextID } with
    | Except.ok table =>
      { s with nextID := s.nextID + 1, pending := table,
               written := s.written ++ [{ command with id := s.nextID }] }
    | Except.error e =>
      { s with nextID := s.nextID + 1,
               rejected := s.rejected ++ [{ command with id := s.nextID, Err := some e }],
               reported := s.reported ++ [e] }
  else
    { s with rejected := s.rejected ++ [{ command with Err := some GoError.notOpen }] }

/-- Modelled from the spec: what the read loop keeps of one `resolve` or `fail`
(section 4.2): the table it left, and the delivered command or the reported
condition. -/
def Socket.settled {υ : Type} (s : Socket υ)
    (outcome : PendingTable × Except GoError Command) : Socket υ :=
  match outcome.2 with
  | Except.ok command => { s with pending := outcome.1, delivered := s.delivered ++ [command] }
  | Except.error e => { s with pending := outcome.1, reported := s.reported ++ [e] }

/-- Modelled from the spec: the read loop on one decoded frame (section 4.4): a
response goes to the pending-request table, an event to the event router. No
frame is read unless the connection is Open. -/
def Socket.handleFrame {υ : Type} (s : Socket υ) (frame : Frame) : Socket υ :=
  if s.state = ConnState.Open then
    match frame with
    | Frame.response id (Outcome.result r) => s.settled (s.pending.resolve id r)
    | Frame.response id (Outcome.error e) => s.settled (s.pending.fail id e)
    | Frame.event name payload =>
      { s with user := (s.router.dispatch name payload s.user).user,
               reported := s.reported ++ (s.router.dispatch name payload s.user).reported }
  else s

/-- Modelled from the spec: the shutdown common to a transport failure and
`close()` (section 4.4): go to Closing, drain the pending-request table with a
connection-closed error, go to Closed. -/
def Socket.shutdown {υ : Type} (s : Socket υ) : Socket υ :=
  { s with state := ConnState.Closed,
           pending := (s.pending.drainAll GoError.connectionClosed).1,
           delivered := s.delivered ++ (s.pending.drainAll GoError.connectionClosed).2 }

/-- Modelled from the spec: a transport-level read failure seen by the read
loop (section 4.4). -/
def Socket.transportFailure {υ : Type} (s : Socket υ) : Socket υ :=
  if s.state = ConnState.Open then s.shutdown else s

/-- Modelled from the spec: `close()` (section 4.4). -/
def Socket.close {υ : Type} (s : Socket υ) : Socket υ :=
  s.shutdown

/-- Modelled from the spec: `addEventHandler(eventName, callback)` (section
4.5), a pass-through to the event router. -/
def Socket.addEventHandler {υ : Type} (s : Socket υ) (eventName : String)
    (callback : Payload → υ → υ × Option GoError) : Socket υ :=
  { s with router := (s.router.addHandler eventName callback).1 }

/-- Modelled from the spec: `removeEventHandler(handle)` (section 4.5), a
pass-through to the event router. -/
def Socket.removeEventHandler {υ : Type} (s : Socket υ) (handle : Nat) : Socket υ :=
  { s with router := s.router.removeHandler handle }

/-- Something that happens to the socket: a call from a facade or from the
owner of the connection, or an occurrence on the transport. -/
inductive Step (υ : Type) where
  | connect
  | submit (command : Command)
  | frame (frame : Frame)
  | transportFailure
  | close
  | addEventHandler (eventName : String) (callback : Payload → υ → υ × Option GoError)
  | removeEventHandler (handle : Nat)

/-- The socket after one step. -/
def Socket.step {υ : Type} (s : Socket υ) : Step υ → Socket υ
  | Step.connect => s.connect
  | Step.submit command => s.submit command
  | Step.frame frame => s.handleFrame frame
  | Step.transportFailure => s.transportFailure
  | Step.close => s.close
  | Step.addEventHandler eventName callback => s.addEventHandler eventName callback
  | Step.removeEventHandler handle => s.removeEventHandler handle

/-- The socket after a sequence of steps. -/
def Socket.run {υ : Type} (s : Socket υ) (steps : List (Step υ)) : Socket υ :=
  steps.foldl Socket.step s

/-- A command as a facade hands it over: not resolved yet. -/
def Command.unresolved (command : Command) : Bool :=
  command.result.isNone && command.Err.isNone

/-- A command that carries a result or an error, and not both. -/
def Command.resolvedOnce (command : Command) : Bool :=
  (command.result.isSome && command.Err.isNone) || (command.result.isNone && command.Err.isSome)

/-- A step that submits a command submits an unresolved one. -/
def Step.unresolved {υ : Type} : Step υ → Bool
  | Step.submit command => command.unresolved
  | _ => true

/-- How many times a resolution has been delivered for the correlation ID. -/
def Socket.deliveries {υ : Type} (s : Socket υ) (id : Nat) : Nat :=
  s.delivered.countP (fun command => command.id == id)

/-- The bookkeeping of the socket is consistent: pending entries sit under
their own distinct IDs, below the next ID; a pending command is unresolved; a
delivered command is resolved once, under an ID below the next ID that is no
longer pending; no two deliveries share an ID; every ID below the next ID is
pending or delivered; and nothing is pending unless the connection is Open. -/
def Socket.WellFormed {υ : Type} (s : Socket υ) : Prop :=
  (∀ entry ∈ s.pending, entry.1 < s.nextID ∧ entry.2.id = entry.1 ∧
    entry.2.unresolved = true) ∧
  (s.pending.map Prod.fst).Nodup ∧
  (∀ command ∈ s.delivered, command.id < s.nextID ∧ command.resolvedOnce = true ∧
    s.pending.lookup command.id = none) ∧
  (s.delivered.map Command.id).Nodup ∧
  (∀ id, id < s.nextID → (s.pending.lookup id).isSome = true ∨ id ∈ s.delivered.map Command.id) ∧
  (s.state ≠ ConnState.Open → s.pending = [])

instance {υ : Type} (s : Socket υ) : Decidable s.WellFormed := by
  unfold Socket.WellFormed
  infer_instance

/-- Every command written to the transport is accounted for: the commands
written carry the IDs given out so far, in order; and each of them is either
still pending as it was written, or no longer pending, with a delivery that is
this very command resolved with one outcome. -/
def Socket.Accounted {υ : Type} (s : Socket υ) : Prop :=
  s.written.map Command.id = List.range s.nextID ∧
  ∀ command ∈ s.written,
    s.pending.lookup command.id = some command ∨
    (s.pending.lookup command.id = none ∧
      ∃ outcome, command.resolveWith outcome ∈ s.delivered)

/-- The commands `cs` as the socket registers them when they are submitted one
after the other from next ID `n`. -/
def assignIDs (n : Nat) : List Command → PendingTable
  | [] => []
  | command :: cs => (n, { command with id := n }) :: assignIDs (n + 1) cs

/-- The responses to the commands submitted one after the other from next ID
`n`, one outcome per command, in submission order. -/
def responsesFor (n : Nat) : List Outcome → List (Nat × Outcome)
  | [] => []
  | outcome :: outcomes => (n, outcome) :: responsesFor (n + 1) outcomes

/-- The frames carrying the responses. -/
def responseFrames (responses : List (Nat × Outcome)) : List Frame :=
  responses.map (fun response => Frame.response response.1 response.2)

/-! ## A small JSON text library

Compact JSON text for payloads whose strings are ASCII and whose numbers are
integers, standing for the Go JSON library where a concrete one is needed. -/

/-- The byte of an ASCII character. -/
def asciiByte (c : Char) : UInt8 := UInt8.ofNat c.toNat

/-- The character of a byte. -/
def byteChar (b : UInt8) : Char := Char.ofNat b.toNat

/-- The bytes of an ASCII string. -/
def asciiBytes (s : String) : Bytes := s.data.map asciiByte

/-- JSON string contents: a quote or a backslash is preceded by a backslash. -/
def escapeJson : List Char → Bytes
  | [] => []
  | c :: cs =>
    if asciiByte c = 34 ∨ asciiByte c = 92 then 92 :: asciiByte c :: escapeJson cs
    else asciiByte c :: escapeJson cs

/-- A JSON string literal. -/
def printString (s : String) : Bytes := 34 :: (escapeJson s.data ++ [34])

/-- A JSON integer literal. -/
def printInt (n : Int) : Bytes :=
  if n < 0 then 45 :: (Nat.toDigits 10 n.natAbs).map asciiByte
  else (Nat.toDigits 10 n.natAbs).map asciiByte

mutual
/-- Compact JSON text of a payload. -/
def printJson : Payload → Bytes
  | Payload.null => asciiBytes "null"
  | Payload.bool true => asciiBytes "true"
  | Payload.bool false => asciiBytes "false"
  | Payload.num n => printInt n
  | Payload.str s => printString s
  | Payload.arr items => 91 :: (printItems items ++ [93])
  | Payload.obj fields => 123 :: (printFields fields ++ [125])
/-- The elements of an array, separated by commas. -/
def printItems : PayloadList → Bytes
  | PayloadList.nil => []
  | PayloadList.cons head PayloadList.nil => printJson head
  | PayloadList.cons head tail => printJson head ++ 44 :: printItems tail
/-- The members of an object, separated by commas. -/
def printFields : PayloadFields → Bytes
  | PayloadFields.nil => []
  | PayloadFields.cons key value PayloadFields.nil => printString key ++ 58 :: printJson value
  | PayloadFields.cons key value rest =>
    printString key ++ 58 :: (printJson value ++ 44 :: printFields rest)
end

/-- Reading string contents up to the closing quote; the characters read so far
are kept in reverse. -/
def parseStringBody : Bytes → List Char → Option (String × Bytes)
  | [], _ => none
  | b :: rest, acc =>
    if b = 34 then some (String.mk acc.reverse, rest)
    else if b = 92 then
      match rest with
      | [] => none
      | e :: rest' => parseStringBody rest' (byteChar e :: acc)
    else parseStringBody rest (byteChar b :: acc)

/-- Reading decimal digits. -/
def parseDigits : Bytes → Nat → Nat × Bytes
  | [], acc => (acc, [])
  | b :: rest, acc =>
    if 48 ≤ b ∧ b ≤ 57 then parseDigits rest (acc * 10 + (b.toNat - 48))
    else (acc, b :: rest)

/-- Whether a byte is a decimal digit. -/
def isDigit (b : UInt8) : Bool := decide (48 ≤ b) && decide (b ≤ 57)

mutual
/-- Reading one JSON value; `fuel` bounds the nesting and the number of
elements read. -/
def parseValue : Nat → Bytes → Option (Payload × Bytes)
  | 0, _ => none
  | _ + 1, [] => none
  | fuel + 1, b :: rest =>
    if b = 34 then
      match parseStringBody rest [] with
      | some (s, rest') => some (Payload.str s, rest')
      | none => none
    else if b = 91 then
      match rest with
      | 93 :: rest' => some (Payload.arr PayloadList.nil, rest')
      | _ =>
        match parseItems fuel rest with
        | some (items, rest') => some (Payload.arr items, rest')
        | none => none
    else if b = 123 then
      match rest with
      | 125 :: rest' => some (Payload.obj PayloadFields.nil, rest')
      | _ =>
        match parseFields fuel rest with
        | some (fields, rest') => some (Payload.obj fields, rest')
        | none => none
    else if b = 45 then
      match rest with
      | d :: _ =>
        if isDigit d then
          some (Payload.num (-((parseDigits rest 0).1 : Int)), (parseDigits rest 0).2)
        else none
      | [] => none
    else if isDigit b then
      some (Payload.num ((parseDigits (b :: rest) 0).1 : Int), (parseDigits (b :: rest) 0).2)
    else if (b :: rest).take 4 = asciiBytes "null" then some (Payload.null, rest.drop 3)
    else if (b :: rest).take 4 = asciiBytes "true" then some (Payload.bool true, rest.drop 3)
    else if (b :: rest).take 5 = asciiBytes "false" then some (Payload.bool false, rest.drop 4)
    else none
/-- Reading the elements of an array up to the closing bracket. -/
def parseItems : Nat → Bytes → Option (PayloadList × Bytes)
  | 0, _ => none
  | fuel + 1, bytes =>
    match parseValue fuel bytes with
    | some (v, 44 :: rest) =>
      match parseItems fuel rest with
      | some (items, rest') => some (PayloadList.cons v items, rest')
      | none => none
    | some (v, 93 :: rest) => some (PayloadList.cons v PayloadList.nil, rest)
    | _ => none
/-- Reading the members of an object up to the closing brace. -/
def parseFields : Nat → Bytes → Option (PayloadFields × Bytes)
  | 0, _ => none
  | _ + 1, [] => none
  | fuel + 1, b :: bytes =>
    if b = 34 then
      match parseStringBody bytes [] with
      | some (key, 58 :: rest) =>
        match parseValue fuel rest with
        | some (v, 44 :: rest') =>
          match parseFields fuel rest' with
          | some (fields, rest'') => some (PayloadFields.cons key v fields, rest'')
          | none => none
        | some (v, 125 :: rest') => some (PayloadFields.cons key v PayloadFields.nil, rest')
        | _ => none
      | _ => none
    else none
end

/-- Reading a whole JSON text: one value and nothing after it. -/
def parseJson (bytes : Bytes) : Option Payload :=
  match parseValue (bytes.length + 1) bytes with
  | some (v, []) => some v
  | _ => none


/-! ## The message codec

The codec is not among the source files either; it is modelled from the
specification (sections 4.1 and 6) over JSON values, the JSON text layer being
the JSON library's. -/

/-- The value stored under a key of an object, if there is one. -/
def PayloadFields.lookup (key : String) : PayloadFields → Option Payload
  | PayloadFields.nil => none
  | PayloadFields.cons k v rest => if k = key then some v else PayloadFields.lookup key rest

/-- The value stored under a key of a payload that is an object. -/
def Payload.field (key : String) : Payload → Option Payload
  | Payload.obj fields => fields.lookup key
  | _ => none

/-- The JSON value of a command's parameters: a nil interface and a nil
parameter pointer both serialise to `null`. -/
def Params.toPayload : Params → Payload
  | Params.nil => Payload.null
  | Params.ptr none => Payload.null
  | Params.ptr (some p) => p

/-- The JSON text layer of the codec: the Go JSON library as a printer of JSON
values and a parser of JSON text. -/
structure JsonText where
  print : Payload → Bytes
  parse : Bytes → Option Payload

/-- Modelled from the spec: the request envelope `{id, method, params}`
(section 6) of a command. -/
def requestMessage (command : Command) : Payload :=
  Payload.obj
    (PayloadFields.cons "id" (Payload.num command.id)
      (PayloadFields.cons "method" (Payload.str command.method)
        (PayloadFields.cons "params" command.params.toPayload PayloadFields.nil)))

/-- Modelled from the spec: `encode(command) -> bytes` (section 4.1), a wire
message with the method name, the correlation ID and the serialised parameters. -/
def encode (j : JsonText) (command : Command) : Bytes :=
  j.print (requestMessage command)

/-- A request as the receiving side reads it. -/
structure Request where
  id : Nat
  method : String
  params : Payload
  deriving DecidableEq

/-- Modelled from the spec: reading a request envelope `{id, method, params}`
(section 6) on the receiving side. -/
def readRequest (message : Payload) : Option Request :=
  match message.field "id", message.field "method", message.field "params" with
  | some (Payload.num n), some (Payload.str method), some params =>
    if 0 ≤ n then some { id := n.toNat, method := method, params := params } else none
  | _, _, _ => none

/-- Modelled from the spec: the receiving stub's decoding of a request frame. -/
def decodeRequest (j : JsonText) (bytes : Bytes) : Option Request :=
  match j.parse bytes with
  | some message => readRequest message
  | none => none

/-- Modelled from the spec: the response envelope `{id, result}` (section 6). -/
def resultMessage (id : Nat) (r : Payload) : Payload :=
  Payload.obj
    (PayloadFields.cons "id" (Payload.num id) (PayloadFields.cons "result" r PayloadFields.nil))

/-- Modelled from the spec: the response envelope `{id, error}` with the error
object `{code, message}` (section 6). -/
def errorMessage (id : Nat) (code : Int) (message : String) : Payload :=
  Payload.obj
    (PayloadFields.cons "id" (Payload.num id)
      (PayloadFields.cons "error"
        (Payload.obj
          (PayloadFields.cons "code" (Payload.num code)
            (PayloadFields.cons "message" (Payload.str message) PayloadFields.nil)))
        PayloadFields.nil))

/-- Whether a message carries a correlation ID: an `id` member that is a
natural number. -/
def carriesID (message : Payload) : Bool :=
  match message.field "id" with
  | some (Payload.num n) => decide (0 ≤ n)
  | _ => false

/-- Whether a message carries a method name and params. -/
def carriesEvent (message : Payload) : Bool :=
  match message.field "method", message.field "params" with
  | some (Payload.str _), some _ => true
  | _, _ => false

/-- Modelled from the spec: the error object `{code, message}` of a response
(section 6) as a RemoteError; a member that is missing reads as zero or empty. -/
def readError (error : Payload) : GoError :=
  GoError.remote
    (match error.field "code" with
      | some (Payload.num code) => code
      | _ => 0)
    (match error.field "message" with
      | some (Payload.str message) => message
      | _ => "")

/-- Modelled from the spec: what a response carries for its command (section
4.1, `result|error`): the error object when there is one, the result otherwise. -/
def readOutcome (message : Payload) : Outcome :=
  match message.field "error" with
  | some error => Outcome.error (readError error)
  | none =>
    match message.field "result" with
    | some r => Outcome.result r
    | none => Outcome.result Payload.null

/-- Modelled from the spec: the classification of a parsed frame (section 4.1)
by the fields present: a frame with an ID is a response; a frame with a method
name and params and no ID is an event; any other is a protocol-format error. -/
def classify (message : Payload) : Except GoError Frame :=
  match message.field "id" with
  | some (Payload.num n) =>
    if 0 ≤ n then Except.ok (Frame.response n.toNat (readOutcome message))
    else
      match message.field "method", message.field "params" with
      | some (Payload.str name), some params => Except.ok (Frame.event name params)
      | _, _ => Except.error (GoError.protocolFormat "frame is neither a response nor an event")
  | _ =>
    match message.field "method", message.field "params" with
    | some (Payload.str name), some params => Except.ok (Frame.event name params)
    | _, _ => Except.error (GoError.protocolFormat "frame is neither a response nor an event")

/-- Modelled from the spec: `decode(bytes) -> DecodedFrame` (section 4.1). Text
that is not JSON matches neither shape. -/
def decode (j : JsonText) (bytes : Bytes) : Except GoError Frame :=
  match j.parse bytes with
  | some message => classify message
  | none => Except.error (GoError.protocolFormat "frame is not JSON")

/-- Modelled from the spec: the read loop on one inbound frame as it comes off
the transport (section 4.4): decode it, route a response or an event, and
report a frame that does not decode without leaving the loop. -/
def Socket.receive {υ : Type} (j : JsonText) (s : Socket υ) (bytes : Bytes) : Socket υ :=
  if s.state = ConnState.Open then
    match decode j bytes with
    | Except.ok frame => s.handleFrame frame
    | Except.error e => { s with reported := s.reported ++ [e] }
  else s

/-- The small JSON text library as the codec's text layer. -/
def smallJson : JsonText where
  print := printJson
  parse := parseJson


/-! ## Page types and their JSON encoding

Types of `protocol/page/page.go`, with the encoding `json.Marshal` gives them
from their struct tags: a member per field in declaration order, under the key
of the tag; a field tagged `omitempty` is left out when its value is empty
(false, 0, a nil pointer, a nil interface value, an empty string). -/

/-- One member of an encoded struct, left out when the field is tagged
`omitempty` and its value is empty. -/
def omitEmpty (empty : Bool) (key : String) (value : Payload) (rest : PayloadFields) :
    PayloadFields :=
  if empty then rest else PayloadFields.cons key value rest

namespace page

/-- Go type `Viewport` (protocol/page/page.go, line 984): five `int` fields
tagged `x`, `y`, `width`, `height`, `scale`, none with `omitempty`. -/
structure Viewport where
  X : Int
  Y : Int
  Width : Int
  Height : Int
  Scale : Int
  deriving DecidableEq

/-- The encoding of a `Viewport`. -/
def Viewport.toJSON (v : Viewport) : Payload :=
  Payload.obj
    (PayloadFields.cons "x" (Payload.num v.X)
      (PayloadFields.cons "y" (Payload.num v.Y)
        (PayloadFields.cons "width" (Payload.num v.Width)
          (PayloadFields.cons "height" (Payload.num v.Height)
            (PayloadFields.cons "scale" (Payload.num v.Scale) PayloadFields.nil)))))

/-- What the `interface{}` field `Clip` holds when it is not nil: a `Viewport`,
a pointer to one, or any other value, given by its encoding. -/
inductive ClipValue where
  | viewport (v : Viewport)
  | viewportPtr (p : Option Viewport)
  | other (encoded : Payload)
  deriving DecidableEq

/-- The encoding of the value held by `Clip`. -/
def ClipValue.toJSON : ClipValue → Payload
  | ClipValue.viewport v => v.toJSON
  | ClipValue.viewportPtr (some v) => v.toJSON
  | ClipValue.viewportPtr none => Payload.null
  | ClipValue.other encoded => encoded

/-- Go type `CaptureScreenshotParams` (protocol/page/page.go, line 58): `Format
string`, `Quality int`, `Clip interface{}` and `FromSurface bool`, tagged
`format`, `quality`, `clip`, `fromSurface`, each with `omitempty`. -/
structure CaptureScreenshotParams where
  Format : String
  Quality : Int
  Clip : Option ClipValue
  FromSurface : Bool
  deriving DecidableEq

/-- The encoding of a `CaptureScreenshotParams`. -/
def CaptureScreenshotParams.toJSON (p : CaptureScreenshotParams) : Payload :=
  Payload.obj
    (omitEmpty (p.Format = "") "format" (Payload.str p.Format)
      (omitEmpty (p.Quality = 0) "quality" (Payload.num p.Quality)
        (omitEmpty p.Clip.isNone "clip"
          (match p.Clip with
            | some clip => clip.toJSON
            | none => Payload.null)
          (omitEmpty (p.FromSurface = false) "fromSurface" (Payload.bool p.FromSurface)
            PayloadFields.nil))))

/-- Go type `GetResourceContentResult` (protocol/page/page.go, line 186):
`Content string` tagged `content` and `Base64Encoded bool` tagged
`base64Encoded`. -/
structure GetResourceContentResult where
  Content : String
  Base64Encoded : Bool
  deriving DecidableEq

/-- What `json.Unmarshal` does to a `GetResourceContentResult` target given a
parsed JSON value: a member of the right type is stored, a `null` or missing
member leaves the field alone, and a member of another type is skipped, the
decoding going on; the first such mismatch is the error returned. A value that
is not an object is a mismatch and leaves the target alone. -/
def GetResourceContentResult.decode (value : Payload) (target : GetResourceContentResult) :
    GetResourceContentResult × Option GoError :=
  match value with
  | Payload.null => (target, none)
  | Payload.obj fields =>
    ({ Content :=
         match fields.lookup "content" with
         | some (Payload.str s) => s
         | _ => target.Content,
       Base64Encoded :=
         match fields.lookup "base64Encoded" with
         | some (Payload.bool b) => b
         | _ => target.Base64Encoded },
     match fields.lookup "content" with
     | some (Payload.str _) | some Payload.null | none =>
       (match fields.lookup "base64Encoded" with
        | some (Payload.bool _) | some Payload.null | none => none
        | some _ =>
          some (GoError.other "json: cannot unmarshal into Go struct field base64Encoded"))
     | some _ => some (GoError.other "json: cannot unmarshal into Go struct field content"))
  | _ => (target, some (GoError.other "json: cannot unmarshal into Go value of type struct"))

end page

/-- The JSON library at the result type `page.GetResourceContentResult`, on
the small JSON text library: `json.Marshal` prints the payload, and
`json.Unmarshal` refuses text that is not JSON without touching the target. -/
def resourceContentJson : Json page.GetResourceContentResult where
  zero := { Content := "", Base64Encoded := false }
  Marshal := fun r => Except.ok (printJson r)
  Unmarshal := fun data target =>
    match parseJson data with
    | some value => page.GetResourceContentResult.decode value target
    | none => (target, some (GoError.other "json: invalid character"))


/-! ## The doc comments of the `On*` methods -/

/-- The event name a doc comment states: the word after "adds a handler to the"
in its opening sentence. -/
def statedEvent (docComment : String) : Option String :=
  (afterMarker "adds a handler to the ".data docComment.data).map
    (fun rest => String.mk (rest.takeWhile (fun c => c != ' ')))

/-- The opening words of the doc comment of the method, up to the event it names. -/
def ChromeOnMethod.docComment : ChromeOnMethod → String
  | .CSS_OnMediaQueryResultChanged => "OnMediaQueryResultChanged adds a handler to the CSS.mediaQueryResultChanged event"
  | .CSS_OnFontsUpdated => "OnFontsUpdated adds a handler to the CSS.fontsUpdated event"
  | .CSS_OnStyleSheetChanged => "OnStyleSheetChanged adds a handler to the CSS.styleSheetChanged event"
  | .CSS_OnStyleSheetAdded => "OnStyleSheetAdded adds a handler to the CSS.styleSheetAdded event"
  | .CSS_OnStyleSheetRemoved => "OnStyleSheetRemoved adds a handler to the CSS.styleSheetRemoved event"
  | .DOM_OnDocumentUpdated => "OnDocumentUpdated adds a handler to the DOM.documentUpdated event"
  | .DOM_OnSetChildNodes => "OnSetChildNodes adds a handler to the DOM.setChildNodes event"
  | .DOM_OnAttributeModified => "OnAttributeModified adds a handler to the DOM.attributeModified event"
  | .DOM_OnAttributeRemoved => "OnAttributeRemoved adds a handler to the DOM.attributeRemoved event"
  | .DOM_OnInlineStyleInvalidated => "OnInlineStyleInvalidated adds a handler to the DOM.inlineStyleInvalidated event"
  | .DOM_OnCharacterDataModified => "OnCharacterDataModified adds a handler to the DOM.characterDataModified event"
  | .DOM_OnChildNodeCountUpdated => "OnChildNodeCountUpdated adds a handler to the DOM.childNodeCountUpdated event"
  | .DOM_OnChildNodeInserted => "OnChildNodeInserted adds a handler to the DOM.childNodeInserted event"
  | .DOM_OnChildNodeRemoved => "OnChildNodeRemoved adds a handler to the DOM.childNodeRemoved event"
  | .DOM_OnShadowRootPushed => "OnShadowRootPushed adds a handler to the DOM.shadowRootPushed event"
  | .DOM_OnShadowRootPopped => "OnShadowRootPopped adds a handler to the DOM.shadowRootPopped event"
  | .DOM_OnPseudoElementAdded => "OnPseudoElementAdded adds a handler to the DOM.pseudoElementAdded event"
  | .DOM_OnPseudoElementRemoved => "OnPseudoElementRemoved adds a handler to the DOM.pseudoElementRemoved event"
  | .DOM_OnDistributedNodesUpdated => "OnDistributedNodesUpdated adds a handler to the DOM.distributedNodesUpdated event"

/-- The opening words of the doc comment of the method, up to the event it names. -/
def OnMethod.docComment : OnMethod → String
  | .Debugger_OnBreakpointResolved => "OnBreakpointResolved adds a handler to the Debugger.breakpointResolved event"
  | .Debugger_OnPaused => "OnPaused adds a handler to the Debugger.paused event"
  | .Debugger_OnResumed => "OnResumed adds a handler to the Debugger.resumed event"
  | .Debugger_OnScriptFailedToParse => "OnScriptFailedToParse adds a handler to the Debugger.scriptFailedToParse event"
  | .Debugger_OnScriptParsed => "OnScriptParsed adds a handler to the Debugger.ScriptParsed event"
  | .ApplicationCache_OnApplicationCacheStatusUpdated => "OnApplicationCacheStatusUpdated adds a handler to the ApplicationCache.StatusUpdated event"
  | .ApplicationCache_OnNetworkStateUpdated => "OnNetworkStateUpdated adds a handler to the ApplicationCache.StatusUpdated event"

/-- The `chrome` package methods whose doc comments say that they return data:
"GetMatchedStylesForNode returns requested styles", "GetInlineStylesForNode
returns the styles defined inline", "GetComputedStyleForNode returns the
computed style", "GetStyleSheetText returns the current textual content",
"CollectClassNames returns all class names", "GetDocument returns the root DOM
node ... to the caller", "GetFlattenedDocument returns the root DOM node ... to
the caller", "GetOuterHTML returns node's HTML markup", "GetAttributes returns
attributes for the specified node", "GetBoxModel returns boxes for the given
node". -/
def chromeGetters : List ErrorMethod :=
  [ErrorMethod.CSS_GetMatchedStylesForNode, ErrorMethod.CSS_GetInlineStylesForNode,
   ErrorMethod.CSS_GetComputedStyleForNode, ErrorMethod.CSS_GetStyleSheetText,
   ErrorMethod.CSS_CollectClassNames, ErrorMethod.DOM_GetDocument,
   ErrorMethod.DOM_GetFlattenedDocument, ErrorMethod.DOM_GetOuterHTML,
   ErrorMethod.DOM_GetAttributes, ErrorMethod.DOM_GetBoxModel]

/-! ## The wire names of the methods -/

/-- Every method of `ErrorMethod`, in source order. -/
def ErrorMethod.all : List ErrorMethod :=
  [ErrorMethod.CSS_Enable,
   ErrorMethod.CSS_Disable,
   ErrorMethod.CSS_GetMatchedStylesForNode,
   ErrorMethod.CSS_GetInlineStylesForNode,
   ErrorMethod.CSS_GetComputedStyleForNode,
   ErrorMethod.CSS_GetPlatformFontsForNode,
   ErrorMethod.CSS_GetStyleSheetText,
   ErrorMethod.CSS_CollectClassNames,
   ErrorMethod.CSS_SetStyleSheetText,
   ErrorMethod.CSS_SetRuleSelector,
   ErrorMethod.CSS_SetKeyframeKey,
   ErrorMethod.CSS_SetStyleTexts,
   ErrorMethod.CSS_SetMediaText,
   ErrorMethod.CSS_CreateStyleSheet,
   ErrorMethod.CSS_AddRule,
   ErrorMethod.CSS_ForcePseudoState,
   ErrorMethod.CSS_GetMediaQueries,
   ErrorMethod.CSS_SetEffectivePropertyValueForNode,
   ErrorMethod.CSS_GetBackgroundColors,
   ErrorMethod.CSS_StartRuleUsageTracking,
   ErrorMethod.CSS_TakeCoverageDelta,
   ErrorMethod.CSS_StopRuleUsageTracking,
   ErrorMethod.DOM_Enable,
   ErrorMethod.DOM_Disable,
   ErrorMethod.DOM_GetDocument,
   ErrorMethod.DOM_GetFlattenedDocument,
   ErrorMethod.DOM_RequestChildNodes,
   ErrorMethod.DOM_QuerySelector,
   ErrorMethod.DOM_SetNodeName,
   ErrorMethod.DOM_SetNodeValue,
   ErrorMethod.DOM_RemoveNode,
   ErrorMethod.DOM_SetAttributeValue,
   ErrorMethod.DOM_SetAttributesAsText,
   ErrorMethod.DOM_RemoveAttribute,
   ErrorMethod.DOM_GetOuterHTML,
   ErrorMethod.DOM_SetOuterHTML,
   ErrorMethod.DOM_PerformSearch,
   ErrorMethod.DOM_GetSearchResults,
   ErrorMethod.DOM_DiscardSearchResults,
   ErrorMethod.DOM_RequestNode,
   ErrorMethod.DOM_PushNodeByPathToFrontend,
   ErrorMethod.DOM_PushNodesByBackendIDsToFrontend,
   ErrorMethod.DOM_SetInspectedNode,
   ErrorMethod.DOM_ResolveNode,
   ErrorMethod.DOM_GetAttributes,
   ErrorMethod.DOM_CopyTo,
   ErrorMethod.DOM_MoveTo,
   ErrorMethod.DOM_Undo,
   ErrorMethod.DOM_Redo,
   ErrorMethod.DOM_MarkUndoableState,
   ErrorMethod.DOM_Focus,
   ErrorMethod.DOM_SetFileInputFiles,
   ErrorMethod.DOM_GetBoxModel,
   ErrorMethod.DOM_GetNodeForLocation,
   ErrorMethod.DOM_GetRelayoutBoundary,
   ErrorMethod.DOM_DescribeNode,
   ErrorMethod.Debugger_ContinueToLocation,
   ErrorMethod.Debugger_Disable,
   ErrorMethod.Debugger_Enable,
   ErrorMethod.Debugger_Pause,
   ErrorMethod.Debugger_PauseOnAsyncCall,
   ErrorMethod.Debugger_RemoveBreakpoint,
   ErrorMethod.Debugger_Resume,
   ErrorMethod.Debugger_ScheduleStepIntoAsync,
   ErrorMethod.Debugger_SetAsyncCallStackDepth,
   ErrorMethod.Debugger_SetBlackboxPatterns,
   ErrorMethod.Debugger_SetBlackboxedRanges,
   ErrorMethod.Debugger_SetBreakpointsActive,
   ErrorMethod.Debugger_SetPauseOnExceptions,
   ErrorMethod.Debugger_SetReturnValue,
   ErrorMethod.Debugger_SetSkipAllPauses,
   ErrorMethod.Debugger_SetVariableValue,
   ErrorMethod.Debugger_StepInto,
   ErrorMethod.Debugger_StepOut,
   ErrorMethod.Debugger_StepOver,
   ErrorMethod.ApplicationCache_Enable]

/-- Every method of `HeadlessErrorMethod`, in source order. -/
def HeadlessErrorMethod.all : List HeadlessErrorMethod :=
  [HeadlessErrorMethod.HeadlessExperimental_Disable,
   HeadlessErrorMethod.HeadlessExperimental_Enable]

/-- Every method of `ResultMethod`, in source order. -/
def ResultMethod.all : List ResultMethod :=
  [ResultMethod.Debugger_EvaluateOnCallFrame,
   ResultMethod.Debugger_GetPossibleBreakpoints,
   ResultMethod.Debugger_GetScriptSource,
   ResultMethod.Debugger_GetStackTrace,
   ResultMethod.Debugger_RestartFrame,
   ResultMethod.Debugger_SearchInContent,
   ResultMethod.Debugger_SetBreakpoint,
   ResultMethod.Debugger_SetBreakpointByURL,
   ResultMethod.Debugger_SetScriptSource,
   ResultMethod.ApplicationCache_GetForFrame,
   ResultMethod.ApplicationCache_GetFramesWithManifests,
   ResultMethod.ApplicationCache_GetManifestForFrame]

/-- Every method of `OnMethod`, in source order. -/
def OnMethod.all : List OnMethod :=
  [OnMethod.Debugger_OnBreakpointResolved,
   OnMethod.Debugger_OnPaused,
   OnMethod.Debugger_OnResumed,
   OnMethod.Debugger_OnScriptFailedToParse,
   OnMethod.Debugger_OnScriptParsed,
   OnMethod.ApplicationCache_OnApplicationCacheStatusUpdated,
   OnMethod.ApplicationCache_OnNetworkStateUpdated]

/-- Every method of `HeadlessOnMethod`, in source order. -/
def HeadlessOnMethod.all : List HeadlessOnMethod :=
  [HeadlessOnMethod.HeadlessExperimental_OnMainFrameReadyForScreenshots,
   HeadlessOnMethod.HeadlessExperimental_OnNeedsBeginFramesChanged]

/-- Every method of `ChromeOnMethod`, in source order. -/
def ChromeOnMethod.all : List ChromeOnMethod :=
  [ChromeOnMethod.CSS_OnMediaQueryResultChanged,
   ChromeOnMethod.CSS_OnFontsUpdated,
   ChromeOnMethod.CSS_OnStyleSheetChanged,
   ChromeOnMethod.CSS_OnStyleSheetAdded,
   ChromeOnMethod.CSS_OnStyleSheetRemoved,
   ChromeOnMethod.DOM_OnDocumentUpdated,
   ChromeOnMethod.DOM_OnSetChildNodes,
   ChromeOnMethod.DOM_OnAttributeModified,
   ChromeOnMethod.DOM_OnAttributeRemoved,
   ChromeOnMethod.DOM_OnInlineStyleInvalidated,
   ChromeOnMethod.DOM_OnCharacterDataModified,
   ChromeOnMethod.DOM_OnChildNodeCountUpdated,
   ChromeOnMethod.DOM_OnChildNodeInserted,
   ChromeOnMethod.DOM_OnChildNodeRemoved,
   ChromeOnMethod.DOM_OnShadowRootPushed,
   ChromeOnMethod.DOM_OnShadowRootPopped,
   ChromeOnMethod.DOM_OnPseudoElementAdded,
   ChromeOnMethod.DOM_OnPseudoElementRemoved,
   ChromeOnMethod.DOM_OnDistributedNodesUpdated]

/-- The name under which an error-only command method sends its command, read
off a run on a socket that answers every command. -/
def ErrorMethod.wire (m : ErrorMethod) : String :=
  String.join ((sentCommands (m.run (answeringSocket Unit none).traced ((), []) none).1.2).map
    Command.method)

/-- The name under which a HeadlessExperimental error-only method sends its
command. -/
def HeadlessErrorMethod.wire (m : HeadlessErrorMethod) : String :=
  String.join ((sentCommands (m.run
    (HeadlessExperimentalProtocol.traced
      ({ Socket := answeringSocket (EventHandler Unit) none } :
        HeadlessExperimentalProtocol Unit Unit)) ((), [])).1.2).map Command.method)

/-- The name under which a result-bearing method sends its command. -/
def ResultMethod.wire (m : ResultMethod) : String :=
  String.join ((sentCommands (m.run natJson (answeringSocket Unit none).traced
    ((), []) none).1.2).map Command.method)

/-- The name under which `BeginFrame` sends its command. -/
def HeadlessExperimentalProtocol.BeginFrame.wire : String :=
  String.join ((sentCommands (HeadlessExperimentalProtocol.BeginFrame (0 : Nat) (fun _ => [])
    (fun _ target => (target, none))
    (HeadlessExperimentalProtocol.traced
      ({ Socket := answeringSocket (EventHandler Unit) none } :
        HeadlessExperimentalProtocol Unit Unit)) ((), []) none).1.2).map Command.method)

/-- The event name under which an `On*` method of the Debugger and
ApplicationCache facades registers its handler. -/
def OnMethod.wire (m : OnMethod) : String :=
  String.join ((addedHandlers (m.run natJson
    (answeringSocket (EventHandler Unit) none).traced ((), []) (fun _ u => u)).2).map
    EventHandler.Name)

/-- The event name under which an `On*` method of the HeadlessExperimental
facade registers its handler. -/
def HeadlessOnMethod.wire (m : HeadlessOnMethod) : String :=
  String.join ((addedHandlers (m.run natJson
    (HeadlessExperimentalProtocol.traced
      ({ Socket := answeringSocket (EventHandler Unit) none } :
        HeadlessExperimentalProtocol Unit Unit)) ((), []) (fun _ u => u)).2).map
    EventHandler.Name)

/-- The event name under which an `On*` method of the CSS and DOM facades
registers its handler. -/
def ChromeOnMethod.wire (m : ChromeOnMethod) : String :=
  String.join ((addedHandlers (m.run natJson
    (answeringSocket (protocol.EventHandler Unit) none).traced ((), []) (fun _ u => u)).2).map
    protocol.EventHandler.Name)

/-- A command method of any of the five facades. -/
inductive CommandMethod where
  | error (m : ErrorMethod)
  | headlessError (m : HeadlessErrorMethod)
  | result (m : ResultMethod)
  | beginFrame
  deriving DecidableEq

/-- The name under which a command method sends its command. -/
def CommandMethod.wire : CommandMethod → String
  | CommandMethod.error m => m.wire
  | CommandMethod.headlessError m => m.wire
  | CommandMethod.result m => m.wire
  | CommandMethod.beginFrame => HeadlessExperimentalProtocol.BeginFrame.wire

/-- Every command method of the five facades. -/
def CommandMethod.all : List CommandMethod :=
  ErrorMethod.all.map CommandMethod.error ++
    (HeadlessErrorMethod.all.map CommandMethod.headlessError ++
      (ResultMethod.all.map CommandMethod.result ++ [CommandMethod.beginFrame]))

/-- An `On*` method of any of the five facades. -/
inductive EventMethod where
  | protocol (m : OnMethod)
  | headless (m : HeadlessOnMethod)
  | chrome (m : ChromeOnMethod)
  deriving DecidableEq

/-- The event name under which an `On*` method registers its handler. -/
def EventMethod.wire : EventMethod → String
  | EventMethod.protocol m => m.wire
  | EventMethod.headless m => m.wire
  | EventMethod.chrome m => m.wire

/-- Every `On*` method of the five facades. -/
def EventMethod.all : List EventMethod :=
  OnMethod.all.map EventMethod.protocol ++
    (HeadlessOnMethod.all.map EventMethod.headless ++ ChromeOnMethod.all.map EventMethod.chrome)

/-! ## The struct fields of page.go

Every field of every struct type of `protocol/page/page.go`, with its json tag
and the opening word of its comment, and the encoding `json.Marshal` gives a
struct from the tags of its fields. -/

/-- The kind of Go type a field has, as far as the encoding goes. A named type
of page.go counts as its underlying type; `external` is a type of another
package (`runtime`, `debugger`). -/
inductive GoKind where
  | string
  | int
  | float
  | bool
  | slice
  | struct
  | iface
  | external
  deriving DecidableEq, Repr

/-- One struct field: its Go name, the kind of its type, the key and the
`omitempty` option of its json tag, and the opening word of its comment (empty
when it has no comment). -/
structure FieldSpec where
  name : String
  kind : GoKind
  key : String
  omitempty : Bool
  commentHead : String
  deriving DecidableEq

/-- Whether the comment of the field marks it "Optional.". -/
def FieldSpec.markedOptional (f : FieldSpec) : Bool :=
  decide (f.commentHead = "Optional.")

/-- One struct type: its name and its fields in declaration order. -/
structure StructSpec where
  name : String
  fields : List FieldSpec
  deriving DecidableEq

/-- Whether the struct is a params struct or an event struct, by its name. -/
def StructSpec.isParamsOrEvent (s : StructSpec) : Bool :=
  "Params".data.isSuffixOf s.name.data || "Event".data.isSuffixOf s.name.data

/-- The struct types of `protocol/page/page.go`, in source order. -/
def pageStructs : List StructSpec :=
  [
   { name := "AddScriptToEvaluateOnLoadParams",
     fields :=
      [{ name := "ScriptSource", kind := GoKind.string, key := "scriptSource",
         omitempty := false, commentHead := "" }] },
   { name := "AddScriptToEvaluateOnLoadResult",
     fields :=
      [{ name := "Identifier", kind := GoKind.string, key := "identifier",
         omitempty := false, commentHead := "Identifier" }] },
   { name := "AddScriptToEvaluateOnNewDocumentParams",
     fields :=
      [{ name := "Source", kind := GoKind.string, key := "source",
         omitempty := false, commentHead := "" }] },
   { name := "AddScriptToEvaluateOnNewDocumentResult",
     fields :=
      [{ name := "Identifier", kind := GoKind.string, key := "identifier",
         omitempty := false, commentHead := "Identifier" }] },
   { name := "CaptureScreenshotParams",
     fields :=
      [{ name := "Format", kind := GoKind.string, key := "format",
         omitempty := true, commentHead := "Optional." },
       { name := "Quality", kind := GoKind.int, key := "quality",
         omitempty := true, commentHead := "Optional." },
       { name := "Clip", kind := GoKind.iface, key := "clip",
         omitempty := true, commentHead := "Optional." },
       { name := "FromSurface", kind := GoKind.bool, key := "fromSurface",
         omitempty := true, commentHead := "Optional." }] },
   { name := "CaptureScreenshotResult",
     fields :=
      [{ name := "Data", kind := GoKind.string, key := "data",
         omitempty := false, commentHead := "Base64-encoded" }] },
   { name := "CreateIsolatedWorldParams",
     fields :=
      [{ name := "FrameID", kind := GoKind.string, key := "frameId",
         omitempty := false, commentHead := "ID" },
       { name := "WorldName", kind := GoKind.string, key := "worldName",
         omitempty := true, commentHead := "Optional." },
       { name := "GrantUniveralAccess", kind := GoKind.bool, key := "grantUniveralAccess",
         omitempty := true, commentHead := "Optional." }] },
   { name := "CreateIsolatedWorldResult",
     fields :=
      [{ name := "ExecutionContextID", kind := GoKind.external, key := "executionContextId",
         omitempty := false, commentHead := "Execution" }] },
   { name := "GetAppManifestParams",
     fields :=
      [{ name := "URL", kind := GoKind.string, key := "url",
         omitempty := false, commentHead := "Manifest" },
       { name := "Errors", kind := GoKind.slice, key := "errors",
         omitempty := false, commentHead := "Errors." },
       { name := "Data", kind := GoKind.string, key := "data",
         omitempty := true, commentHead := "Optional." }] },
   { name := "GetFrameTreeResult",
     fields :=
      [{ name := "FrameTree", kind := GoKind.struct, key := "frameTree",
         omitempty := false, commentHead := "Present" }] },
   { name := "GetLayoutMetricsResult",
     fields :=
      [{ name := "LayoutViewport", kind := GoKind.struct, key := "layoutViewport",
         omitempty := false, commentHead := "Metrics" },
       { name := "VisualViewport", kind := GoKind.struct, key := "visualViewport",
         omitempty := false, commentHead := "Metrics" },
       { name := "ContentSize", kind := GoKind.struct, key := "contentSize",
         omitempty := false, commentHead := "Size" }] },
   { name := "GetNavigationHistoryResult",
     fields :=
      [{ name := "CurrentIndex", kind := GoKind.int, key := "currentIndex",
         omitempty := false, commentHead := "Index" },
       { name := "Entries", kind := GoKind.slice, key := "entries",
         omitempty := false, commentHead := "Array" }] },
   { name := "GetResourceContentParams",
     fields :=
      [{ name := "FrameID", kind := GoKind.string, key := "frameId",
         omitempty := false, commentHead := "Frame" },
       { name := "URL", kind := GoKind.string, key := "url",
         omitempty := false, commentHead := "URL" }] },
   { name := "GetResourceContentResult",
     fields :=
      [{ name := "Content", kind := GoKind.string, key := "content",
         omitempty := false, commentHead := "Resource" },
       { name := "Base64Encoded", kind := GoKind.bool, key := "base64Encoded",
         omitempty := false, commentHead := "True," }] },
   { name := "GetResourceTreeResult",
     fields :=
      [{ name := "FrameTree", kind := GoKind.struct, key := "frameTree",
         omitempty := false, commentHead := "Present" }] },
   { name := "HandleJavaScriptDialogParams",
     fields :=
      [{ name := "Accept", kind := GoKind.bool, key := "accept",
         omitempty := false, commentHead := "Whether" },
       { name := "PromptText", kind := GoKind.string, key := "promptText",
         omitempty := true, commentHead := "Optional." }] },
   { name := "NavigateParams",
     fields :=
      [{ name := "URL", kind := GoKind.string, key := "url",
         omitempty := false, commentHead := "URL" },
       { name := "Referrer", kind := GoKind.string, key := "referrer",
         omitempty := true, commentHead := "Optional." },
       { name := "TransitionType", kind := GoKind.string, key := "transitionType",
         omitempty := true, commentHead := "Optional." }] },
   { name := "NavigateResult",
     fields :=
      [{ name := "FrameID", kind := GoKind.string, key := "frameId",
         omitempty := false, commentHead := "Frame" },
       { name := "LoaderID", kind := GoKind.string, key := "loaderId",
         omitempty := false, commentHead := "Loader" },
       { name := "ErrorText", kind := GoKind.string, key := "errorText",
         omitempty := false, commentHead := "User" }] },
   { name := "NavigateToHistoryEntryParams",
     fields :=
      [{ name := "EntryID", kind := GoKind.int, key := "entryId",
         omitempty := false, commentHead := "Unique" }] },
   { name := "PrintToPDFParams",
     fields :=
      [{ name := "Landscape", kind := GoKind.bool, key := "landscape",
         omitempty := true, commentHead := "Optional." },
       { name := "DisplayHeaderFooter", kind := GoKind.bool, key := "displayHeaderFooter",
         omitempty := true, commentHead := "Optional." },
       { name := "PrintBackground", kind := GoKind.bool, key := "printBackground",
         omitempty := true, commentHead := "Optional." },
       { name := "Scale", kind := GoKind.float, key := "scale",
         omitempty := true, commentHead := "Optional." },
       { name := "PaperWidth", kind := GoKind.float, key := "paperWidth",
         omitempty := true, commentHead := "Optional." },
       { name := "PaperHeight", kind := GoKind.float, key := "paperHeight",
         omitempty := true, commentHead := "Optional." },
       { name := "MarginTop", kind := GoKind.float, key := "marginTop",
         omitempty := true, commentHead := "Optional." },
       { name := "MarginBottom", kind := GoKind.float, key := "marginBottom",
         omitempty := true, commentHead := "Optional." },
       { name := "MarginLeft", kind := GoKind.float, key := "marginLeft",
         omitempty := true, commentHead := "Optional." },
       { name := "MarginRight", kind := GoKind.float, key := "marginRight",
         omitempty := true, commentHead := "Optional." },
       { name := "PageRanges", kind := GoKind.string, key := "pageRanges",
         omitempty := true, commentHead := "Optional." },
       { name := "IgnoreInvalidPageRanges", kind := GoKind.bool, key := "ignoreInvalidPageRanges",
         omitempty := true, commentHead := "Optional." }] },
   { name := "PrintToPDFResult",
     fields :=
      [{ name := "Data", kind := GoKind.string, key := "data",
         omitempty := false, commentHead := "Base64-encoded" }] },
   { name := "ReloadParams",
     fields :=
      [{ name := "IgnoreCache", kind := GoKind.bool, key := "ignoreCache",
         omitempty := true, commentHead := "Optional." },
       { name := "ScriptToEvaluateOnLoad", kind := GoKind.string, key := "scriptToEvaluateOnLoad",
         omitempty := true, commentHead := "Optional." }] },
   { name := "RemoveScriptToEvaluateOnLoadParams",
     fields :=
      [{ name := "Identifier", kind := GoKind.string, key := "identifier",
         omitempty := false, commentHead := "" }] },
   { name := "RemoveScriptToEvaluateOnNewDocumentParams",
     fields :=
      [{ name := "Identifier", kind := GoKind.string, key := "identifier",
         omitempty := false, commentHead := "" }] },
   { name := "ScreencastFrameAckParams",
     fields :=
      [{ name := "SessionID", kind := GoKind.int, key := "sessionId",
         omitempty := false, commentHead := "Frame" }] },
   { name := "SearchInResourceParams",
     fields :=
      [{ name := "FrameID", kind := GoKind.string, key := "frameId",
         omitempty := false, commentHead := "Frame" },
       { name := "URL", kind := GoKind.string, key := "url",
         omitempty := false, commentHead := "URL" },
       { name := "Query", kind := GoKind.string, key := "query",
         omitempty := false, commentHead := "String" },
       { name := "CaseSensitive", kind := GoKind.bool, key := "caseSensitive",
         omitempty := true, commentHead := "Optional." },
       { name := "IsRegex", kind := GoKind.bool, key := "isRegex",
         omitempty := true, commentHead := "Optional." }] },
   { name := "SearchInResourceResult",
     fields :=
      [{ name := "Result", kind := GoKind.slice, key := "result",
         omitempty := false, commentHead := "List" }] },
   { name := "SetAdBlockingEnabledParams",
     fields :=
      [{ name := "Enabled", kind := GoKind.bool, key := "enabled",
         omitempty := false, commentHead := "Whether" }] },
   { name := "SetAutoAttachToCreatedPagesParams",
     fields :=
      [{ name := "AutoAttach", kind := GoKind.bool, key := "autoAttach",
         omitempty := false, commentHead := "If" }] },
   { name := "SetDocumentContentParams",
     fields :=
      [{ name := "FrameID", kind := GoKind.string, key := "frameId",
         omitempty := false, commentHead := "Frame" },
       { name := "HTML", kind := GoKind.string, key := "html",
         omitempty := false, commentHead := "HTML" }] },
   { name := "SetDownloadBehaviorParams",
     fields :=
      [{ name := "Behavior", kind := GoKind.string, key := "behavior",
         omitempty := false, commentHead := "Whether" },
       { name := "DownloadPath", kind := GoKind.string, key := "downloadPath",
         omitempty := true, commentHead := "Optional." }] },
   { name := "SetLifecycleEventsEnabledParams",
     fields :=
      [{ name := "Enabled", kind := GoKind.bool, key := "enabled",
         omitempty := false, commentHead := "If" }] },
   { name := "StartScreencastParams",
     fields :=
      [{ name := "Format", kind := GoKind.string, key := "format",
         omitempty := true, commentHead := "Optional." },
       { name := "Quality", kind := GoKind.int, key := "quality",
         omitempty := true, commentHead := "Optional." },
       { name := "MaxWidth", kind := GoKind.int, key := "maxWidth",
         omitempty := true, commentHead := "Optional." },
       { name := "MaxHeight", kind := GoKind.int, key := "maxHeight",
         omitempty := true, commentHead := "Optional." },
       { name := "EveryNthFrame", kind := GoKind.int, key := "everyNthFrame",
         omitempty := true, commentHead := "Optional." }] },
   { name := "DOMContentEventFiredEvent",
     fields :=
      [{ name := "Timestamp", kind := GoKind.int, key := "timestamp",
         omitempty := false, commentHead := "" }] },
   { name := "FrameAttachedEvent",
     fields :=
      [{ name := "FrameID", kind := GoKind.string, key := "frameId",
         omitempty := false, commentHead := "ID" },
       { name := "ParentFrameID", kind := GoKind.string, key := "parentFrameId",
         omitempty := false, commentHead := "Parent" },
       { name := "Stack", kind := GoKind.external, key := "stack",
         omitempty := true, commentHead := "Optional." }] },
   { name := "FrameClearedScheduledNavigationEvent",
     fields :=
      [{ name := "FrameID", kind := GoKind.string, key := "frameId",
         omitempty := false, commentHead := "ID" }] },
   { name := "FrameDetachedEvent",
     fields :=
      [{ name := "FrameID", kind := GoKind.string, key := "frameId",
         omitempty := false, commentHead := "ID" }] },
   { name := "FrameNavigatedEvent",
     fields :=
      [{ name := "Frame", kind := GoKind.struct, key := "frame",
         omitempty := false, commentHead := "Frame" }] },
   { name := "FrameResizedEvent",
     fields :=
      [] },
   { name := "FrameScheduledNavigationEvent",
     fields :=
      [{ name := "FrameID", kind := GoKind.string, key := "frameId",
         omitempty := false, commentHead := "ID" },
       { name := "Delay", kind := GoKind.float, key := "delay",
         omitempty := false, commentHead := "Delay" },
       { name := "Reason", kind := GoKind.string, key := "reason",
         omitempty := false, commentHead := "The" },
       { name := "URL", kind := GoKind.string, key := "url",
         omitempty := false, commentHead := "The" }] },
   { name := "FrameStartedLoadingEvent",
     fields :=
      [{ name := "FrameID", kind := GoKind.string, key := "frameId",
         omitempty := false, commentHead := "ID" }] },
   { name := "FrameStoppedLoadingEvent",
     fields :=
      [{ name := "FrameID", kind := GoKind.string, key := "frameId",
         omitempty := false, commentHead := "ID" }] },
   { name := "InterstitialHiddenEvent",
     fields :=
      [] },
   { name := "InterstitialShownEvent",
     fields :=
      [] },
   { name := "JavascriptDialogClosedEvent",
     fields :=
      [{ name := "Result", kind := GoKind.bool, key := "result",
         omitempty := false, commentHead := "Whether" },
       { name := "UserInput", kind := GoKind.string, key := "userInput",
         omitempty := false, commentHead := "User" }] },
   { name := "JavascriptDialogOpeningEvent",
     fields :=
      [{ name := "URL", kind := GoKind.string, key := "url",
         omitempty := false, commentHead := "Frame" },
       { name := "Message", kind := GoKind.string, key := "message",
         omitempty := false, commentHead := "Message" },
       { name := "Type", kind := GoKind.string, key := "type",
         omitempty := false, commentHead := "Dialog" },
       { name := "DefaultPrompt", kind := GoKind.string, key := "defaultPrompt",
         omitempty := true, commentHead := "Optional." }] },
   { name := "LifecycleEventEvent",
     fields :=
      [{ name := "FrameID", kind := GoKind.string, key := "frameId",
         omitempty := false, commentHead := "ID" },
       { name := "LoaderID", kind := GoKind.string, key := "loaderId",
         omitempty := false, commentHead := "Loader" },
       { name := "Name", kind := GoKind.string, key := "name",
         omitempty := false, commentHead := "name." },
       { name := "Timestamp", kind := GoKind.int, key := "timestamp",
         omitempty := false, commentHead := "timestamp." }] },
   { name := "LoadEventFiredEvent",
     fields :=
      [{ name := "Timestamp", kind := GoKind.int, key := "timestamp",
         omitempty := false, commentHead := "timestamp." }] },
   { name := "ScreencastFrameEvent",
     fields :=
      [{ name := "Data", kind := GoKind.string, key := "data",
         omitempty := false, commentHead := "Base64-encoded" },
       { name := "Metadata", kind := GoKind.struct, key := "metadata",
         omitempty := false, commentHead := "Screencast" },
       { name := "SessionID", kind := GoKind.int, key := "sessionId",
         omitempty := false, commentHead := "Frame" }] },
   { name := "ScreencastVisibilityChangedEvent",
     fields :=
      [{ name := "Visible", kind := GoKind.bool, key := "visible",
         omitempty := false, commentHead := "True" }] },
   { name := "WindowOpenEvent",
     fields :=
      [{ name := "URL", kind := GoKind.string, key := "url",
         omitempty := false, commentHead := "The" },
       { name := "WindowName", kind := GoKind.string, key := "windowName",
         omitempty := false, commentHead := "Window" },
       { name := "WindowFeatures", kind := GoKind.slice, key := "windowFeatures",
         omitempty := false, commentHead := "An" },
       { name := "UserGesture", kind := GoKind.bool, key := "userGesture",
         omitempty := false, commentHead := "Whether" }] },
   { name := "Rect",
     fields :=
      [{ name := "X", kind := GoKind.float, key := "x",
         omitempty := false, commentHead := "X" },
       { name := "Y", kind := GoKind.float, key := "y",
         omitempty := false, commentHead := "Y" },
       { name := "Width", kind := GoKind.float, key := "width",
         omitempty := false, commentHead := "Rectangle" },
       { name := "Height", kind := GoKind.float, key := "height",
         omitempty := false, commentHead := "Rectangle" }] },
   { name := "AppManifestError",
     fields :=
      [{ name := "Message", kind := GoKind.string, key := "message",
         omitempty := false, commentHead := "Error" },
       { name := "Critical", kind := GoKind.int, key := "critical",
         omitempty := false, commentHead := "If" },
       { name := "Line", kind := GoKind.int, key := "line",
         omitempty := false, commentHead := "Error" },
       { name := "Column", kind := GoKind.int, key := "column",
         omitempty := false, commentHead := "Error" }] },
   { name := "Frame",
     fields :=
      [{ name := "ID", kind := GoKind.string, key := "id",
         omitempty := false, commentHead := "Frame" },
       { name := "ParentID", kind := GoKind.string, key := "parentId",
         omitempty := true, commentHead := "Optional." },
       { name := "LoaderID", kind := GoKind.string, key := "loaderId",
         omitempty := false, commentHead := "Identifier" },
       { name := "Name", kind := GoKind.string, key := "name",
         omitempty := true, commentHead := "Optional." },
       { name := "URL", kind := GoKind.string, key := "url",
         omitempty := false, commentHead := "Frame" },
       { name := "SecurityOrigin", kind := GoKind.string, key := "securityOrigin",
         omitempty := false, commentHead := "Frame" },
       { name := "MimeType", kind := GoKind.string, key := "mimeType",
         omitempty := false, commentHead := "Frame" },
       { name := "UnreachableURL", kind := GoKind.string, key := "unreachableUrl",
         omitempty := true, commentHead := "Optional." }] },
   { name := "FrameResource",
     fields :=
      [{ name := "URL", kind := GoKind.string, key := "url",
         omitempty := false, commentHead := "Resource" },
       { name := "Type", kind := GoKind.string, key := "type",
         omitempty := false, commentHead := "Type" },
       { name := "MimeType", kind := GoKind.string, key := "mimeType",
         omitempty := false, commentHead := "Resource" },
       { name := "LastModified", kind := GoKind.int, key := "lastModified",
         omitempty := true, commentHead := "Optional." },
       { name := "ContentSize", kind := GoKind.int, key := "contentSize",
         omitempty := true, commentHead := "Optional." },
       { name := "Failed", kind := GoKind.bool, key := "failed",
         omitempty := true, commentHead := "Optional." },
       { name := "Canceled", kind := GoKind.bool, key := "canceled",
         omitempty := true, commentHead := "Optional." }] },
   { name := "FrameResourceTree",
     fields :=
      [{ name := "Frame", kind := GoKind.struct, key := "frame",
         omitempty := false, commentHead := "Frame" },
       { name := "ChildFrames", kind := GoKind.slice, key := "childFrames",
         omitempty := true, commentHead := "Optional." },
       { name := "Resources", kind := GoKind.slice, key := "resources",
         omitempty := false, commentHead := "Information" }] },
   { name := "FrameTree",
     fields :=
      [{ name := "Frame", kind := GoKind.struct, key := "frame",
         omitempty := false, commentHead := "Frame" },
       { name := "ChildFrames", kind := GoKind.slice, key := "childFrames",
         omitempty := true, commentHead := "Optional." }] },
   { name := "LayoutViewport",
     fields :=
      [{ name := "PageX", kind := GoKind.int, key := "pageX",
         omitempty := false, commentHead := "Horizontal" },
       { name := "PageY", kind := GoKind.int, key := "pageY",
         omitempty := false, commentHead := "Vertical" },
       { name := "ClientWidth", kind := GoKind.int, key := "clientWidth",
         omitempty := false, commentHead := "Width" },
       { name := "ClientHeight", kind := GoKind.int, key := "clientHeight",
         omitempty := false, commentHead := "Height" }] },
   { name := "NavigationEntry",
     fields :=
      [{ name := "ID", kind := GoKind.int, key := "id",
         omitempty := false, commentHead := "Unique" },
       { name := "URL", kind := GoKind.string, key := "url",
         omitempty := false, commentHead := "URL" },
       { name := "UserTypedURL", kind := GoKind.string, key := "userTypedURL",
         omitempty := false, commentHead := "URL" },
       { name := "Title", kind := GoKind.string, key := "title",
         omitempty := false, commentHead := "Title" },
       { name := "TransitionType", kind := GoKind.string, key := "transitionType",
         omitempty := false, commentHead := "Transition" }] },
   { name := "ScreencastFrameMetadata",
     fields :=
      [{ name := "OffsetTop", kind := GoKind.int, key := "offsetTop",
         omitempty := false, commentHead := "Top" },
       { name := "PageScaleFactor", kind := GoKind.int, key := "pageScaleFactor",
         omitempty := false, commentHead := "Page" },
       { name := "DeviceWidth", kind := GoKind.int, key := "deviceWidth",
         omitempty := false, commentHead := "Device" },
       { name := "DeviceHeight", kind := GoKind.int, key := "deviceHeight",
         omitempty := false, commentHead := "Device" },
       { name := "ScrollOffsetX", kind := GoKind.int, key := "scrollOffsetX",
         omitempty := false, commentHead := "Position" },
       { name := "ScrollOffsetY", kind := GoKind.int, key := "scrollOffsetY",
         omitempty := false, commentHead := "Position" },
       { name := "Timestamp", kind := GoKind.int, key := "timestamp",
         omitempty := true, commentHead := "Optional." }] },
   { name := "Viewport",
     fields :=
      [{ name := "X", kind := GoKind.int, key := "x",
         omitempty := false, commentHead := "Required." },
       { name := "Y", kind := GoKind.int, key := "y",
         omitempty := false, commentHead := "Required." },
       { name := "Width", kind := GoKind.int, key := "width",
         omitempty := false, commentHead := "Required." },
       { name := "Height", kind := GoKind.int, key := "height",
         omitempty := false, commentHead := "Required." },
       { name := "Scale", kind := GoKind.int, key := "scale",
         omitempty := false, commentHead := "Required." }] },
   { name := "VisualViewport",
     fields :=
      [{ name := "OffsetX", kind := GoKind.int, key := "offsetX",
         omitempty := false, commentHead := "Horizontal" },
       { name := "OffsetY", kind := GoKind.int, key := "offsetY",
         omitempty := false, commentHead := "Vertical" },
       { name := "PageX", kind := GoKind.int, key := "pageX",
         omitempty := false, commentHead := "Horizontal" },
       { name := "PageY", kind := GoKind.int, key := "pageY",
         omitempty := false, commentHead := "Vertical" },
       { name := "ClientWidth", kind := GoKind.int, key := "clientWidth",
         omitempty := false, commentHead := "Width" },
       { name := "ClientHeight", kind := GoKind.int, key := "clientHeight",
         omitempty := false, commentHead := "Height" },
       { name := "Scale", kind := GoKind.int, key := "scale",
         omitempty := false, commentHead := "Scale" }] }]

/-- A value held by a struct field, as far as the encoding goes. A float64 is
given by whether it equals 0 and by the JSON number it encodes to; a slice is
nil (`none`) or holds its elements; a struct and a value of another package are
given by whether they are the zero value of their type and by their encoding. -/
inductive GoValue where
  | string (s : String)
  | int (n : Int)
  | float (zero : Bool) (encoded : Payload)
  | bool (b : Bool)
  | slice (items : Option PayloadList)
  | struct (zero : Bool) (encoded : Payload)
  | iface (held : Option Payload)
  | external (zero : Bool) (empty : Bool) (encoded : Payload)

/-- The kind of the type of a value. -/
def GoValue.kind : GoValue → GoKind
  | GoValue.string _ => GoKind.string
  | GoValue.int _ => GoKind.int
  | GoValue.float _ _ => GoKind.float
  | GoValue.bool _ => GoKind.bool
  | GoValue.slice _ => GoKind.slice
  | GoValue.struct _ _ => GoKind.struct
  | GoValue.iface _ => GoKind.iface
  | GoValue.external _ _ _ => GoKind.external

/-- Whether `omitempty` takes the value for empty: false, 0, a nil pointer, a
nil interface value, and any empty array, slice, map or string; a struct is
never empty. -/
def GoValue.isEmpty : GoValue → Bool
  | GoValue.string s => decide (s = "")
  | GoValue.int n => decide (n = 0)
  | GoValue.float zero _ => zero
  | GoValue.bool b => !b
  | GoValue.slice none => true
  | GoValue.slice (some PayloadList.nil) => true
  | GoValue.slice (some (PayloadList.cons _ _)) => false
  | GoValue.struct _ _ => false
  | GoValue.iface held => held.isNone
  | GoValue.external _ empty _ => empty

/-- Whether the value is the zero value of its type: the empty string, 0,
false, the nil slice, the nil interface. -/
def GoValue.holdsZero : GoValue → Bool
  | GoValue.string s => decide (s = "")
  | GoValue.int n => decide (n = 0)
  | GoValue.float zero _ => zero
  | GoValue.bool b => !b
  | GoValue.slice items => items.isNone
  | GoValue.struct zero _ => zero
  | GoValue.iface held => held.isNone
  | GoValue.external zero _ _ => zero

/-- The JSON encoding of a value. -/
def GoValue.toJSON : GoValue → Payload
  | GoValue.string s => Payload.str s
  | GoValue.int n => Payload.num n
  | GoValue.float _ encoded => encoded
  | GoValue.bool b => Payload.bool b
  | GoValue.slice none => Payload.null
  | GoValue.slice (some items) => Payload.arr items
  | GoValue.struct _ encoded => encoded
  | GoValue.iface none => Payload.null
  | GoValue.iface (some held) => held
  | GoValue.external _ _ encoded => encoded

/-- The members `json.Marshal` gives a struct: one per field in declaration
order, a field tagged `omitempty` being left out when its value is empty. -/
def encodeFields (value : FieldSpec → GoValue) : List FieldSpec → PayloadFields
  | [] => PayloadFields.nil
  | f :: fs =>
    omitEmpty (f.omitempty && (value f).isEmpty) f.key (value f).toJSON (encodeFields value fs)

/-- The JSON encoding of a struct value, given by the value of each field. -/
def encodeStruct (s : StructSpec) (value : FieldSpec → GoValue) : Payload :=
  Payload.obj (encodeFields value s.fields)

/-- The field `FromSurface` as a receiver reads it from an encoded
`CaptureScreenshotParams`, with the default its comment documents for an absent
key ("Defaults to true"). -/
def readFromSurface (message : Payload) : Bool :=
  match message.field "fromSurface" with
  | some (Payload.bool b) => b
  | _ => true

/-- Modelled from the spec: the accessor `command.Result()` of the `socket`
package, whose body is not among the source files. `BeginFrame` hands its value
to `json.Unmarshal`, so it is a `[]byte`; the core passes the result through as
the raw payload (specification, section 4.1): here the JSON text of the result,
and nil when the command carries none. -/
def rawResult (command : Command) : Bytes :=
  match command.result with
  | some r => printJson r
  | none => []

/-- What `json.Unmarshal(data, &result)` does when `result` is itself a pointer
to a `GetResourceContentResult`: text that is not JSON is refused and leaves
the pointer alone (empty text is an unexpected end of input); the JSON literal
`null` sets the pointer to nil; any other value is decoded into what the
pointer points to, a fresh value being allocated when the pointer is nil. -/
def page.GetResourceContentResult.unmarshalPtr (data : Bytes)
    (target : Option page.GetResourceContentResult) :
    Option page.GetResourceContentResult × Option GoError :=
  match parseJson data with
  | none =>
    (target,
      some (GoError.other
        (if data = [] then "unexpected end of JSON input" else "invalid character")))
  | some Payload.null => (none, none)
  | some value =>
    (some (page.GetResourceContentResult.decode value
        (target.getD { Content := "", Base64Encoded := false })).1,
      (page.GetResourceContentResult.decode value
        (target.getD { Content := "", Base64Encoded := false })).2)

/-! ## Theorems: the facades -/

/-- C1: every facade command method that returns only an error (in the CSS,
DOM, Debugger, ApplicationCache and HeadlessExperimental facades) makes one
`SendCommand` call and returns exactly the error the command carries when that
call returns, whatever the socket does; the returned error is nil exactly when
the command carries no error. -/
theorem error_method_returns_command_error {σ H υ : Type} :
    (∀ (m : ErrorMethod) (socket : Socketer σ H) (w : σ) (params : Option Payload),
      ∃ sent returned,
        (m.run socket.traced (w, []) params).1.2 = [SocketCall.SendCommand sent returned] ∧
        returned = (socket.SendCommand w sent).2 ∧
        (m.run socket w params).2 = returned.Error ∧
        (m.run socket.traced (w, []) params).2 = returned.Error ∧
        ((m.run socket w params).2 = none ↔ returned.Err = none)) ∧
    (∀ (m : HeadlessErrorMethod) (protocol : HeadlessExperimentalProtocol σ υ) (w : σ),
      ∃ sent returned,
        (m.run protocol.traced (w, [])).1.2 = [SocketCall.SendCommand sent returned] ∧
        returned = (protocol.Socket.SendCommand w sent).2 ∧
        (m.run protocol w).2 = returned.Error ∧
        (m.run protocol.traced (w, [])).2 = returned.Error ∧
        ((m.run protocol w).2 = none ↔ returned.Err = none)) := by
  constructor
  · intro m socket w params
    cases m <;> exact ⟨_, _, rfl, rfl, rfl, rfl, Iff.rfl⟩
  · intro m protocol w
    cases m <;> exact ⟨_, _, rfl, rfl, rfl, rfl, Iff.rfl⟩

/-- The normal form of a result-bearing method: the one command it sends does
not depend on the socket or on the JSON library, and what it returns is
decided by the command as `SendCommand` left it. -/
theorem ResultMethod.run_eq (m : ResultMethod) (params : Option Payload) :
    ∃ sent : Command,
      (sent.params = if m.takesParams then Params.ptr params else Params.nil) ∧
      (∀ url, m.docURL = some url → wireName m.domain "#method-" url = some sent.method) ∧
      ∀ {σ H R : Type} (json : Json R) (socket : Socketer σ H) (w : σ)
        (calls : List (SocketCall H)),
        (m.run json socket.traced (w, calls) params).1.2 =
          calls ++ [SocketCall.SendCommand sent (socket.SendCommand w sent).2] ∧
        (m.run json socket w params).2 =
          (if (socket.SendCommand w sent).2.Error ≠ none then
            (json.zero, (socket.SendCommand w sent).2.Error)
          else
            match (socket.SendCommand w sent).2.Result with
            | some r =>
              match json.Marshal r with
              | Except.error err => (json.zero, some err)
              | Except.ok resultData =>
                ((json.Unmarshal resultData json.zero).1,
                  if (json.Unmarshal resultData json.zero).2 ≠ none then
                    (json.Unmarshal resultData json.zero).2
                  else (socket.SendCommand w sent).2.Error)
            | none => (json.zero, (socket.SendCommand w sent).2.Error)) := by
  cases m <;>
  · apply Exists.intro
    refine ⟨?a, ?b, ?c⟩
    case c =>
      intro σ H R json socket w calls
      constructor
      · simp only [ResultMethod.run, Debugger.EvaluateOnCallFrame,
          Debugger.GetPossibleBreakpoints, Debugger.GetScriptSource, Debugger.GetStackTrace,
          Debugger.RestartFrame, Debugger.SearchInContent, Debugger.SetBreakpoint,
          Debugger.SetBreakpointByURL, Debugger.SetScriptSource, ApplicationCache.GetForFrame,
          ApplicationCache.GetFramesWithManifests, ApplicationCache.GetManifestForFrame,
          Socketer.traced]
        split
        · rfl
        · split
          · split
            · rfl
            · split <;> rfl
          · rfl
      · simp only [ResultMethod.run, Debugger.EvaluateOnCallFrame,
          Debugger.GetPossibleBreakpoints, Debugger.GetScriptSource, Debugger.GetStackTrace,
          Debugger.RestartFrame, Debugger.SearchInContent, Debugger.SetBreakpoint,
          Debugger.SetBreakpointByURL, Debugger.SetScriptSource, ApplicationCache.GetForFrame,
          ApplicationCache.GetFramesWithManifests, ApplicationCache.GetManifestForFrame]
        split
        · rfl
        · split
          · split
            · rfl
            · split <;> rfl
          · rfl
    case a => rfl
    case b =>
      intro url hurl
      cases hurl
      rfl

/-- C2: when the command carries an error after `SendCommand`, a result-bearing
method returns that error with the zero value of its result type; the command's
result payload plays no part, whatever the JSON library would make of it. -/
theorem result_method_error_precedence {σ H R : Type} (m : ResultMethod) (json : Json R)
    (socket : Socketer σ H) (w : σ) (params : Option Payload) (command : Command)
    (err : GoError)
    (hcmd : returnedCommands (m.run json socket.traced (w, []) params).1.2 = [command])
    (herr : command.Error = some err) :
    (m.run json socket w params).2 = (json.zero, some err) ∧
    ∀ json' : Json R, json'.zero = json.zero →
      (m.run json' socket w params).2 = (m.run json socket w params).2 := by
  obtain ⟨sent, -, -, h⟩ := ResultMethod.run_eq m params
  have hc := (h json socket w []).1
  rw [hc] at hcmd
  simp only [List.nil_append, returnedCommands, List.cons.injEq, and_true] at hcmd
  rw [← hcmd] at herr
  have key : ∀ j : Json R, (m.run j socket w params).2 = (j.zero, some err) := by
    intro j
    rw [(h j socket w []).2, herr]
    simp
  refine ⟨key json, ?_⟩
  intro json' hz
  rw [key json', key json, hz]

/-- C2 at a socket that fails the command with `notOpen` while attaching the
payload `7`, which the JSON library would decode to 7. -/
theorem result_method_error_precedence_witness :
    (ResultMethod.Debugger_EvaluateOnCallFrame.run natJson
        (failingSocket Unit GoError.notOpen (some (Payload.num 7))) () none).2
      = (0, some GoError.notOpen) :=
  (result_method_error_precedence ResultMethod.Debugger_EvaluateOnCallFrame natJson
    (failingSocket Unit GoError.notOpen (some (Payload.num 7))) () none
    { method := "Debugger.evaluateOnCallFrame", params := Params.ptr none,
      result := some (Payload.num 7), Err := some GoError.notOpen }
    GoError.notOpen rfl rfl).1

/-- C3: when the command carries no error after `SendCommand`, a result-bearing
method of the Debugger and ApplicationCache facades returns the typed result
decoded from the JSON encoding of the command's result, with a nil error,
provided encoding and decoding both succeed; and it returns the zero value with
a nil error when the command's result is nil. -/
theorem result_method_decodes_result {σ H R : Type} (m : ResultMethod) (json : Json R)
    (socket : Socketer σ H) (w : σ) (params : Option Payload) (command : Command)
    (hcmd : returnedCommands (m.run json socket.traced (w, []) params).1.2 = [command])
    (herr : command.Error = none) :
    (∀ r resultData, command.Result = some r → json.Marshal r = Except.ok resultData →
      (json.Unmarshal resultData json.zero).2 = none →
      (m.run json socket w params).2 = ((json.Unmarshal resultData json.zero).1, none)) ∧
    (command.Result = none → (m.run json socket w params).2 = (json.zero, none)) := by
  obtain ⟨sent, -, -, h⟩ := ResultMethod.run_eq m params
  have hc := (h json socket w []).1
  rw [hc] at hcmd
  simp only [List.nil_append, returnedCommands, List.cons.injEq, and_true] at hcmd
  rw [← hcmd] at herr
  constructor
  · intro r resultData hr hm hu
    rw [← hcmd] at hr
    rw [(h json socket w []).2, herr, hr]
    simp [hm, hu]
  · intro hr
    rw [← hcmd] at hr
    rw [(h json socket w []).2, herr, hr]
    simp

/-- C3 at a socket that answers with the payload `7`, and at one that answers
with no payload. -/
theorem result_method_decodes_result_witness :
    (ResultMethod.Debugger_GetScriptSource.run natJson
        (answeringSocket Unit (some (Payload.num 7))) () none).2 = (7, none) ∧
    (ResultMethod.ApplicationCache_GetFramesWithManifests.run natJson
        (answeringSocket Unit none) () none).2 = (0, none) :=
  ⟨(result_method_decodes_result ResultMethod.Debugger_GetScriptSource natJson
      (answeringSocket Unit (some (Payload.num 7))) () none
      { method := "Debugger.getScriptSource", params := Params.ptr none,
        result := some (Payload.num 7) } rfl rfl).1 (Payload.num 7) [7] rfl rfl rfl,
   (result_method_decodes_result ResultMethod.ApplicationCache_GetFramesWithManifests natJson
      (answeringSocket Unit none) () none
      { method := "ApplicationCache.getFramesWithManifests", params := Params.nil } rfl rfl).2
      rfl⟩

/-- C4: every facade method makes exactly one call on the socket. A command
method adds one `SendCommand` to the calls recorded so far and nothing else; an
`On*` method adds one `AddEventHandler` and nothing else. -/
theorem facade_method_makes_one_socket_call {σ H υ R E : Type} :
    (∀ (m : ErrorMethod) (socket : Socketer σ H) (w : σ) (calls : List (SocketCall H))
        (params : Option Payload),
      ∃ sent returned, (m.run socket.traced (w, calls) params).1.2 =
        calls ++ [SocketCall.SendCommand sent returned]) ∧
    (∀ (m : HeadlessErrorMethod) (protocol : HeadlessExperimentalProtocol σ υ) (w : σ)
        (calls : List (SocketCall (EventHandler υ))),
      ∃ sent returned, (m.run protocol.traced (w, calls)).1.2 =
        calls ++ [SocketCall.SendCommand sent returned]) ∧
    (∀ (m : ResultMethod) (json : Json R) (socket : Socketer σ H) (w : σ)
        (calls : List (SocketCall H)) (params : Option Payload),
      ∃ sent returned, (m.run json socket.traced (w, calls) params).1.2 =
        calls ++ [SocketCall.SendCommand sent returned]) ∧
    (∀ (zero : R) (Result : Command → Bytes)
        (Unmarshal : Bytes → Option R → Option R × Option GoError)
        (protocol : HeadlessExperimentalProtocol σ υ) (w : σ)
        (calls : List (SocketCall (EventHandler υ))) (params : Option Payload),
      ∃ sent returned,
        (HeadlessExperimentalProtocol.BeginFrame zero Result Unmarshal protocol.traced
          (w, calls) params).1.2 = calls ++ [SocketCall.SendCommand sent returned]) ∧
    (∀ (m : OnMethod) (json : Json E) (socket : Socketer σ (EventHandler υ)) (w : σ)
        (calls : List (SocketCall (EventHandler υ))) (callback : E → υ → υ),
      ∃ handler, (m.run json socket.traced (w, calls) callback).2 =
        calls ++ [SocketCall.AddEventHandler handler]) ∧
    (∀ (m : HeadlessOnMethod) (json : Json E) (protocol : HeadlessExperimentalProtocol σ υ)
        (w : σ) (calls : List (SocketCall (EventHandler υ))) (callback : E → υ → υ),
      ∃ handler, (m.run json protocol.traced (w, calls) callback).2 =
        calls ++ [SocketCall.AddEventHandler handler]) ∧
    (∀ (m : ChromeOnMethod) (json : Json E) (socket : Socketer σ (protocol.EventHandler υ))
        (w : σ) (calls : List (SocketCall (protocol.EventHandler υ))) (callback : E → υ → υ),
      ∃ handler, (m.run json socket.traced (w, calls) callback).2 =
        calls ++ [SocketCall.AddEventHandler handler]) := by
  refine ⟨?_, ?_, ?_, ?_, ?_, ?_, ?_⟩
  · intro m socket w calls params
    cases m <;> exact ⟨_, _, rfl⟩
  · intro m protocol w calls
    cases m <;> exact ⟨_, _, rfl⟩
  · intro m json socket w calls params
    obtain ⟨sent, -, -, h⟩ := ResultMethod.run_eq m params
    exact ⟨sent, _, (h json socket w calls).1⟩
  · intro zero Result Unmarshal protocol w calls params
    apply Exists.intro
    apply Exists.intro
    simp only [HeadlessExperimentalProtocol.BeginFrame, HeadlessExperimentalProtocol.traced,
      Socketer.traced]
    split <;> rfl
  · intro m json socket w calls callback
    cases m <;> exact ⟨_, rfl⟩
  · intro m json protocol w calls callback
    cases m <;> exact ⟨_, rfl⟩
  · intro m json socket w calls callback
    cases m <;> exact ⟨_, rfl⟩

/-- C5: the command handed to `SendCommand` carries the method's `params`
argument itself as its parameter payload, and the untyped nil when the method
has no such argument. -/
theorem command_carries_params {σ H υ R : Type} :
    (∀ (m : ErrorMethod) (socket : Socketer σ H) (w : σ) (params : Option Payload),
      (sentCommands (m.run socket.traced (w, []) params).1.2).map Command.params =
        [if m.takesParams then Params.ptr params else Params.nil]) ∧
    (∀ (m : HeadlessErrorMethod) (protocol : HeadlessExperimentalProtocol σ υ) (w : σ),
      (sentCommands (m.run protocol.traced (w, [])).1.2).map Command.params = [Params.nil]) ∧
    (∀ (m : ResultMethod) (json : Json R) (socket : Socketer σ H) (w : σ)
        (params : Option Payload),
      (sentCommands (m.run json socket.traced (w, []) params).1.2).map Command.params =
        [if m.takesParams then Params.ptr params else Params.nil]) ∧
    (∀ (zero : R) (Result : Command → Bytes)
        (Unmarshal : Bytes → Option R → Option R × Option GoError)
        (protocol : HeadlessExperimentalProtocol σ υ) (w : σ) (params : Option Payload),
      (sentCommands (HeadlessExperimentalProtocol.BeginFrame zero Result Unmarshal
          protocol.traced (w, []) params).1.2).map Command.params = [Params.ptr params]) := by
  refine ⟨?_, ?_, ?_, ?_⟩
  · intro m socket w params
    cases m <;> rfl
  · intro m protocol w
    cases m <;> rfl
  · intro m json socket w params
    obtain ⟨sent, hp, -, h⟩ := ResultMethod.run_eq m params
    rw [(h json socket w []).1, ← hp]
    rfl
  · intro zero Result Unmarshal protocol w params
    simp only [HeadlessExperimentalProtocol.BeginFrame, HeadlessExperimentalProtocol.traced,
      Socketer.traced]
    split <;> rfl

/-- C6: in the Debugger, ApplicationCache and HeadlessExperimental facades, the
name a command method gives its command is the domain, a dot, and the fragment
after `#method-` in the protocol URL of the method's doc comment; the name an
`On*` method gives its handler is the same with the fragment after `#event-`. -/
theorem wire_name_matches_doc_url {σ H υ R E : Type} :
    (∀ (m : ErrorMethod), m.domain = "Debugger" ∨ m.domain = "ApplicationCache" →
      ∃ url, m.docURL = some url ∧
        ∀ (socket : Socketer σ H) (w : σ) (params : Option Payload),
          ∃ sent, sentCommands (m.run socket.traced (w, []) params).1.2 = [sent] ∧
            wireName m.domain "#method-" url = some sent.method) ∧
    (∀ (m : HeadlessErrorMethod),
      ∃ url, m.docURL = some url ∧
        ∀ (protocol : HeadlessExperimentalProtocol σ υ) (w : σ),
          ∃ sent, sentCommands (m.run protocol.traced (w, [])).1.2 = [sent] ∧
            wireName m.domain "#method-" url = some sent.method) ∧
    (∀ (m : ResultMethod),
      ∃ url, m.docURL = some url ∧
        ∀ (json : Json R) (socket : Socketer σ H) (w : σ) (params : Option Payload),
          ∃ sent, sentCommands (m.run json socket.traced (w, []) params).1.2 = [sent] ∧
            wireName m.domain "#method-" url = some sent.method) ∧
    (∀ (zero : R) (Result : Command → Bytes)
        (Unmarshal : Bytes → Option R → Option R × Option GoError)
        (protocol : HeadlessExperimentalProtocol σ υ) (w : σ) (params : Option Payload),
      ∃ sent, sentCommands (HeadlessExperimentalProtocol.BeginFrame zero Result Unmarshal
          protocol.traced (w, []) params).1.2 = [sent] ∧
        wireName "HeadlessExperimental" "#method-"
          HeadlessExperimentalProtocol.BeginFrame.docURL = some sent.method) ∧
    (∀ (m : OnMethod),
      ∃ url, m.docURL = some url ∧
        ∀ (json : Json E) (socket : Socketer σ (EventHandler υ)) (w : σ)
          (callback : E → υ → υ),
          ∃ handler, addedHandlers (m.run json socket.traced (w, []) callback).2 = [handler] ∧
            wireName m.domain "#event-" url = some handler.Name) ∧
    (∀ (m : HeadlessOnMethod),
      ∃ url, m.docURL = some url ∧
        ∀ (json : Json E) (protocol : HeadlessExperimentalProtocol σ υ) (w : σ)
          (callback : E → υ → υ),
          ∃ handler, addedHandlers (m.run json protocol.traced (w, []) callback).2 = [handler] ∧
            wireName m.domain "#event-" url = some handler.Name) := by
  refine ⟨?_, ?_, ?_, ?_, ?_, ?_⟩
  · intro m hd
    cases m <;>
      first
      | exact ⟨_, rfl, fun _ _ _ => ⟨_, rfl, rfl⟩⟩
      | exact absurd hd (by decide)
  · intro m
    cases m <;> exact ⟨_, rfl, fun _ _ => ⟨_, rfl, rfl⟩⟩
  · intro m
    have hurl : ∃ url, m.docURL = some url := by cases m <;> exact ⟨_, rfl⟩
    obtain ⟨url, hurl⟩ := hurl
    refine ⟨url, hurl, ?_⟩
    intro json socket w params
    obtain ⟨sent, -, hn, h⟩ := ResultMethod.run_eq m params
    refine ⟨sent, ?_, hn url hurl⟩
    rw [(h json socket w []).1]
    rfl
  · intro zero Result Unmarshal protocol w params
    apply Exists.intro
    constructor
    · simp only [HeadlessExperimentalProtocol.BeginFrame, HeadlessExperimentalProtocol.traced,
        Socketer.traced]
      split <;> rfl
    · rfl
  · intro m
    cases m <;> exact ⟨_, rfl, fun _ _ _ _ => ⟨_, rfl, rfl⟩⟩
  · intro m
    cases m <;> exact ⟨_, rfl, fun _ _ _ _ => ⟨_, rfl, rfl⟩⟩

/-- C6 at `Debugger.ContinueToLocation`, whose doc comment points at
`#method-continueToLocation`, run on a socket that answers with no payload. -/
theorem wire_name_matches_doc_url_witness :
    ∃ url, ErrorMethod.Debugger_ContinueToLocation.docURL = some url ∧
      ∃ sent,
        sentCommands
          (ErrorMethod.Debugger_ContinueToLocation.run (answeringSocket Unit none).traced
            ((), []) none).1.2 = [sent] ∧
        wireName ErrorMethod.Debugger_ContinueToLocation.domain "#method-" url
          = some sent.method :=
  Exists.imp (fun _ h => ⟨h.1, h.2 (answeringSocket Unit none) () none⟩)
    ((wire_name_matches_doc_url (σ := Unit) (H := Unit) (υ := Unit) (R := Unit) (E := Unit)).1
      ErrorMethod.Debugger_ContinueToLocation (Or.inl rfl))


/-! ## Theorems: the socket core -/

/-- The invoked handles of a dispatch loop: those accumulated so far, then the
handles of the registrations under the event name, in registry order. -/
theorem EventRouter.dispatchLoop_invoked {υ : Type} (eventName : String) (payload : Payload)
    (regs : List (Registration υ)) (acc : Dispatched υ) :
    (EventRouter.dispatchLoop eventName payload regs acc).invoked =
      acc.invoked ++ (regs.filter (fun reg => reg.name = eventName)).map Registration.handle := by
  induction regs generalizing acc with
  | nil => simp [EventRouter.dispatchLoop]
  | cons reg rest ih =>
    by_cases h : reg.name = eventName
    · simp [EventRouter.dispatchLoop, h, ih]
    · simp [EventRouter.dispatchLoop, h, ih]

/-- The invoked handles of a dispatch, in registry order. -/
theorem EventRouter.dispatch_invoked {υ : Type} (router : EventRouter υ) (eventName : String)
    (payload : Payload) (user : υ) :
    (router.dispatch eventName payload user).invoked =
      (router.registry.filter (fun reg => reg.name = eventName)).map Registration.handle := by
  simp [EventRouter.dispatch, EventRouter.dispatchLoop_invoked]

/-- In a router built by adding and removing handlers, the handles in the
registry increase strictly and stay below the next handle. -/
theorem EventRouter.run_handles_increasing {υ : Type} (ops : List (RouterOp υ)) :
    (((EventRouter.empty υ).run ops).registry.map Registration.handle).Pairwise (· < ·) ∧
    ∀ reg ∈ ((EventRouter.empty υ).run ops).registry,
      reg.handle < ((EventRouter.empty υ).run ops).nextHandle := by
  suffices h : ∀ (router : EventRouter υ),
      ((router.registry.map Registration.handle).Pairwise (· < ·) ∧
        ∀ reg ∈ router.registry, reg.handle < router.nextHandle) →
      (((router.run ops).registry.map Registration.handle).Pairwise (· < ·) ∧
        ∀ reg ∈ (router.run ops).registry, reg.handle < (router.run ops).nextHandle) by
    apply h
    simp [EventRouter.empty]
  induction ops with
  | nil => intro router h; exact h
  | cons op ops ih =>
    intro router h
    have hstep : ((router.apply op).registry.map Registration.handle).Pairwise (· < ·) ∧
        ∀ reg ∈ (router.apply op).registry, reg.handle < (router.apply op).nextHandle := by
      cases op with
      | add eventName callback =>
        constructor
        · simp only [EventRouter.apply, EventRouter.addHandler, List.map_append, List.map_cons,
            List.map_nil]
          rw [List.pairwise_append]
          refine ⟨h.1, List.pairwise_singleton _ _, ?_⟩
          intro a ha b hb
          simp only [List.mem_singleton] at hb
          obtain ⟨reg, hreg, rfl⟩ := List.mem_map.1 ha
          rw [hb]
          exact h.2 reg hreg
        · intro reg hreg
          simp only [EventRouter.apply, EventRouter.addHandler, List.mem_append,
            List.mem_singleton] at hreg ⊢
          rcases hreg with hreg | hreg
          · exact Nat.lt_succ_of_lt (h.2 reg hreg)
          · rw [hreg]; exact Nat.lt_succ_self _
      | remove handle =>
        constructor
        · simp only [EventRouter.apply, EventRouter.removeHandler]
          exact h.1.sublist (List.Sublist.map _ (List.filter_sublist _))
        · intro reg hreg
          simp only [EventRouter.apply, EventRouter.removeHandler] at hreg ⊢
          exact h.2 reg (List.mem_filter.1 hreg).1
    exact ih (router.apply op) hstep

/-- C9: in a router built by adding and removing handlers, one dispatch invokes
exactly the handlers registered under the event name, each once, in the order
they were registered, and none registered under another name: the handles
invoked are those of the registrations under the name, without repetition and
in increasing order, and the user's state afterwards is what the callbacks of
exactly those registrations make of it, applied one after the other in
registration order. With two more handlers registered under the name, both are
invoked after the others, first registered first; with one of the two removed,
only the other is; and a handler registered under another name is not invoked. -/
theorem dispatch_invokes_registered_handlers_in_order {υ : Type} (ops : List (RouterOp υ))
    (eventName : String) (payload : Payload) (user : υ) :
    (∀ handle, handle ∈ (((EventRouter.empty υ).run ops).dispatch eventName payload user).invoked ↔
      ∃ reg ∈ ((EventRouter.empty υ).run ops).registry,
        reg.handle = handle ∧ reg.name = eventName) ∧
    (((EventRouter.empty υ).run ops).dispatch eventName payload user).invoked.Nodup ∧
    (((EventRouter.empty υ).run ops).dispatch eventName payload user).invoked.Pairwise (· < ·) ∧
    (∀ (first second : Payload → υ → υ × Option GoError) (user' : υ),
      ((((EventRouter.empty υ).run ops).addHandler eventName first).1.addHandler
          eventName second).2 =
        (((EventRouter.empty υ).run ops).addHandler eventName first).2 + 1 ∧
      (((((EventRouter.empty υ).run ops).addHandler eventName first).1.addHandler
          eventName second).1.dispatch eventName payload user').invoked =
        (((EventRouter.empty υ).run ops).dispatch eventName payload user).invoked ++
          [(((EventRouter.empty υ).run ops).addHandler eventName first).2,
           ((((EventRouter.empty υ).run ops).addHandler eventName first).1.addHandler
              eventName second).2] ∧
      ((((((EventRouter.empty υ).run ops).addHandler eventName first).1.addHandler
          eventName second).1.removeHandler
            (((EventRouter.empty υ).run ops).addHandler eventName first).2).dispatch
              eventName payload user').invoked =
        (((EventRouter.empty υ).run ops).dispatch eventName payload user).invoked ++
          [((((EventRouter.empty υ).run ops).addHandler eventName first).1.addHandler
              eventName second).2] ∧
      ((((((EventRouter.empty υ).run ops).addHandler eventName first).1.addHandler
          eventName second).1.removeHandler
            ((((EventRouter.empty υ).run ops).addHandler eventName first).1.addHandler
              eventName second).2).dispatch eventName payload user').invoked =
        (((EventRouter.empty υ).run ops).dispatch eventName payload user).invoked ++
          [(((EventRouter.empty υ).run ops).addHandler eventName first).2]) ∧
    (((EventRouter.empty υ).run ops).dispatch eventName payload user).user =
      ((((EventRouter.empty υ).run ops).registry.filter
        (fun reg => reg.name = eventName)).map Registration.callback).foldl
          (fun u callback => (callback payload u).1) user ∧
    (∀ (first second : Payload → υ → υ × Option GoError),
      (((((EventRouter.empty υ).run ops).addHandler eventName first).1.addHandler
          eventName second).1.dispatch eventName payload user).user =
        (second payload (first payload
          (((EventRouter.empty υ).run ops).dispatch eventName payload user).user).1).1 ∧
      ((((((EventRouter.empty υ).run ops).addHandler eventName first).1.addHandler
          eventName second).1.removeHandler
            (((EventRouter.empty υ).run ops).addHandler eventName first).2).dispatch
              eventName payload user).user =
        (second payload
          (((EventRouter.empty υ).run ops).dispatch eventName payload user).user).1 ∧
      ((((((EventRouter.empty υ).run ops).addHandler eventName first).1.addHandler
          eventName second).1.removeHandler
            ((((EventRouter.empty υ).run ops).addHandler eventName first).1.addHandler
              eventName second).2).dispatch eventName payload user).user =
        (first payload
          (((EventRouter.empty υ).run ops).dispatch eventName payload user).user).1) ∧
    (∀ (other : String) (callback : Payload → υ → υ × Option GoError), other ≠ eventName →
      ((((EventRouter.empty υ).run ops).addHandler other callback).1.dispatch
          eventName payload user).user =
        (((EventRouter.empty υ).run ops).dispatch eventName payload user).user ∧
      ((((EventRouter.empty υ).run ops).addHandler other callback).1.dispatch
          eventName payload user).invoked =
        (((EventRouter.empty υ).run ops).dispatch eventName payload user).invoked) := by
  obtain ⟨hpair, hlt⟩ := EventRouter.run_handles_increasing ops
  generalize (EventRouter.empty υ).run ops = router at hpair hlt ⊢
  have hloop : ∀ (regs : List (Registration υ)) (acc : Dispatched υ),
      (EventRouter.dispatchLoop eventName payload regs acc).user =
        (regs.filter (fun reg => reg.name = eventName)).foldl
          (fun u reg => (reg.callback payload u).1) acc.user := by
    intro regs
    induction regs with
    | nil => intro acc; simp [EventRouter.dispatchLoop]
    | cons reg rest ih =>
      intro acc
      by_cases h : reg.name = eventName
      · simp [EventRouter.dispatchLoop, h, ih]
      · simp [EventRouter.dispatchLoop, h, ih]
  have huser : ∀ (r : EventRouter υ) (u : υ),
      (r.dispatch eventName payload u).user =
        (r.registry.filter (fun reg => reg.name = eventName)).foldl
          (fun u reg => (reg.callback payload u).1) u := by
    intro r u
    simp [EventRouter.dispatch, hloop]
  have hsub : (((router.registry.filter (fun reg => reg.name = eventName)).map
      Registration.handle).Pairwise (· < ·)) :=
    hpair.sublist (List.Sublist.map _ (List.filter_sublist _))
  have hkeep : ∀ (n : Nat), router.nextHandle ≤ n →
      router.registry.filter (fun reg => reg.handle != n) = router.registry := by
    intro n hn
    apply List.filter_eq_self.2
    intro reg hreg
    have := hlt reg hreg
    simp only [bne_iff_ne, ne_eq]
    omega
  refine ⟨?_, ?_, ?_, ?_, ?_, ?_, ?_⟩
  · intro handle
    rw [EventRouter.dispatch_invoked]
    simp only [List.mem_map, List.mem_filter, decide_eq_true_eq]
    constructor
    · rintro ⟨reg, ⟨hreg, hname⟩, hh⟩
      exact ⟨reg, hreg, hh, hname⟩
    · rintro ⟨reg, hreg, hh, hname⟩
      exact ⟨reg, ⟨hreg, hname⟩, hh⟩
  · rw [EventRouter.dispatch_invoked]
    exact hsub.imp (fun h => Nat.ne_of_lt h)
  · rw [EventRouter.dispatch_invoked]
    exact hsub
  · intro first second user'
    refine ⟨rfl, ?_, ?_, ?_⟩
    · simp [EventRouter.dispatch_invoked, EventRouter.addHandler]
    · simp [EventRouter.dispatch_invoked, EventRouter.addHandler, EventRouter.removeHandler,
        List.filter_append, hkeep router.nextHandle (Nat.le_refl _), List.filter_cons]
    · simp [EventRouter.dispatch_invoked, EventRouter.addHandler, EventRouter.removeHandler,
        List.filter_append, hkeep (router.nextHandle + 1) (Nat.le_succ _), List.filter_cons]
  · rw [huser, List.foldl_map]
  · intro first second
    refine ⟨?_, ?_, ?_⟩
    · simp [huser, EventRouter.addHandler, List.filter_append,
        List.filter_cons]
    · simp [huser, EventRouter.addHandler, EventRouter.removeHandler,
        List.filter_append, hkeep router.nextHandle (Nat.le_refl _), List.filter_cons]
    · simp [huser, EventRouter.addHandler, EventRouter.removeHandler,
        List.filter_append, hkeep (router.nextHandle + 1) (Nat.le_succ _), List.filter_cons]
  · intro other callback hother
    constructor
    · simp [huser, EventRouter.addHandler, List.filter_append,
        List.filter_cons, hother]
    · simp [EventRouter.dispatch_invoked, EventRouter.addHandler, List.filter_append,
        List.filter_cons, hother]

/-- C9 on a router with a handler that records 1 under `Foo.changed`, one that
records 9 under `Bar.changed` and one that records 2 under `Foo.changed`: an
event `Foo.changed` leaves the record `[1, 2]`; with the first handler removed
before the dispatch it leaves `[2]`; and one more handler under `Bar.changed`
changes nothing. -/
theorem dispatch_invokes_registered_handlers_in_order_witness :
    (((EventRouter.empty (List Nat)).run
        [RouterOp.add "Foo.changed" (fun _ record => (record ++ [1], none)),
         RouterOp.add "Bar.changed" (fun _ record => (record ++ [9], none)),
         RouterOp.add "Foo.changed" (fun _ record => (record ++ [2], none))]).dispatch
      "Foo.changed" Payload.null []).user = [1, 2] ∧
    (((EventRouter.empty (List Nat)).run
        [RouterOp.add "Foo.changed" (fun _ record => (record ++ [1], none)),
         RouterOp.add "Bar.changed" (fun _ record => (record ++ [9], none)),
         RouterOp.add "Foo.changed" (fun _ record => (record ++ [2], none)),
         RouterOp.remove 0]).dispatch
      "Foo.changed" Payload.null []).user = [2] ∧
    "Bar.changed" ≠ "Foo.changed" ∧
    ((((EventRouter.empty (List Nat)).run
        [RouterOp.add "Foo.changed" (fun _ record => (record ++ [1], none)),
         RouterOp.add "Bar.changed" (fun _ record => (record ++ [9], none)),
         RouterOp.add "Foo.changed" (fun _ record => (record ++ [2], none))]).addHandler
      "Bar.changed" (fun _ record => (record ++ [8], none))).1.dispatch
      "Foo.changed" Payload.null []).user = [1, 2] :=
  ⟨(dispatch_invokes_registered_handlers_in_order
      [RouterOp.add "Foo.changed" (fun _ record => (record ++ [1], none)),
       RouterOp.add "Bar.changed" (fun _ record => (record ++ [9], none)),
       RouterOp.add "Foo.changed" (fun _ record => (record ++ [2], none))]
      "Foo.changed" Payload.null []).2.2.2.2.1.trans (by decide),
   (dispatch_invokes_registered_handlers_in_order
      [RouterOp.add "Foo.changed" (fun _ record => (record ++ [1], none)),
       RouterOp.add "Bar.changed" (fun _ record => (record ++ [9], none)),
       RouterOp.add "Foo.changed" (fun _ record => (record ++ [2], none)),
       RouterOp.remove 0]
      "Foo.changed" Payload.null []).2.2.2.2.1.trans (by decide),
   by decide,
   ((dispatch_invokes_registered_handlers_in_order
      [RouterOp.add "Foo.changed" (fun _ record => (record ++ [1], none)),
       RouterOp.add "Bar.changed" (fun _ record => (record ++ [9], none)),
       RouterOp.add "Foo.changed" (fun _ record => (record ++ [2], none))]
      "Foo.changed" Payload.null []).2.2.2.2.2.2 "Bar.changed"
        (fun _ record => (record ++ [8], none)) (by decide)).1.trans
    ((dispatch_invokes_registered_handlers_in_order
      [RouterOp.add "Foo.changed" (fun _ record => (record ++ [1], none)),
       RouterOp.add "Bar.changed" (fun _ record => (record ++ [9], none)),
       RouterOp.add "Foo.changed" (fun _ record => (record ++ [2], none))]
      "Foo.changed" Payload.null []).2.2.2.2.1.trans (by decide))⟩

/-- One drain step on a table whose first entry sits under the ID. -/
theorem PendingTable.drainStep_head (e : GoError) (id : Nat) (command : Command)
    (rest : PendingTable) (acc : List Command) :
    PendingTable.drainStep e ((id, command) :: rest, acc) id =
      (rest, acc ++ [command.resolveWith (Outcome.error e)]) := by
  simp [PendingTable.drainStep, PendingTable.fail, PendingTable.settle]

/-- A drain pass empties the table and delivers every entry's command, failed
with the error, in table order. -/
theorem PendingTable.drainAll_eq (table : PendingTable) (e : GoError) :
    table.drainAll e = ([], table.map (fun entry => entry.2.resolveWith (Outcome.error e))) := by
  suffices h : ∀ (acc : List Command),
      (table.map Prod.fst).foldl (PendingTable.drainStep e) (table, acc) =
        ([], acc ++ table.map (fun entry => entry.2.resolveWith (Outcome.error e))) by
    simpa [PendingTable.drainAll] using h []
  induction table with
  | nil => intro acc; simp
  | cons entry rest ih =>
    intro acc
    obtain ⟨id, command⟩ := entry
    simp only [List.map_cons, List.foldl_cons, PendingTable.drainStep_head]
    rw [ih]
    simp

/-- C10: one `drainAll(error)` pass over a pending-request table holding K
commands leaves the table empty and delivers K commands: each pending command,
carrying the error. On the socket, a transport failure or a close drains with
the connection-closed error, so no command remains pending. -/
theorem drainAll_resolves_every_pending {υ : Type} (table : PendingTable) (e : GoError)
    (s : Socket υ) :
    (table.drainAll e).1 = [] ∧
    (table.drainAll e).2.length = table.length ∧
    (table.drainAll e).2 = table.map (fun entry => { entry.2 with Err := some e }) ∧
    (∀ id, (table.drainAll e).1.lookup id = none) ∧
    s.close.pending = [] ∧
    s.close.delivered = s.delivered ++
      s.pending.map (fun entry => { entry.2 with Err := some GoError.connectionClosed }) ∧
    (s.state = ConnState.Open → s.transportFailure.pending = [] ∧
      s.transportFailure.delivered = s.delivered ++
        s.pending.map (fun entry => { entry.2 with Err := some GoError.connectionClosed })) := by
  refine ⟨?_, ?_, ?_, ?_, ?_, ?_, ?_⟩
  · rw [PendingTable.drainAll_eq]
  · rw [PendingTable.drainAll_eq]; simp
  · rw [PendingTable.drainAll_eq]; rfl
  · intro id; rw [PendingTable.drainAll_eq]; rfl
  · simp [Socket.close, Socket.shutdown, PendingTable.drainAll_eq]
  · simp [Socket.close, Socket.shutdown, PendingTable.drainAll_eq, Command.resolveWith]
  · intro hopen
    simp [Socket.transportFailure, hopen, Socket.shutdown, PendingTable.drainAll_eq,
      Command.resolveWith]


/-- An ID with no entry is not among the keys, and conversely. -/
theorem PendingTable.lookup_eq_none (table : PendingTable) (id : Nat) :
    table.lookup id = none ↔ id ∉ table.map Prod.fst := by
  induction table with
  | nil => simp
  | cons entry rest ih =>
    obtain ⟨k, c⟩ := entry
    by_cases h : id = k
    · subst h; simp
    · have h' : (id == k) = false := by simpa using h
      simp [List.lookup_cons, h', ih, h]

/-- An entry found under an ID is in the table. -/
theorem PendingTable.mem_of_lookup (table : PendingTable) (id : Nat) (command : Command)
    (h : table.lookup id = some command) : (id, command) ∈ table := by
  induction table with
  | nil => simp at h
  | cons entry rest ih =>
    obtain ⟨k, c⟩ := entry
    by_cases hk : id = k
    · subst hk
      simp at h
      simp [h]
    · have h' : (id == k) = false := by simpa using hk
      simp only [List.lookup_cons, h'] at h
      exact List.mem_cons_of_mem _ (ih h)

/-- Removing the entry under one ID leaves the entries under the others. -/
theorem PendingTable.lookup_eraseP_ne (table : PendingTable) (id other : Nat) (h : other ≠ id) :
    (table.eraseP (fun entry => entry.1 == id)).lookup other = table.lookup other := by
  induction table with
  | nil => simp
  | cons entry rest ih =>
    obtain ⟨k, c⟩ := entry
    by_cases hk : k = id
    · subst hk
      have h' : (other == k) = false := by simpa using h
      simp [List.lookup_cons, h']
    · rw [List.eraseP_cons_of_neg (by simpa using hk)]
      simp only [List.lookup_cons, ih]

/-- In a table with distinct keys, the removed ID has no entry left. -/
theorem PendingTable.lookup_eraseP_self (table : PendingTable) (id : Nat)
    (hnodup : (table.map Prod.fst).Nodup) :
    (table.eraseP (fun entry => entry.1 == id)).lookup id = none := by
  induction table with
  | nil => simp
  | cons entry rest ih =>
    obtain ⟨k, c⟩ := entry
    simp only [List.map_cons, List.nodup_cons] at hnodup
    by_cases hk : k = id
    · subst hk
      simp only [beq_self_eq_true, List.eraseP_cons_of_pos]
      exact (PendingTable.lookup_eq_none rest k).2 hnodup.1
    · rw [List.eraseP_cons_of_neg (by simpa using hk)]
      have h' : (id == k) = false := by simpa using (Ne.symm hk)
      simp only [List.lookup_cons, h']
      exact ih hnodup.2

/-- Removing an entry gives no ID an entry it did not have. -/
theorem PendingTable.lookup_eraseP_none (table : PendingTable) (p : Nat × Command → Bool)
    (id : Nat) (h : table.lookup id = none) : (table.eraseP p).lookup id = none := by
  rw [PendingTable.lookup_eq_none] at h ⊢
  intro hmem
  exact h ((List.Sublist.map Prod.fst (List.eraseP_sublist table)).subset hmem)

/-- Marking an unresolved command with an outcome resolves it once and keeps
its ID. -/
theorem Command.resolveWith_spec (command : Command) (outcome : Outcome)
    (h : command.unresolved = true) :
    (command.resolveWith outcome).resolvedOnce = true ∧
    (command.resolveWith outcome).id = command.id := by
  simp only [Command.unresolved, Bool.and_eq_true, Option.isNone_iff_eq_none] at h
  cases outcome <;> simp [Command.resolveWith, Command.resolvedOnce, h.1, h.2]

/-- Marking a command with an outcome keeps its correlation ID. -/
theorem Command.resolveWith_id (command : Command) (outcome : Outcome) :
    (command.resolveWith outcome).id = command.id := by
  cases outcome <;> rfl

/-- A socket that has not connected yet is consistent. -/
theorem Socket.init_wellFormed {υ : Type} (user : υ) : (Socket.init user).WellFormed := by
  simp [Socket.WellFormed, Socket.init]

/-- Consistency is kept when a response is settled against the pending table. -/
theorem Socket.settled_wellFormed {υ : Type} (s : Socket υ) (hwf : s.WellFormed) (id : Nat)
    (outcome : Outcome) : (s.settled (s.pending.settle id outcome)).WellFormed := by
  obtain ⟨h1, h2, h3, h4, h5, h6⟩ := hwf
  cases hl : s.pending.lookup id with
  | none =>
    simp only [Socket.settled, PendingTable.settle, hl]
    exact ⟨h1, h2, h3, h4, h5, h6⟩
  | some c =>
    have hmem := PendingTable.mem_of_lookup s.pending id c hl
    have hc := h1 (id, c) hmem
    simp only at hc
    have hsub : s.pending.eraseP (fun entry => entry.1 == id) ⊆ s.pending :=
      List.eraseP_subset _
    simp only [Socket.settled, PendingTable.settle, hl, Socket.WellFormed]
    refine ⟨?_, ?_, ?_, ?_, ?_, ?_⟩
    · intro entry hentry
      exact h1 entry (hsub hentry)
    · exact h2.sublist (List.Sublist.map _ (List.eraseP_sublist _))
    · intro command hcommand
      rcases List.mem_append.1 hcommand with hold | hnew
      · exact ⟨(h3 command hold).1, (h3 command hold).2.1,
          PendingTable.lookup_eraseP_none _ _ _ (h3 command hold).2.2⟩
      · rw [List.mem_singleton] at hnew
        subst hnew
        have hspec := Command.resolveWith_spec c outcome hc.2.2
        rw [hspec.2, hc.2.1]
        exact ⟨hc.1, hspec.1, PendingTable.lookup_eraseP_self _ _ h2⟩
    · rw [List.map_append, List.nodup_append]
      refine ⟨h4, by simp, ?_⟩
      intro a ha hb
      simp only [List.map_cons, List.map_nil, List.mem_singleton] at hb
      rw [Command.resolveWith_id, hc.2.1] at hb
      subst hb
      obtain ⟨d, hd, hdid⟩ := List.mem_map.1 ha
      have := (h3 d hd).2.2
      rw [hdid, hl] at this
      exact Option.noConfusion this
    · intro j hj
      rcases h5 j hj with hp | hd
      · by_cases hji : j = id
        · right
          subst hji
          simp [Command.resolveWith_id, hc.2.1]
        · left
          rw [PendingTable.lookup_eraseP_ne _ _ _ hji]
          exact hp
      · right
        rw [List.map_append]
        exact List.mem_append_left _ hd
    · intro hstate
      rw [h6 hstate]
      rfl

/-- Consistency is kept by the read loop. -/
theorem Socket.handleFrame_wellFormed {υ : Type} (s : Socket υ) (hwf : s.WellFormed)
    (frame : Frame) : (s.handleFrame frame).WellFormed := by
  unfold Socket.handleFrame
  split
  · cases frame with
    | response id outcome =>
      cases outcome with
      | result r => exact Socket.settled_wellFormed s hwf id (Outcome.result r)
      | error e => exact Socket.settled_wellFormed s hwf id (Outcome.error e)
    | event name payload => exact hwf
  · exact hwf

/-- What a submission does on an open socket whose pending IDs lie below the
next ID: the command is
registered under the next ID and written out. -/
theorem Socket.submit_open {υ : Type} (s : Socket υ)
    (hkeys : ∀ entry ∈ s.pending, entry.1 < s.nextID)
    (hopen : s.state = ConnState.Open) (command : Command) :
    s.submit command =
      { s with nextID := s.nextID + 1,
               pending := s.pending ++ [(s.nextID, { command with id := s.nextID })],
               written := s.written ++ [{ command with id := s.nextID }] } := by
  have hnone : s.pending.lookup s.nextID = none := by
    rw [PendingTable.lookup_eq_none]
    intro hmem
    obtain ⟨entry, hentry, hk⟩ := List.mem_map.1 hmem
    have := hkeys entry hentry
    omega
  simp [Socket.submit, hopen, PendingTable.register, hnone]

/-- Consistency is kept by a submission of an unresolved command. -/
theorem Socket.submit_wellFormed {υ : Type} (s : Socket υ) (hwf : s.WellFormed)
    (command : Command) (hfresh : command.unresolved = true) :
    (s.submit command).WellFormed := by
  by_cases hopen : s.state = ConnState.Open
  · rw [Socket.submit_open s (fun entry hentry => (hwf.1 entry hentry).1) hopen command]
    obtain ⟨h1, h2, h3, h4, h5, h6⟩ := hwf
    have hnotmem : s.nextID ∉ s.pending.map Prod.fst := by
      intro hmem
      obtain ⟨entry, hentry, hk⟩ := List.mem_map.1 hmem
      have := (h1 entry hentry).1
      omega
    simp only [Socket.WellFormed]
    refine ⟨?_, ?_, ?_, ?_, ?_, ?_⟩
    · intro entry hentry
      rcases List.mem_append.1 hentry with hold | hnew
      · exact ⟨Nat.lt_succ_of_lt (h1 entry hold).1, (h1 entry hold).2⟩
      · rw [List.mem_singleton] at hnew
        subst hnew
        exact ⟨Nat.lt_succ_self _, rfl, hfresh⟩
    · rw [List.map_append, List.nodup_append]
      refine ⟨h2, by simp, ?_⟩
      intro a ha hb
      simp only [List.map_cons, List.map_nil, List.mem_singleton] at hb
      subst hb
      exact hnotmem ha
    · intro d hd
      refine ⟨Nat.lt_succ_of_lt (h3 d hd).1, (h3 d hd).2.1, ?_⟩
      rw [PendingTable.lookup_eq_none, List.map_append]
      intro hmem
      rcases List.mem_append.1 hmem with hold | hnew
      · exact (PendingTable.lookup_eq_none _ _).1 (h3 d hd).2.2 hold
      · simp only [List.map_cons, List.map_nil, List.mem_singleton] at hnew
        have := (h3 d hd).1
        omega
    · exact h4
    · intro j hj
      by_cases hjn : j = s.nextID
      · left
        subst hjn
        have hnone := (PendingTable.lookup_eq_none s.pending s.nextID).2 hnotmem
        simp [List.lookup_append, hnone]
      · rcases h5 j (by omega) with hp | hd
        · left
          rw [List.lookup_append]
          cases hlj : s.pending.lookup j with
          | none => rw [hlj] at hp; exact absurd hp (by simp)
          | some c => simp
        · right; exact hd
    · intro hstate
      exact absurd hopen hstate
  · simp only [Socket.submit, hopen, if_false]
    exact hwf

/-- Consistency is kept by a shutdown, which leaves nothing pending. -/
theorem Socket.shutdown_wellFormed {υ : Type} (s : Socket υ) (hwf : s.WellFormed) :
    s.shutdown.WellFormed := by
  obtain ⟨h1, h2, h3, h4, h5, h6⟩ := hwf
  have hids : (s.pending.map (fun entry =>
      entry.2.resolveWith (Outcome.error GoError.connectionClosed))).map Command.id =
      s.pending.map Prod.fst := by
    rw [List.map_map]
    apply List.map_congr_left
    intro entry hentry
    simp only [Function.comp, Command.resolveWith_id]
    exact (h1 entry hentry).2.1
  simp only [Socket.shutdown, PendingTable.drainAll_eq, Socket.WellFormed]
  refine ⟨?_, ?_, ?_, ?_, ?_, ?_⟩
  · intro entry hentry
    simp at hentry
  · simp
  · intro command hcommand
    rcases List.mem_append.1 hcommand with hold | hnew
    · exact ⟨(h3 command hold).1, (h3 command hold).2.1, rfl⟩
    · obtain ⟨entry, hentry, rfl⟩ := List.mem_map.1 hnew
      have hspec := Command.resolveWith_spec entry.2
        (Outcome.error GoError.connectionClosed) (h1 entry hentry).2.2
      rw [hspec.2, (h1 entry hentry).2.1]
      exact ⟨(h1 entry hentry).1, hspec.1, rfl⟩
  · rw [List.map_append, hids, List.nodup_append]
    refine ⟨h4, h2, ?_⟩
    intro a ha hb
    obtain ⟨d, hd, hdid⟩ := List.mem_map.1 ha
    have hnone := (h3 d hd).2.2
    rw [hdid] at hnone
    exact (PendingTable.lookup_eq_none _ _).1 hnone hb
  · intro j hj
    right
    rw [List.map_append, hids]
    rcases h5 j hj with hp | hd
    · apply List.mem_append_right
      by_contra hnot
      rw [(PendingTable.lookup_eq_none _ _).2 hnot] at hp
      simp at hp
    · exact List.mem_append_left _ hd
  · intro _
    trivial

/-- Consistency is kept by every step that submits only unresolved commands. -/
theorem Socket.step_wellFormed {υ : Type} (s : Socket υ) (hwf : s.WellFormed) (st : Step υ)
    (hst : st.unresolved = true) : (s.step st).WellFormed := by
  cases st with
  | connect =>
    simp only [Socket.step, Socket.connect]
    split
    · next hc =>
      obtain ⟨h1, h2, h3, h4, h5, h6⟩ := hwf
      exact ⟨h1, h2, h3, h4, h5, fun h => absurd rfl h⟩
    · exact hwf
  | submit command => exact Socket.submit_wellFormed s hwf command hst
  | frame frame => exact Socket.handleFrame_wellFormed s hwf frame
  | transportFailure =>
    simp only [Socket.step, Socket.transportFailure]
    split
    · exact Socket.shutdown_wellFormed s hwf
    · exact hwf
  | close => exact Socket.shutdown_wellFormed s hwf
  | addEventHandler eventName callback => exact hwf
  | removeEventHandler handle => exact hwf

/-- Consistency is kept along a run that submits only unresolved commands. -/
theorem Socket.run_wellFormed {υ : Type} (steps : List (Step υ)) (s : Socket υ)
    (hwf : s.WellFormed) (hsteps : ∀ st ∈ steps, st.unresolved = true) :
    (s.run steps).WellFormed := by
  induction steps generalizing s with
  | nil => exact hwf
  | cons st steps ih =>
    exact ih (s.step st)
      (Socket.step_wellFormed s hwf st (hsteps st (List.mem_cons_self _ _)))
      (fun st' hst' => hsteps st' (List.mem_cons_of_mem _ hst'))

/-- The IDs handed out from `n` are `n`, `n + 1`, and so on. -/
theorem assignIDs_keys (n : Nat) (cs : List Command) :
    (assignIDs n cs).map Prod.fst = List.range' n cs.length := by
  induction cs generalizing n with
  | nil => rfl
  | cons c cs ih => simp [assignIDs, ih, List.range']

/-- An entry made at submission sits under its command's ID, not below `n`. -/
theorem mem_assignIDs (n : Nat) (cs : List Command) (entry : Nat × Command)
    (h : entry ∈ assignIDs n cs) : n ≤ entry.1 ∧ entry.2.id = entry.1 := by
  induction cs generalizing n with
  | nil => simp [assignIDs] at h
  | cons c cs ih =>
    simp only [assignIDs, List.mem_cons] at h
    rcases h with h | h
    · subst h; exact ⟨Nat.le_refl _, rfl⟩
    · have := ih (n + 1) h
      exact ⟨by omega, this.2⟩

/-- The `k`-th command submitted is registered under `n + k`. -/
theorem lookup_assignIDs (n k : Nat) (cs : List Command) (c : Command) (h : cs[k]? = some c) :
    (assignIDs n cs).lookup (n + k) = some { c with id := n + k } := by
  induction cs generalizing n k with
  | nil => simp at h
  | cons c' cs ih =>
    cases k with
    | zero =>
      simp only [List.getElem?_cons_zero, Option.some.injEq] at h
      subst h
      simp [assignIDs]
    | succ k =>
      simp only [List.getElem?_cons_succ] at h
      have hne : (n + (k + 1) == n) = false := by simp
      simp only [assignIDs, List.lookup_cons, hne]
      have := ih (n + 1) k h
      rw [show n + 1 + k = n + (k + 1) by omega] at this
      exact this

/-- The `k`-th outcome answers the ID `n + k`. -/
theorem mem_responsesFor (n k : Nat) (outs : List Outcome) (out : Outcome)
    (h : outs[k]? = some out) : (n + k, out) ∈ responsesFor n outs := by
  induction outs generalizing n k with
  | nil => simp at h
  | cons o outs ih =>
    cases k with
    | zero =>
      simp only [List.getElem?_cons_zero, Option.some.injEq] at h
      subst h
      simp [responsesFor]
    | succ k =>
      simp only [List.getElem?_cons_succ] at h
      have := ih (n + 1) k h
      rw [show n + 1 + k = n + (k + 1) by omega] at this
      exact List.mem_cons_of_mem _ this

/-- The IDs answered are `n`, `n + 1`, and so on. -/
theorem responsesFor_keys (n : Nat) (outs : List Outcome) :
    (responsesFor n outs).map Prod.fst = List.range' n outs.length := by
  induction outs generalizing n with
  | nil => rfl
  | cons o outs ih => simp [responsesFor, ih, List.range']

/-- In a list with distinct keys, a selection that keeps only what sits under
one key keeps at most the one element under it. -/
theorem filterMap_unique_key {β γ : Type} (l : List (Nat × β)) (F : Nat × β → Option γ)
    (r : Nat × β) (hr : r ∈ l) (hnodup : (l.map Prod.fst).Nodup)
    (hF : ∀ x ∈ l, x.1 ≠ r.1 → F x = none) : l.filterMap F = (F r).toList := by
  induction l with
  | nil => simp at hr
  | cons x rest ih =>
    simp only [List.map_cons, List.nodup_cons] at hnodup
    rcases List.mem_cons.1 hr with hx | hrest
    · subst hx
      have hnone : rest.filterMap F = [] := by
        rw [List.filterMap_eq_nil_iff]
        intro y hy
        apply hF y (List.mem_cons_of_mem _ hy)
        intro hk
        apply hnodup.1
        rw [← hk]
        exact List.mem_map_of_mem _ hy
      rw [List.filterMap_cons]
      cases hFr : F r with
      | none => simp [hnone]
      | some v => simp [hnone]
    · have hne : x.1 ≠ r.1 := by
        intro hk
        apply hnodup.1
        rw [hk]
        exact List.mem_map_of_mem _ hrest
      rw [List.filterMap_cons, hF x (List.mem_cons_self _ _) hne]
      exact ih hrest hnodup.2 (fun y hy => hF y (List.mem_cons_of_mem _ hy))

/-- On an open socket the read loop settles a response against the pending
table. -/
theorem Socket.handleFrame_response {υ : Type} (s : Socket υ) (hopen : s.state = ConnState.Open)
    (id : Nat) (outcome : Outcome) :
    s.handleFrame (Frame.response id outcome) = s.settled (s.pending.settle id outcome) := by
  cases outcome <;> simp [Socket.handleFrame, hopen, PendingTable.resolve, PendingTable.fail]

/-- Submitting commands one after the other on an open socket registers them
under consecutive IDs. -/
theorem Socket.foldl_submit {υ : Type} (cs : List Command) (s : Socket υ)
    (hopen : s.state = ConnState.Open) (hkeys : ∀ entry ∈ s.pending, entry.1 < s.nextID) :
    (cs.foldl Socket.submit s).state = ConnState.Open ∧
    (cs.foldl Socket.submit s).nextID = s.nextID + cs.length ∧
    (cs.foldl Socket.submit s).pending = s.pending ++ assignIDs s.nextID cs ∧
    (cs.foldl Socket.submit s).delivered = s.delivered := by
  induction cs generalizing s with
  | nil => simp [assignIDs, hopen]
  | cons c cs ih =>
    rw [List.foldl_cons, Socket.submit_open s hkeys hopen c]
    have hkeys' : ∀ entry ∈ s.pending ++ [(s.nextID, { c with id := s.nextID })],
        entry.1 < s.nextID + 1 := by
      intro entry hentry
      rcases List.mem_append.1 hentry with h | h
      · exact Nat.lt_succ_of_lt (hkeys entry h)
      · rw [List.mem_singleton] at h
        subst h
        exact Nat.lt_succ_self _
    obtain ⟨i1, i2, i3, i4⟩ := ih
      { s with nextID := s.nextID + 1,
               pending := s.pending ++ [(s.nextID, { c with id := s.nextID })],
               written := s.written ++ [{ c with id := s.nextID }] } hopen hkeys'
    refine ⟨i1, ?_, ?_, i4⟩
    · rw [i2]; simp only [List.length_cons]; omega
    · rw [i3]; simp [assignIDs]

/-- Handling responses with distinct IDs on an open socket delivers, in arrival
order, each pending command that a response answers, marked with the outcome
the response carries. -/
theorem Socket.foldl_responses {υ : Type} (order : List (Nat × Outcome)) (s : Socket υ)
    (hopen : s.state = ConnState.Open) (hnodup : (order.map Prod.fst).Nodup) :
    ((responseFrames order).foldl Socket.handleFrame s).delivered =
      s.delivered ++ order.filterMap (fun response =>
        (s.pending.lookup response.1).map (fun command => command.resolveWith response.2)) := by
  induction order generalizing s with
  | nil => simp [responseFrames]
  | cons r rest ih =>
    simp only [List.map_cons, List.nodup_cons] at hnodup
    simp only [responseFrames, List.map_cons, List.foldl_cons]
    rw [Socket.handleFrame_response s hopen]
    have hstate : (s.settled (s.pending.settle r.1 r.2)).state = ConnState.Open := by
      simp only [Socket.settled]
      split <;> exact hopen
    have := ih (s.settled (s.pending.settle r.1 r.2)) hstate hnodup.2
    simp only [responseFrames] at this
    rw [this]
    have hlook : ∀ x ∈ rest, (s.settled (s.pending.settle r.1 r.2)).pending.lookup x.1 =
        s.pending.lookup x.1 := by
      intro x hx
      have hne : x.1 ≠ r.1 := by
        intro hk
        apply hnodup.1
        rw [← hk]
        exact List.mem_map_of_mem _ hx
      simp only [Socket.settled, PendingTable.settle]
      cases hl : s.pending.lookup r.1 with
      | none => rfl
      | some c => exact PendingTable.lookup_eraseP_ne _ _ _ hne
    have hcongr : rest.filterMap (fun response =>
        ((s.settled (s.pending.settle r.1 r.2)).pending.lookup response.1).map
          (fun command => command.resolveWith response.2)) =
        rest.filterMap (fun response =>
          (s.pending.lookup response.1).map (fun command => command.resolveWith response.2)) := by
      apply List.filterMap_congr
      intro x hx
      rw [hlook x hx]
    rw [hcongr, List.filterMap_cons]
    simp only [Socket.settled, PendingTable.settle]
    cases hl : s.pending.lookup r.1 with
    | none => simp
    | some c => simp

/-- Counting deliveries under an ID is counting the ID among the delivered IDs. -/
theorem Socket.deliveries_eq {υ : Type} (s : Socket υ) (id : Nat) :
    s.deliveries id = (s.delivered.map Command.id).count id := by
  simp only [Socket.deliveries, List.count, List.countP_map]
  rfl

/-- On a consistent socket, an ID below the next ID is either pending with no
delivery, or no longer pending with exactly one delivery. -/
theorem Socket.WellFormed.pending_or_delivered {υ : Type} (s : Socket υ) (hwf : s.WellFormed)
    (id : Nat) (hid : id < s.nextID) :
    ((s.pending.lookup id).isSome = true ∧ s.deliveries id = 0) ∨
    (s.pending.lookup id = none ∧ s.deliveries id = 1) := by
  obtain ⟨h1, h2, h3, h4, h5, h6⟩ := hwf
  cases hl : s.pending.lookup id with
  | some c =>
    left
    refine ⟨rfl, ?_⟩
    rw [Socket.deliveries_eq]
    apply List.count_eq_zero_of_not_mem
    intro hmem
    obtain ⟨d, hd, hdid⟩ := List.mem_map.1 hmem
    have := (h3 d hd).2.2
    rw [hdid, hl] at this
    exact Option.noConfusion this
  | none =>
    right
    refine ⟨rfl, ?_⟩
    rw [Socket.deliveries_eq]
    rcases h5 id hid with hp | hd
    · rw [hl] at hp
      exact absurd hp (by simp)
    · exact List.count_eq_one_of_mem h4 hd

/-- In a list of commands with pairwise distinct IDs, the commands under the ID
of a member are that member alone. -/
theorem filter_id_of_mem (l : List Command) (hnodup : (l.map Command.id).Nodup)
    (x : Command) (hx : x ∈ l) : l.filter (fun d => d.id == x.id) = [x] := by
  induction l with
  | nil => cases hx
  | cons y ys ih =>
    simp only [List.map_cons, List.nodup_cons] at hnodup
    rcases List.mem_cons.1 hx with h | h
    · subst h
      have hrest : ys.filter (fun d => d.id == x.id) = [] := by
        apply List.filter_eq_nil_iff.2
        intro d hd hid
        simp only [beq_iff_eq] at hid
        exact hnodup.1 (hid ▸ List.mem_map_of_mem Command.id hd)
      simp [List.filter_cons, hrest]
    · have hne : ¬ y.id = x.id := by
        intro hid
        exact hnodup.1 (hid ▸ List.mem_map_of_mem Command.id h)
      simp [List.filter_cons, hne, ih hnodup.2 h]

/-- A socket that has not connected yet has written nothing. -/
theorem Socket.init_accounted {υ : Type} (user : υ) : (Socket.init user).Accounted := by
  simp [Socket.Accounted, Socket.init]

/-- The account is kept when a response is settled against the pending table. -/
theorem Socket.settled_accounted {υ : Type} (s : Socket υ) (hwf : s.WellFormed)
    (hacc : s.Accounted) (id : Nat) (outcome : Outcome) :
    (s.settled (s.pending.settle id outcome)).Accounted := by
  cases hl : s.pending.lookup id with
  | none =>
    simp only [Socket.settled, PendingTable.settle, hl]
    exact hacc
  | some c₀ =>
    simp only [Socket.settled, PendingTable.settle, hl, Socket.Accounted]
    refine ⟨hacc.1, ?_⟩
    intro c hc
    by_cases hid : c.id = id
    · rcases hacc.2 c hc with h | h
      · rw [hid, hl] at h
        cases h
        right
        refine ⟨?_, outcome, List.mem_append_right _ (List.mem_singleton_self _)⟩
        rw [hid]
        exact PendingTable.lookup_eraseP_self s.pending id hwf.2.1
      · rw [hid, hl] at h
        exact absurd h.1 (by simp)
    · rw [PendingTable.lookup_eraseP_ne s.pending id c.id hid]
      rcases hacc.2 c hc with h | ⟨h, o, ho⟩
      · exact Or.inl h
      · exact Or.inr ⟨h, o, List.mem_append_left _ ho⟩

/-- The account is kept by the read loop. -/
theorem Socket.handleFrame_accounted {υ : Type} (s : Socket υ) (hwf : s.WellFormed)
    (hacc : s.Accounted) (frame : Frame) : (s.handleFrame frame).Accounted := by
  unfold Socket.handleFrame
  split
  · cases frame with
    | response id outcome =>
      cases outcome with
      | result r => exact Socket.settled_accounted s hwf hacc id (Outcome.result r)
      | error e => exact Socket.settled_accounted s hwf hacc id (Outcome.error e)
    | event name payload => exact hacc
  · exact hacc

/-- The account is kept by a submission. -/
theorem Socket.submit_accounted {υ : Type} (s : Socket υ) (hwf : s.WellFormed)
    (hacc : s.Accounted) (command : Command) : (s.submit command).Accounted := by
  by_cases hopen : s.state = ConnState.Open
  · have hkeys : ∀ entry ∈ s.pending, entry.1 < s.nextID :=
      fun entry hentry => (hwf.1 entry hentry).1
    have hnone : s.pending.lookup s.nextID = none := by
      rw [PendingTable.lookup_eq_none]
      intro hmem
      obtain ⟨entry, hentry, hk⟩ := List.mem_map.1 hmem
      have := hkeys entry hentry
      omega
    rw [Socket.submit_open s hkeys hopen command]
    simp only [Socket.Accounted]
    constructor
    · rw [List.map_append, hacc.1, List.range_succ]
      rfl
    · intro c hc
      rcases List.mem_append.1 hc with hold | hnew
      · have hlt : c.id < s.nextID := by
          have hmem : c.id ∈ s.written.map Command.id := List.mem_map_of_mem Command.id hold
          rw [hacc.1] at hmem
          exact List.mem_range.1 hmem
        have hne : ¬ c.id = s.nextID := by omega
        rcases hacc.2 c hold with h | ⟨h, o, ho⟩
        · left
          simp [List.lookup_append, h]
        · right
          refine ⟨?_, o, ho⟩
          have hbeq : (c.id == s.nextID) = false := by simp [hne]
          simp [List.lookup_append, h, List.lookup, hbeq]
      · rw [List.mem_singleton] at hnew
        subst hnew
        left
        simp [List.lookup_append, hnone, List.lookup]
  · simp only [Socket.submit, if_neg hopen]
    exact hacc

/-- The account is kept by the shutdown: what was pending is delivered. -/
theorem Socket.shutdown_accounted {υ : Type} (s : Socket υ) (hacc : s.Accounted) :
    s.shutdown.Accounted := by
  simp only [Socket.shutdown, PendingTable.drainAll_eq, Socket.Accounted]
  refine ⟨hacc.1, ?_⟩
  intro c hc
  right
  refine ⟨rfl, ?_⟩
  rcases hacc.2 c hc with h | ⟨_, o, ho⟩
  · refine ⟨Outcome.error GoError.connectionClosed, List.mem_append_right _ ?_⟩
    exact List.mem_map.2 ⟨(c.id, c), PendingTable.mem_of_lookup s.pending c.id c h, rfl⟩
  · exact ⟨o, List.mem_append_left _ ho⟩

/-- The account is kept by every step. -/
theorem Socket.step_accounted {υ : Type} (s : Socket υ) (hwf : s.WellFormed)
    (hacc : s.Accounted) (st : Step υ) : (s.step st).Accounted := by
  cases st with
  | connect =>
    simp only [Socket.step, Socket.connect]
    split
    · exact hacc
    · exact hacc
  | submit command => exact Socket.submit_accounted s hwf hacc command
  | frame frame => exact Socket.handleFrame_accounted s hwf hacc frame
  | transportFailure =>
    simp only [Socket.step, Socket.transportFailure]
    split
    · exact Socket.shutdown_accounted s hacc
    · exact hacc
  | close => exact Socket.shutdown_accounted s hacc
  | addEventHandler eventName callback => exact hacc
  | removeEventHandler handle => exact hacc

/-- The account is kept along a run that submits only unresolved commands. -/
theorem Socket.run_accounted {υ : Type} (steps : List (Step υ)) (s : Socket υ)
    (hwf : s.WellFormed) (hacc : s.Accounted)
    (hsteps : ∀ st ∈ steps, st.unresolved = true) : (s.run steps).Accounted := by
  induction steps generalizing s with
  | nil => exact hacc
  | cons st steps ih =>
    exact ih (s.step st)
      (Socket.step_wellFormed s hwf st (hsteps st (List.mem_cons_self _ _)))
      (Socket.step_accounted s hwf hacc st)
      (fun st' hst' => hsteps st' (List.mem_cons_of_mem _ hst'))

/-- C7: along any run of the socket from its initial state in which the
commands submitted are unresolved, every command submitted while Open gets
exactly one terminal resolution. A submission while Open registers the command
under the next ID, writes it out, and has no delivery yet. Every correlation ID
given out is either still pending with no resolution delivered, or no longer
pending with exactly one resolution delivered; and every command written is
either still pending as it was written, or has one delivery under its ID, which
is this very command resolved with one outcome, carrying a result or an error
and not both. A response under a pending ID delivers the command pending under
it, resolved with the response's outcome, and takes it from the table; a second
response under the same ID delivers nothing. A shutdown delivers every pending
command with the connection-closed error; once the connection is not Open,
every command has exactly one resolution. -/
theorem every_open_submission_resolved_once {υ : Type} (user : υ) (steps : List (Step υ))
    (hsteps : ∀ st ∈ steps, st.unresolved = true) :
    (∀ id, id < ((Socket.init user).run steps).nextID →
      ((((Socket.init user).run steps).pending.lookup id).isSome = true ∧
        ((Socket.init user).run steps).deliveries id = 0) ∨
      (((Socket.init user).run steps).pending.lookup id = none ∧
        ((Socket.init user).run steps).deliveries id = 1)) ∧
    (∀ command ∈ ((Socket.init user).run steps).delivered, command.resolvedOnce = true) ∧
    (((Socket.init user).run steps).state ≠ ConnState.Open →
      ∀ id, id < ((Socket.init user).run steps).nextID →
        ((Socket.init user).run steps).deliveries id = 1) ∧
    (((Socket.init user).run steps).state = ConnState.Open →
      ∀ command : Command,
        ((((Socket.init user).run steps).submit command).pending.lookup
            ((Socket.init user).run steps).nextID =
          some { command with id := ((Socket.init user).run steps).nextID }) ∧
        (((Socket.init user).run steps).submit command).nextID =
          ((Socket.init user).run steps).nextID + 1 ∧
        (((Socket.init user).run steps).submit command).deliveries
          ((Socket.init user).run steps).nextID = 0) ∧
    (((Socket.init user).run steps).state = ConnState.Open →
      ∀ command : Command,
        (((Socket.init user).run steps).submit command).written =
          ((Socket.init user).run steps).written ++
            [{ command with id := ((Socket.init user).run steps).nextID }]) ∧
    ((Socket.init user).run steps).written.map Command.id =
      List.range ((Socket.init user).run steps).nextID ∧
    (∀ command ∈ ((Socket.init user).run steps).written,
      (((Socket.init user).run steps).pending.lookup command.id = some command ∧
        ((Socket.init user).run steps).deliveries command.id = 0) ∨
      (((Socket.init user).run steps).pending.lookup command.id = none ∧
        ∃ outcome,
          ((Socket.init user).run steps).delivered.filter
              (fun d => d.id == command.id) = [command.resolveWith outcome] ∧
            (command.resolveWith outcome).resolvedOnce = true)) ∧
    (((Socket.init user).run steps).state = ConnState.Open →
      ∀ (id : Nat) (command : Command) (outcome : Outcome),
        ((Socket.init user).run steps).pending.lookup id = some command →
        (((Socket.init user).run steps).handleFrame (Frame.response id outcome)).delivered =
          ((Socket.init user).run steps).delivered ++ [command.resolveWith outcome] ∧
        (((Socket.init user).run steps).handleFrame
          (Frame.response id outcome)).pending.lookup id = none ∧
        (((Socket.init user).run steps).handleFrame
          (Frame.response id outcome)).deliveries id = 1 ∧
        ∀ second : Outcome,
          ((((Socket.init user).run steps).handleFrame
            (Frame.response id outcome)).handleFrame (Frame.response id second)).delivered =
          (((Socket.init user).run steps).handleFrame
            (Frame.response id outcome)).delivered) ∧
    (∀ (id : Nat) (command : Command),
      ((Socket.init user).run steps).pending.lookup id = some command →
      command.resolveWith (Outcome.error GoError.connectionClosed) ∈
        ((Socket.init user).run steps).close.delivered ∧
      ((Socket.init user).run steps).close.deliveries id = 1) := by
  have hwf := Socket.run_wellFormed steps (Socket.init user) (Socket.init_wellFormed user) hsteps
  have hacc := Socket.run_accounted steps (Socket.init user) (Socket.init_wellFormed user)
    (Socket.init_accounted user) hsteps
  generalize (Socket.init user).run steps = s at hwf hacc ⊢
  have hkeys : ∀ entry ∈ s.pending, entry.1 < s.nextID :=
    fun entry hentry => (hwf.1 entry hentry).1
  have hclosed : ∀ (t : Socket υ), t.WellFormed → t.state ≠ ConnState.Open →
      ∀ id, id < t.nextID → t.deliveries id = 1 := by
    intro t ht hstate id hid
    rcases Socket.WellFormed.pending_or_delivered t ht id hid with h | h
    · rw [ht.2.2.2.2.2 hstate] at h
      exact absurd h.1 (by simp)
    · exact h.2
  refine ⟨?_, ?_, ?_, ?_, ?_, ?_, ?_, ?_, ?_⟩
  · intro id hid
    exact Socket.WellFormed.pending_or_delivered s hwf id hid
  · intro command hcommand
    exact (hwf.2.2.1 command hcommand).2.1
  · intro hstate id hid
    exact hclosed s hwf hstate id hid
  · intro hopen command
    have hnone : s.pending.lookup s.nextID = none := by
      rw [PendingTable.lookup_eq_none]
      intro hmem
      obtain ⟨entry, hentry, hk⟩ := List.mem_map.1 hmem
      have := hkeys entry hentry
      omega
    rw [Socket.submit_open s hkeys hopen command]
    refine ⟨by simp [List.lookup_append, hnone], rfl, ?_⟩
    rw [Socket.deliveries_eq]
    apply List.count_eq_zero_of_not_mem
    intro hmem
    obtain ⟨d, hd, hdid⟩ := List.mem_map.1 hmem
    have := (hwf.2.2.1 d hd).1
    omega
  · intro hopen command
    rw [Socket.submit_open s hkeys hopen command]
  · exact hacc.1
  · intro command hcommand
    have hlt : command.id < s.nextID := by
      have hmem : command.id ∈ s.written.map Command.id :=
        List.mem_map_of_mem Command.id hcommand
      rw [hacc.1] at hmem
      exact List.mem_range.1 hmem
    rcases hacc.2 command hcommand with h | ⟨h, outcome, hout⟩
    · left
      refine ⟨h, ?_⟩
      rcases Socket.WellFormed.pending_or_delivered s hwf command.id hlt with h' | h'
      · exact h'.2
      · rw [h] at h'
        exact absurd h'.1 (by simp)
    · right
      refine ⟨h, outcome, ?_, (hwf.2.2.1 _ hout).2.1⟩
      have hfilter := filter_id_of_mem s.delivered hwf.2.2.2.1 _ hout
      rw [Command.resolveWith_id] at hfilter
      exact hfilter
  · intro hopen id command outcome hpending
    have hid : id < s.nextID :=
      hkeys (id, command) (PendingTable.mem_of_lookup s.pending id command hpending)
    have hstep : s.handleFrame (Frame.response id outcome) =
        { s with pending := s.pending.eraseP (fun entry => entry.1 == id),
                 delivered := s.delivered ++ [command.resolveWith outcome] } := by
      cases outcome <;>
        simp only [Socket.handleFrame, if_pos hopen, PendingTable.resolve, PendingTable.fail,
          PendingTable.settle, hpending, Socket.settled, Command.resolveWith]
    have hwf' := Socket.handleFrame_wellFormed s hwf (Frame.response id outcome)
    have hgone : (s.handleFrame (Frame.response id outcome)).pending.lookup id = none := by
      rw [hstep]
      exact PendingTable.lookup_eraseP_self s.pending id hwf.2.1
    refine ⟨by rw [hstep], hgone, ?_, ?_⟩
    · have hid' : id < (s.handleFrame (Frame.response id outcome)).nextID := by
        rw [hstep]
        exact hid
      rcases Socket.WellFormed.pending_or_delivered _ hwf' id hid' with h | h
      · rw [hgone] at h
        exact absurd h.1 (by simp)
      · exact h.2
    · intro second
      have hopen' : (s.handleFrame (Frame.response id outcome)).state = ConnState.Open := by
        rw [hstep]
        exact hopen
      generalize s.handleFrame (Frame.response id outcome) = t at hgone hopen'
      cases second <;>
        simp only [Socket.handleFrame, if_pos hopen', PendingTable.resolve, PendingTable.fail,
          PendingTable.settle, hgone, Socket.settled]
  · intro id command hpending
    have hid : id < s.nextID :=
      hkeys (id, command) (PendingTable.mem_of_lookup s.pending id command hpending)
    constructor
    · simp only [Socket.close, Socket.shutdown, PendingTable.drainAll_eq]
      apply List.mem_append_right
      exact List.mem_map.2
        ⟨(id, command), PendingTable.mem_of_lookup s.pending id command hpending, rfl⟩
    · exact hclosed s.close (Socket.shutdown_wellFormed s hwf)
        (by simp [Socket.close, Socket.shutdown]) id hid

/-- C7 on a run that connects, submits two commands, receives the response to
the second and then loses the transport: both commands end with exactly one
resolution. Before the response arrives the second command is pending under ID
1; the response delivers it with its result, and the shutdown then delivers the
first with the connection-closed error. -/
theorem every_open_submission_resolved_once_witness :
    ((Socket.init ()).run
        [Step.connect, Step.submit (NewCommand "Foo.bar" Params.nil),
         Step.submit (NewCommand "Foo.baz" Params.nil),
         Step.frame (Frame.response 1 (Outcome.result (Payload.num 2))),
         Step.transportFailure]).deliveries 0 = 1 ∧
    ((Socket.init ()).run
        [Step.connect, Step.submit (NewCommand "Foo.bar" Params.nil),
         Step.submit (NewCommand "Foo.baz" Params.nil),
         Step.frame (Frame.response 1 (Outcome.result (Payload.num 2))),
         Step.transportFailure]).deliveries 1 = 1 ∧
    (((Socket.init ()).run
        [Step.connect, Step.submit (NewCommand "Foo.bar" Params.nil),
         Step.submit (NewCommand "Foo.baz" Params.nil)]).handleFrame
      (Frame.response 1 (Outcome.result (Payload.num 2)))).delivered =
      [{ method := "Foo.baz", params := Params.nil, id := 1,
         result := some (Payload.num 2) }] ∧
    { method := "Foo.bar", params := Params.nil, id := 0,
      Err := some GoError.connectionClosed } ∈
      ((Socket.init ()).run
        [Step.connect, Step.submit (NewCommand "Foo.bar" Params.nil),
         Step.submit (NewCommand "Foo.baz" Params.nil),
         Step.frame (Frame.response 1 (Outcome.result (Payload.num 2)))]).close.delivered :=
  ⟨(every_open_submission_resolved_once ()
      [Step.connect, Step.submit (NewCommand "Foo.bar" Params.nil),
       Step.submit (NewCommand "Foo.baz" Params.nil),
       Step.frame (Frame.response 1 (Outcome.result (Payload.num 2))),
       Step.transportFailure] (by decide)).2.2.1 (by decide) 0 (by decide),
   (every_open_submission_resolved_once ()
      [Step.connect, Step.submit (NewCommand "Foo.bar" Params.nil),
       Step.submit (NewCommand "Foo.baz" Params.nil),
       Step.frame (Frame.response 1 (Outcome.result (Payload.num 2))),
       Step.transportFailure] (by decide)).2.2.1 (by decide) 1 (by decide),
   ((every_open_submission_resolved_once ()
      [Step.connect, Step.submit (NewCommand "Foo.bar" Params.nil),
       Step.submit (NewCommand "Foo.baz" Params.nil)] (by decide)).2.2.2.2.2.2.2.1
      (by decide) 1 { method := "Foo.baz", params := Params.nil, id := 1 }
      (Outcome.result (Payload.num 2)) (by decide)).1,
   ((every_open_submission_resolved_once ()
      [Step.connect, Step.submit (NewCommand "Foo.bar" Params.nil),
       Step.submit (NewCommand "Foo.baz" Params.nil),
       Step.frame (Frame.response 1 (Outcome.result (Payload.num 2)))]
      (by decide)).2.2.2.2.2.2.2.2 0
      { method := "Foo.bar", params := Params.nil, id := 0 } (by decide)).1⟩

/-- A selection that keeps every element keeps the length. -/
theorem filterMap_length_of_isSome {α β : Type} (l : List α) (f : α → Option β)
    (h : ∀ x ∈ l, (f x).isSome = true) : (l.filterMap f).length = l.length := by
  induction l with
  | nil => rfl
  | cons x rest ih =>
    have hx := h x (List.mem_cons_self _ _)
    cases hf : f x with
    | none => rw [hf] at hx; exact absurd hx (by simp)
    | some v =>
      rw [List.filterMap_cons, hf]
      simp [ih (fun y hy => h y (List.mem_cons_of_mem _ hy))]

/-- C8: on an open, consistent socket, submitting N commands registers them
under the N distinct IDs from the next ID on; and whatever the order in which
the N responses arrive, the resolution delivered under the ID of the k-th
command is the k-th command marked with the outcome of its own response, and
N resolutions are delivered in all. -/
theorem responses_route_in_any_order {υ : Type} (s : Socket υ)
    (hopen : s.state = ConnState.Open) (hwf : s.WellFormed) (cs : List Command)
    (outs : List Outcome) (hlen : outs.length = cs.length) (order : List (Nat × Outcome))
    (hperm : order.Perm (responsesFor s.nextID outs)) :
    ((cs.foldl Socket.submit s).pending.map Prod.fst =
      s.pending.map Prod.fst ++ List.range' s.nextID cs.length) ∧
    ((cs.foldl Socket.submit s).pending.map Prod.fst).Nodup ∧
    (∀ k c, cs[k]? = some c →
      (cs.foldl Socket.submit s).pending.lookup (s.nextID + k) =
        some { c with id := s.nextID + k }) ∧
    (∀ k c out, cs[k]? = some c → outs[k]? = some out →
      (((responseFrames order).foldl Socket.handleFrame
          (cs.foldl Socket.submit s)).delivered.filter
            (fun d => d.id == s.nextID + k)) =
        [({ c with id := s.nextID + k } : Command).resolveWith out]) ∧
    ((responseFrames order).foldl Socket.handleFrame (cs.foldl Socket.submit s)).delivered.length =
      s.delivered.length + cs.length := by
  obtain ⟨h1, h2, h3, h4, h5, h6⟩ := hwf
  have hkeys : ∀ entry ∈ s.pending, entry.1 < s.nextID :=
    fun entry hentry => (h1 entry hentry).1
  obtain ⟨j1, j2, j3, j4⟩ := Socket.foldl_submit cs s hopen hkeys
  have hold : ∀ j, s.nextID ≤ j → s.pending.lookup j = none := by
    intro j hj
    rw [PendingTable.lookup_eq_none]
    intro hmem
    obtain ⟨entry, hentry, hk⟩ := List.mem_map.1 hmem
    have := hkeys entry hentry
    omega
  have hlook : ∀ k c, cs[k]? = some c →
      (cs.foldl Socket.submit s).pending.lookup (s.nextID + k) =
        some { c with id := s.nextID + k } := by
    intro k c hk
    rw [j3, List.lookup_append, hold _ (Nat.le_add_right _ _)]
    simp [lookup_assignIDs s.nextID k cs c hk]
  have hnodup : (order.map Prod.fst).Nodup := by
    rw [(hperm.map Prod.fst).nodup_iff, responsesFor_keys]
    exact List.nodup_range' _ _
  have hids : ∀ x c', (cs.foldl Socket.submit s).pending.lookup x = some c' → c'.id = x := by
    intro x c' hx
    have hmem := PendingTable.mem_of_lookup _ _ _ hx
    rw [j3] at hmem
    rcases List.mem_append.1 hmem with h | h
    · exact (h1 _ h).2.1
    · exact (mem_assignIDs _ _ _ h).2
  have hdel := Socket.foldl_responses order (cs.foldl Socket.submit s) j1 hnodup
  refine ⟨?_, ?_, hlook, ?_, ?_⟩
  · rw [j3, List.map_append, assignIDs_keys]
  · rw [j3, List.map_append, assignIDs_keys, List.nodup_append]
    refine ⟨h2, List.nodup_range' _ _, ?_⟩
    intro a ha hb
    obtain ⟨entry, hentry, hk⟩ := List.mem_map.1 ha
    have := hkeys entry hentry
    rw [List.mem_range'_1] at hb
    omega
  · intro k c out hc hout
    rw [hdel, j4, List.filter_append]
    have hnil : s.delivered.filter (fun d => d.id == s.nextID + k) = [] := by
      rw [List.filter_eq_nil_iff]
      intro d hd
      have := (h3 d hd).1
      simp only [beq_iff_eq]
      omega
    rw [hnil, List.nil_append, List.filter_filterMap]
    rw [filterMap_unique_key order _ (s.nextID + k, out)
      (hperm.mem_iff.2 (mem_responsesFor s.nextID k outs out hout)) hnodup]
    · simp [hlook k c hc, Option.filter, Command.resolveWith_id]
    · intro x hx hne
      cases hl : (cs.foldl Socket.submit s).pending.lookup x.1 with
      | none => simp
      | some c' =>
        have := hids x.1 c' hl
        simp only [Option.map_some', Option.filter_some, Command.resolveWith_id, this]
        simp only at hne
        simp [hne]
  · rw [hdel, j4, List.length_append, filterMap_length_of_isSome]
    · have : order.length = outs.length := by
        rw [hperm.length_eq, ← List.length_map (responsesFor s.nextID outs) Prod.fst,
          responsesFor_keys, List.length_range']
      rw [this, hlen]
    · intro x hx
      have hx' : x.1 ∈ (responsesFor s.nextID outs).map Prod.fst :=
        List.mem_map_of_mem _ (hperm.mem_iff.1 hx)
      rw [responsesFor_keys, List.mem_range'_1, hlen] at hx'
      have hk : x.1 - s.nextID < cs.length := by omega
      have := hlook (x.1 - s.nextID) cs[x.1 - s.nextID] (List.getElem?_eq_getElem hk)
      rw [show s.nextID + (x.1 - s.nextID) = x.1 by omega] at this
      simp [this]

/-- C8 with two commands whose responses arrive in the opposite order: the
first command gets its result, the second its error. -/
theorem responses_route_in_any_order_witness :
    ((responseFrames [(1, Outcome.error (GoError.remote 5 "no")),
          (0, Outcome.result (Payload.num 7))]).foldl Socket.handleFrame
        ([NewCommand "Foo.bar" Params.nil, NewCommand "Foo.baz" Params.nil].foldl
          Socket.submit (Socket.init ()).connect)).delivered.filter (fun d => d.id == 0 + 0) =
      [({ NewCommand "Foo.bar" Params.nil with id := 0 + 0 } : Command).resolveWith
        (Outcome.result (Payload.num 7))] :=
  (responses_route_in_any_order (Socket.init ()).connect rfl (by decide)
    [NewCommand "Foo.bar" Params.nil, NewCommand "Foo.baz" Params.nil]
    [Outcome.result (Payload.num 7), Outcome.error (GoError.remote 5 "no")] rfl
    [(1, Outcome.error (GoError.remote 5 "no")), (0, Outcome.result (Payload.num 7))]
    (List.Perm.swap _ _ _)).2.2.2.1 0 (NewCommand "Foo.bar" Params.nil)
      (Outcome.result (Payload.num 7)) rfl rfl

/-- C10 on an open socket with two commands pending: a transport failure leaves
nothing pending and delivers both with the connection-closed error. -/
theorem drainAll_resolves_every_pending_witness :
    ((Socket.init ()).run [Step.connect, Step.submit (NewCommand "Foo.bar" Params.nil),
        Step.submit (NewCommand "Foo.baz" Params.nil)]).transportFailure.pending = [] ∧
    ((Socket.init ()).run [Step.connect, Step.submit (NewCommand "Foo.bar" Params.nil),
        Step.submit (NewCommand "Foo.baz" Params.nil)]).transportFailure.delivered =
      [{ method := "Foo.bar", params := Params.nil, id := 0,
         Err := some GoError.connectionClosed },
       { method := "Foo.baz", params := Params.nil, id := 1,
         Err := some GoError.connectionClosed }] :=
  (drainAll_resolves_every_pending [] GoError.connectionClosed
    ((Socket.init ()).run [Step.connect, Step.submit (NewCommand "Foo.bar" Params.nil),
        Step.submit (NewCommand "Foo.baz" Params.nil)])).2.2.2.2.2.2 rfl

/-- C11: a response frame whose correlation ID is not in the pending-request
table resolves no pending command and leaves the table as it is; the condition
is reported as a stale response, the connection stays Open, and the read loop
handles the next frame as if the stale one had not arrived. -/
theorem stale_response_is_dropped {υ : Type} (s : Socket υ) (hopen : s.state = ConnState.Open)
    (id : Nat) (outcome : Outcome) (hid : id ∉ s.pending.map Prod.fst) :
    (∀ r, s.pending.resolve id r = (s.pending, Except.error (GoError.staleResponse id))) ∧
    (∀ e, s.pending.fail id e = (s.pending, Except.error (GoError.staleResponse id))) ∧
    (s.handleFrame (Frame.response id outcome)).pending = s.pending ∧
    (s.handleFrame (Frame.response id outcome)).delivered = s.delivered ∧
    (s.handleFrame (Frame.response id outcome)).state = ConnState.Open ∧
    (s.handleFrame (Frame.response id outcome)).reported =
      s.reported ++ [GoError.staleResponse id] ∧
    (∀ frame,
      ((s.handleFrame (Frame.response id outcome)).handleFrame frame).pending =
        (s.handleFrame frame).pending ∧
      ((s.handleFrame (Frame.response id outcome)).handleFrame frame).delivered =
        (s.handleFrame frame).delivered ∧
      ((s.handleFrame (Frame.response id outcome)).handleFrame frame).state =
        (s.handleFrame frame).state ∧
      ((s.handleFrame (Frame.response id outcome)).handleFrame frame).user =
        (s.handleFrame frame).user) := by
  have hnone : s.pending.lookup id = none := (PendingTable.lookup_eq_none s.pending id).2 hid
  have hsettle : ∀ o, s.pending.settle id o =
      (s.pending, Except.error (GoError.staleResponse id)) := by
    intro o
    simp [PendingTable.settle, hnone]
  have hframe : s.handleFrame (Frame.response id outcome) =
      { s with reported := s.reported ++ [GoError.staleResponse id] } := by
    rw [Socket.handleFrame_response s hopen, hsettle]
    rfl
  refine ⟨fun r => hsettle _, fun e => hsettle _, ?_, ?_, ?_, ?_, ?_⟩
  · rw [hframe]
  · rw [hframe]
  · rw [hframe]; exact hopen
  · rw [hframe]
  · intro frame
    rw [hframe]
    cases frame with
    | response id' outcome' =>
      cases outcome' <;>
        simp only [Socket.handleFrame, hopen, if_true, Socket.settled, PendingTable.resolve,
          PendingTable.fail] <;>
        (split <;> simp)
    | event name payload =>
      simp [Socket.handleFrame, hopen]

/-- C11 on an open socket with one command pending under ID 0 that receives a
response for ID 5. -/
theorem stale_response_is_dropped_witness :
    (((Socket.init ()).run [Step.connect, Step.submit (NewCommand "Foo.bar" Params.nil)]).handleFrame
        (Frame.response 5 (Outcome.result Payload.null))).pending =
      [(0, { method := "Foo.bar", params := Params.nil, id := 0 })] ∧
    (((Socket.init ()).run [Step.connect, Step.submit (NewCommand "Foo.bar" Params.nil)]).handleFrame
        (Frame.response 5 (Outcome.result Payload.null))).delivered = [] :=
  ⟨(stale_response_is_dropped
      ((Socket.init ()).run [Step.connect, Step.submit (NewCommand "Foo.bar" Params.nil)])
      rfl 5 (Outcome.result Payload.null) (by decide)).2.2.1,
   (stale_response_is_dropped
      ((Socket.init ()).run [Step.connect, Step.submit (NewCommand "Foo.bar" Params.nil)])
      rfl 5 (Outcome.result Payload.null) (by decide)).2.2.2.1⟩

/-- A dispatch loop over two lists in a row is the loop over the second started
from what the loop over the first left. -/
theorem EventRouter.dispatchLoop_append {υ : Type} (eventName : String) (payload : Payload)
    (first second : List (Registration υ)) (acc : Dispatched υ) :
    EventRouter.dispatchLoop eventName payload (first ++ second) acc =
      EventRouter.dispatchLoop eventName payload second
        (EventRouter.dispatchLoop eventName payload first acc) := by
  induction first generalizing acc with
  | nil => rfl
  | cons reg rest ih =>
    by_cases h : reg.name = eventName
    · simp [EventRouter.dispatchLoop, h, ih]
    · simp [EventRouter.dispatchLoop, h, ih]

/-- A dispatch loop keeps what was reported before it. -/
theorem EventRouter.dispatchLoop_reported {υ : Type} (eventName : String) (payload : Payload)
    (regs : List (Registration υ)) (acc : Dispatched υ) (e : GoError) (he : e ∈ acc.reported) :
    e ∈ (EventRouter.dispatchLoop eventName payload regs acc).reported := by
  induction regs generalizing acc with
  | nil => exact he
  | cons reg rest ih =>
    by_cases h : reg.name = eventName
    · simp only [EventRouter.dispatchLoop, h, if_true]
      exact ih _ (List.mem_append_left _ he)
    · simp only [EventRouter.dispatchLoop, h, if_false]
      exact ih _ he

/-- C14: when a handler registered for an event fails during dispatch, the
dispatch goes on with the handlers registered after it, from the state the
failing handler left: every handler registered for the event is invoked, in
registry order, the failure is reported, and the read loop that dispatched the
event stays Open. -/
theorem failing_handler_does_not_stop_dispatch {υ : Type} (router : EventRouter υ)
    (before after : List (Registration υ)) (failing : Registration υ) (eventName : String)
    (payload : Payload) (user : υ) (err : GoError)
    (hreg : router.registry = before ++ failing :: after)
    (hname : failing.name = eventName)
    (hfail : (failing.callback payload
      (EventRouter.dispatchLoop eventName payload before
        { user := user, reported := [], invoked := [] }).user).2 = some err) :
    router.dispatch eventName payload user =
      EventRouter.dispatchLoop eventName payload after
        { user := (failing.callback payload
            (EventRouter.dispatchLoop eventName payload before
              { user := user, reported := [], invoked := [] }).user).1,
          reported := (EventRouter.dispatchLoop eventName payload before
              { user := user, reported := [], invoked := [] }).reported ++ [err],
          invoked := (EventRouter.dispatchLoop eventName payload before
              { user := user, reported := [], invoked := [] }).invoked ++ [failing.handle] } ∧
    (router.dispatch eventName payload user).invoked =
      (before.filter (fun reg => reg.name = eventName)).map Registration.handle ++
        failing.handle ::
          (after.filter (fun reg => reg.name = eventName)).map Registration.handle ∧
    err ∈ (router.dispatch eventName payload user).reported ∧
    (∀ s : Socket υ, s.state = ConnState.Open → s.router = router → s.user = user →
      (s.handleFrame (Frame.event eventName payload)).state = ConnState.Open ∧
      (s.handleFrame (Frame.event eventName payload)).pending = s.pending ∧
      err ∈ (s.handleFrame (Frame.event eventName payload)).reported) := by
  have hdispatch : router.dispatch eventName payload user =
      EventRouter.dispatchLoop eventName payload after
        { user := (failing.callback payload
            (EventRouter.dispatchLoop eventName payload before
              { user := user, reported := [], invoked := [] }).user).1,
          reported := (EventRouter.dispatchLoop eventName payload before
              { user := user, reported := [], invoked := [] }).reported ++ [err],
          invoked := (EventRouter.dispatchLoop eventName payload before
              { user := user, reported := [], invoked := [] }).invoked ++ [failing.handle] } := by
    rw [EventRouter.dispatch, hreg, EventRouter.dispatchLoop_append]
    simp only [EventRouter.dispatchLoop, hname, if_true, hfail, Option.toList]
  have hrep : err ∈ (router.dispatch eventName payload user).reported := by
    rw [hdispatch]
    apply EventRouter.dispatchLoop_reported
    simp
  refine ⟨hdispatch, ?_, hrep, ?_⟩
  · rw [EventRouter.dispatch_invoked, hreg]
    simp [List.filter_append, List.filter_cons, hname]
  · intro s hopen hrouter huser
    simp only [Socket.handleFrame, hopen, if_true, hrouter, huser]
    exact ⟨trivial, trivial, List.mem_append_right _ hrep⟩


/-- C14 on a router with two handlers for one event, the first of which fails:
both are invoked, first registered first, and the socket that dispatched the
event stays Open. -/
theorem failing_handler_does_not_stop_dispatch_witness :
    ((((EventRouter.empty (List Nat)).addHandler "Foo.changed"
          (fun _ u => (u ++ [1], some (GoError.other "handler failed")))).1.addHandler
        "Foo.changed" (fun _ u => (u ++ [2], none))).1.dispatch
      "Foo.changed" Payload.null []).invoked = [0, 1] ∧
    (({ (Socket.init ([] : List Nat)).connect with
          router := (((EventRouter.empty (List Nat)).addHandler "Foo.changed"
              (fun _ u => (u ++ [1], some (GoError.other "handler failed")))).1.addHandler
            "Foo.changed" (fun _ u => (u ++ [2], none))).1 } : Socket (List Nat)).handleFrame
        (Frame.event "Foo.changed" Payload.null)).state = ConnState.Open :=
  ⟨(failing_handler_does_not_stop_dispatch
      (((EventRouter.empty (List Nat)).addHandler "Foo.changed"
            (fun _ u => (u ++ [1], some (GoError.other "handler failed")))).1.addHandler
          "Foo.changed" (fun _ u => (u ++ [2], none))).1
      []
      [{ handle := 1, name := "Foo.changed", callback := fun _ u => (u ++ [2], none) }]
      { handle := 0, name := "Foo.changed",
        callback := fun _ u => (u ++ [1], some (GoError.other "handler failed")) }
      "Foo.changed" Payload.null [] (GoError.other "handler failed") rfl rfl rfl).2.1,
   ((failing_handler_does_not_stop_dispatch
      (((EventRouter.empty (List Nat)).addHandler "Foo.changed"
            (fun _ u => (u ++ [1], some (GoError.other "handler failed")))).1.addHandler
          "Foo.changed" (fun _ u => (u ++ [2], none))).1
      []
      [{ handle := 1, name := "Foo.changed", callback := fun _ u => (u ++ [2], none) }]
      { handle := 0, name := "Foo.changed",
        callback := fun _ u => (u ++ [1], some (GoError.other "handler failed")) }
      "Foo.changed" Payload.null [] (GoError.other "handler failed") rfl rfl rfl).2.2.2
      { (Socket.init ([] : List Nat)).connect with
          router := (((EventRouter.empty (List Nat)).addHandler "Foo.changed"
              (fun _ u => (u ++ [1], some (GoError.other "handler failed")))).1.addHandler
            "Foo.changed" (fun _ u => (u ++ [2], none))).1 }
      rfl rfl rfl).1⟩

/-- C12: when the JSON text layer reads back the request envelope it printed,
the receiving side decodes an encoded command to its correlation ID, its method
name and the JSON value of its parameters; and when it reads back the response
envelope it printed, an encoded response with ID `id` and result `r` decodes to
a response frame for `id` with result `r`, which on an open socket resolves the
command pending under `id` with that result. -/
theorem codec_round_trip {υ : Type} (j : JsonText) (command : Command) (id : Nat) (r : Payload)
    (hrequest : j.parse (j.print (requestMessage command)) = some (requestMessage command))
    (hresponse : j.parse (j.print (resultMessage id r)) = some (resultMessage id r)) :
    decodeRequest j (encode j command) =
      some { id := command.id, method := command.method, params := command.params.toPayload } ∧
    decode j (j.print (resultMessage id r)) =
      Except.ok (Frame.response id (Outcome.result r)) ∧
    (∀ (s : Socket υ) (pending : Command), s.state = ConnState.Open →
      s.pending.lookup id = some pending →
      (s.receive j (j.print (resultMessage id r))).delivered =
        s.delivered ++ [{ pending with result := some r }] ∧
      (s.receive j (j.print (resultMessage id r))).pending =
        s.pending.eraseP (fun entry => entry.1 == id)) := by
  have hdecode : decode j (j.print (resultMessage id r)) =
      Except.ok (Frame.response id (Outcome.result r)) := by
    unfold decode
    rw [hresponse]
    simp [classify, resultMessage, Payload.field, PayloadFields.lookup, readOutcome]
  refine ⟨?_, hdecode, ?_⟩
  · unfold decodeRequest encode
    rw [hrequest]
    simp [readRequest, requestMessage, Payload.field, PayloadFields.lookup]
  · intro s pending hopen hpending
    simp [Socket.receive, hopen, hdecode, Socket.handleFrame, PendingTable.resolve,
      PendingTable.settle, hpending, Socket.settled, Command.resolveWith]

/-- C12 on the small JSON text library, with the command and the response of
the specification's example: method "X.y", params with `a` set to 1, ID 7, and
a result with `b` set to 2, received by an open socket on which the command is
pending under ID 7. -/
theorem codec_round_trip_witness :
    decodeRequest smallJson
        (encode smallJson
          { method := "X.y",
            params := Params.ptr (some (Payload.obj
              (PayloadFields.cons "a" (Payload.num 1) PayloadFields.nil))),
            id := 7 }) =
      some { id := 7, method := "X.y",
             params := Payload.obj (PayloadFields.cons "a" (Payload.num 1) PayloadFields.nil) } ∧
    decode smallJson
        (smallJson.print (resultMessage 7
          (Payload.obj (PayloadFields.cons "b" (Payload.num 2) PayloadFields.nil)))) =
      Except.ok (Frame.response 7 (Outcome.result
        (Payload.obj (PayloadFields.cons "b" (Payload.num 2) PayloadFields.nil)))) ∧
    (({ (Socket.init ()).connect with
          nextID := 8,
          pending := [(7, { method := "X.y", params := Params.nil, id := 7 })] } :
        Socket Unit).receive smallJson
        (smallJson.print (resultMessage 7
          (Payload.obj (PayloadFields.cons "b" (Payload.num 2) PayloadFields.nil))))).delivered =
      [] ++ [{ method := "X.y", params := Params.nil, id := 7,
               result := some (Payload.obj
                 (PayloadFields.cons "b" (Payload.num 2) PayloadFields.nil)) }] :=
  ⟨(codec_round_trip (υ := Unit) smallJson
      { method := "X.y",
        params := Params.ptr (some (Payload.obj
          (PayloadFields.cons "a" (Payload.num 1) PayloadFields.nil))),
        id := 7 }
      7 (Payload.obj (PayloadFields.cons "b" (Payload.num 2) PayloadFields.nil))
      (by decide) (by decide)).1,
   (codec_round_trip (υ := Unit) smallJson
      { method := "X.y",
        params := Params.ptr (some (Payload.obj
          (PayloadFields.cons "a" (Payload.num 1) PayloadFields.nil))),
        id := 7 }
      7 (Payload.obj (PayloadFields.cons "b" (Payload.num 2) PayloadFields.nil))
      (by decide) (by decide)).2.1,
   ((codec_round_trip (υ := Unit) smallJson
      { method := "X.y",
        params := Params.ptr (some (Payload.obj
          (PayloadFields.cons "a" (Payload.num 1) PayloadFields.nil))),
        id := 7 }
      7 (Payload.obj (PayloadFields.cons "b" (Payload.num 2) PayloadFields.nil))
      (by decide) (by decide)).2.2
      { (Socket.init ()).connect with
          nextID := 8,
          pending := [(7, { method := "X.y", params := Params.nil, id := 7 })] }
      { method := "X.y", params := Params.nil, id := 7 } rfl rfl).1⟩

/-- The classification of a parsed frame by the fields it carries. -/
theorem classify_eq (message : Payload) :
    (carriesID message = true →
      ∃ id, classify message = Except.ok (Frame.response id (readOutcome message))) ∧
    (carriesID message = false → carriesEvent message = true →
      ∃ name params, classify message = Except.ok (Frame.event name params) ∧
        message.field "method" = some (Payload.str name) ∧
        message.field "params" = some params) ∧
    (carriesID message = false → carriesEvent message = false →
      classify message =
        Except.error (GoError.protocolFormat "frame is neither a response nor an event")) := by
  unfold carriesID carriesEvent classify
  generalize message.field "id" = fid
  generalize message.field "method" = fm
  generalize message.field "params" = fp
  rcases fid with _ | (_ | _ | n | _ | _ | _) <;>
    rcases fm with _ | (_ | _ | _ | name | _ | _) <;>
      rcases fp with _ | params <;>
        first
        | (simp; done)
        | (by_cases hn : 0 ≤ n <;> simp [hn])


/-- C13: `decode` classifies every inbound frame as exactly one of a response,
an event and a protocol-format error: a response exactly when the frame is JSON
carrying a correlation ID, an event exactly when it is JSON carrying a method
name and params and no ID, a format error in every other case; and on an open
socket a format error is reported while the connection stays Open with its
pending table and deliveries untouched. -/
theorem decode_classifies_exactly_one {υ : Type} (j : JsonText) (bytes : Bytes) :
    ((∃ id outcome, decode j bytes = Except.ok (Frame.response id outcome)) ↔
      ∃ message, j.parse bytes = some message ∧ carriesID message = true) ∧
    ((∃ name params, decode j bytes = Except.ok (Frame.event name params)) ↔
      ∃ message, j.parse bytes = some message ∧ carriesID message = false ∧
        carriesEvent message = true) ∧
    ((∃ msg, decode j bytes = Except.error (GoError.protocolFormat msg)) ↔
      (j.parse bytes = none ∨
        ∃ message, j.parse bytes = some message ∧ carriesID message = false ∧
          carriesEvent message = false)) ∧
    ((∃ id outcome, decode j bytes = Except.ok (Frame.response id outcome)) ∨
      (∃ name params, decode j bytes = Except.ok (Frame.event name params)) ∨
      (∃ msg, decode j bytes = Except.error (GoError.protocolFormat msg))) ∧
    ¬ ((∃ id outcome, decode j bytes = Except.ok (Frame.response id outcome)) ∧
      (∃ name params, decode j bytes = Except.ok (Frame.event name params))) ∧
    ¬ ((∃ id outcome, decode j bytes = Except.ok (Frame.response id outcome)) ∧
      (∃ msg, decode j bytes = Except.error (GoError.protocolFormat msg))) ∧
    ¬ ((∃ name params, decode j bytes = Except.ok (Frame.event name params)) ∧
      (∃ msg, decode j bytes = Except.error (GoError.protocolFormat msg))) ∧
    (∀ (s : Socket υ) (e : GoError), s.state = ConnState.Open →
      decode j bytes = Except.error e →
      (s.receive j bytes).state = ConnState.Open ∧
      (s.receive j bytes).pending = s.pending ∧
      (s.receive j bytes).delivered = s.delivered ∧
      (s.receive j bytes).reported = s.reported ++ [e]) := by
  have hlast : ∀ (s : Socket υ) (e : GoError), s.state = ConnState.Open →
      decode j bytes = Except.error e →
      (s.receive j bytes).state = ConnState.Open ∧
      (s.receive j bytes).pending = s.pending ∧
      (s.receive j bytes).delivered = s.delivered ∧
      (s.receive j bytes).reported = s.reported ++ [e] := by
    intro s e hopen he
    simp [Socket.receive, hopen, he]
  cases hp : j.parse bytes with
  | none =>
    have hd : decode j bytes = Except.error (GoError.protocolFormat "frame is not JSON") := by
      simp [decode, hp]
    refine ⟨?_, ?_, ?_, ?_, ?_, ?_, ?_, hlast⟩ <;> simp [hd]
  | some message =>
    have hd : decode j bytes = classify message := by simp [decode, hp]
    obtain ⟨c1, c2, c3⟩ := classify_eq message
    cases hid : carriesID message with
    | true =>
      obtain ⟨id, hc⟩ := c1 hid
      refine ⟨?_, ?_, ?_, ?_, ?_, ?_, ?_, hlast⟩ <;> simp [hd, hc, hid]
    | false =>
      cases hev : carriesEvent message with
      | true =>
        obtain ⟨name, params, hc, -, -⟩ := c2 hid hev
        refine ⟨?_, ?_, ?_, ?_, ?_, ?_, ?_, hlast⟩ <;> simp [hd, hc, hid, hev]
      | false =>
        have hc := c3 hid hev
        refine ⟨?_, ?_, ?_, ?_, ?_, ?_, ?_, hlast⟩ <;> simp [hd, hc, hid, hev]

/-- C13 on an open socket that receives the JSON text of an empty array, which
is neither a response nor an event. -/
theorem decode_classifies_exactly_one_witness :
    ((Socket.init ()).connect.receive smallJson [91, 93]).state = ConnState.Open ∧
    ((Socket.init ()).connect.receive smallJson [91, 93]).pending = [] ∧
    ((Socket.init ()).connect.receive smallJson [91, 93]).delivered = [] ∧
    ((Socket.init ()).connect.receive smallJson [91, 93]).reported =
      [] ++ [GoError.protocolFormat "frame is neither a response nor an event"] :=
  (decode_classifies_exactly_one smallJson [91, 93]).2.2.2.2.2.2.2 (Socket.init ()).connect
    (GoError.protocolFormat "frame is neither a response nor an event") rfl rfl


/-! ## Theorems: results, doc comments and encodings -/

/-- C15, the code at the failing input: each of the ten `chrome` package getters
returns a nil error whatever result payload the socket resolved the command
with; the returned value is the same for any two results, so it does not
determine the result. -/
theorem chrome_getter_drops_result (r₁ r₂ : Option Payload) (params : Option Payload) :
    chromeGetters.all (fun m =>
      decide ((m.run (answeringSocket Unit r₁) () params).2 = none) &&
      decide ((m.run (answeringSocket Unit r₂) () params).2 = none)) = true := by
  simp only [chromeGetters, List.all_cons, List.all_nil, Bool.and_true, Bool.and_eq_true,
    decide_eq_true_eq]
  refine ⟨⟨rfl, rfl⟩, ⟨rfl, rfl⟩, ⟨rfl, rfl⟩, ⟨rfl, rfl⟩, ⟨rfl, rfl⟩, ⟨rfl, rfl⟩, ⟨rfl, rfl⟩,
    ⟨rfl, rfl⟩, ⟨rfl, rfl⟩, ⟨rfl, rfl⟩⟩

/-- C16: every `On*` method of the `chrome` package CSS and DOM facades hands
`AddEventHandler` a handler created under the event name that the opening
sentence of its doc comment states. -/
theorem chrome_on_method_registers_stated_event {σ υ E : Type} (m : ChromeOnMethod)
    (json : Json E) (socket : Socketer σ (protocol.EventHandler υ)) (w : σ)
    (callback : E → υ → υ) :
    ∃ handler, addedHandlers (m.run json socket.traced (w, []) callback).2 = [handler] ∧
      statedEvent m.docComment = some handler.Name := by
  cases m <;> exact ⟨_, rfl, rfl⟩

/-- C17: the JSON encoding of a `CaptureScreenshotParams` has no `clip` member
when `Clip` is nil; when `Clip` holds a `Viewport` it has a `clip` member that
is an object with the viewport's `x`, `y`, `width`, `height` and `scale`; and
the all-zero value encodes to the empty object. -/
theorem capture_screenshot_params_encoding (p : page.CaptureScreenshotParams) :
    (p.Clip = none → p.toJSON.field "clip" = none) ∧
    (∀ v : page.Viewport, p.Clip = some (page.ClipValue.viewport v) →
      p.toJSON.field "clip" =
        some (Payload.obj
          (PayloadFields.cons "x" (Payload.num v.X)
            (PayloadFields.cons "y" (Payload.num v.Y)
              (PayloadFields.cons "width" (Payload.num v.Width)
                (PayloadFields.cons "height" (Payload.num v.Height)
                  (PayloadFields.cons "scale" (Payload.num v.Scale) PayloadFields.nil))))))) ∧
    (p = { Format := "", Quality := 0, Clip := none, FromSurface := false } →
      p.toJSON = Payload.obj PayloadFields.nil ∧ printJson p.toJSON = [123, 125]) := by
  refine ⟨?_, ?_, ?_⟩
  · intro hclip
    by_cases hf : p.Format = "" <;> by_cases hq : p.Quality = 0 <;>
      cases hs : p.FromSurface <;>
        simp [page.CaptureScreenshotParams.toJSON, omitEmpty, hclip, hf, hq, hs, Payload.field,
          PayloadFields.lookup]
  · intro v hclip
    by_cases hf : p.Format = "" <;> by_cases hq : p.Quality = 0 <;>
      cases hs : p.FromSurface <;>
        simp [page.CaptureScreenshotParams.toJSON, omitEmpty, hclip, hf, hq, hs, Payload.field,
          PayloadFields.lookup, page.ClipValue.toJSON, page.Viewport.toJSON]
  · intro hp
    subst hp
    exact ⟨rfl, rfl⟩

/-- C17 on a screenshot request for the region at (10, 20) of size 300 by 200
at scale 1, and on the all-zero request. -/
theorem capture_screenshot_params_encoding_witness :
    (({ Format := "", Quality := 0,
        Clip := some (page.ClipValue.viewport
          { X := 10, Y := 20, Width := 300, Height := 200, Scale := 1 }),
        FromSurface := false } : page.CaptureScreenshotParams).toJSON.field "clip" =
      some (Payload.obj
        (PayloadFields.cons "x" (Payload.num 10)
          (PayloadFields.cons "y" (Payload.num 20)
            (PayloadFields.cons "width" (Payload.num 300)
              (PayloadFields.cons "height" (Payload.num 200)
                (PayloadFields.cons "scale" (Payload.num 1) PayloadFields.nil))))))) ∧
    (({ Format := "png", Quality := 0, Clip := none,
        FromSurface := true } : page.CaptureScreenshotParams).toJSON.field "clip" = none) ∧
    (({ Format := "", Quality := 0, Clip := none,
        FromSurface := false } : page.CaptureScreenshotParams).toJSON =
      Payload.obj PayloadFields.nil) :=
  ⟨(capture_screenshot_params_encoding
      { Format := "", Quality := 0,
        Clip := some (page.ClipValue.viewport
          { X := 10, Y := 20, Width := 300, Height := 200, Scale := 1 }),
        FromSurface := false }).2.1
      { X := 10, Y := 20, Width := 300, Height := 200, Scale := 1 } rfl,
   (capture_screenshot_params_encoding
      { Format := "png", Quality := 0, Clip := none, FromSurface := true }).1 rfl,
   ((capture_screenshot_params_encoding
      { Format := "", Quality := 0, Clip := none, FromSurface := false }).2.2 rfl).1⟩

/-- C18, the claim refuted: `OnNetworkStateUpdated` does not register under the
name `OnApplicationCacheStatusUpdated` registers under. -/
theorem network_state_handler_name_differs :
    (addedHandlers (ApplicationCache.OnNetworkStateUpdated natJson
        (answeringSocket (EventHandler Unit) none).traced ((), []) (fun _ u => u)).2).map
      EventHandler.Name ≠
    (addedHandlers (ApplicationCache.OnApplicationCacheStatusUpdated natJson
        (answeringSocket (EventHandler Unit) none).traced ((), []) (fun _ u => u)).2).map
      EventHandler.Name := by
  decide

/-- C18 as amended: `OnNetworkStateUpdated` registers its handler under
"ApplicationCache.networkStateUpdated", the event that the protocol URL of its
doc comment names, and `OnApplicationCacheStatusUpdated` registers under
"ApplicationCache.applicationCacheStatusUpdated"; the opening sentence of both
doc comments states "ApplicationCache.StatusUpdated", which is neither. -/
theorem network_state_handler_registers_own_event {σ υ E : Type} (json : Json E)
    (socket : Socketer σ (EventHandler υ)) (w : σ) (callback : E → υ → υ) :
    (∃ handler,
      addedHandlers (ApplicationCache.OnNetworkStateUpdated json socket.traced (w, [])
        callback).2 = [handler] ∧
      handler.Name = "ApplicationCache.networkStateUpdated" ∧
      (OnMethod.ApplicationCache_OnNetworkStateUpdated.docURL.bind
        (wireName "ApplicationCache" "#event-")) = some handler.Name) ∧
    (∃ handler,
      addedHandlers (ApplicationCache.OnApplicationCacheStatusUpdated json socket.traced (w, [])
        callback).2 = [handler] ∧
      handler.Name = "ApplicationCache.applicationCacheStatusUpdated") ∧
    "ApplicationCache.networkStateUpdated" ≠ "ApplicationCache.applicationCacheStatusUpdated" ∧
    statedEvent OnMethod.ApplicationCache_OnNetworkStateUpdated.docComment =
      some "ApplicationCache.StatusUpdated" ∧
    statedEvent OnMethod.ApplicationCache_OnApplicationCacheStatusUpdated.docComment =
      some "ApplicationCache.StatusUpdated" :=
  ⟨⟨_, rfl, rfl, rfl⟩, ⟨_, rfl, rfl⟩, by decide, rfl, rfl⟩


/-- C19, the claim refuted: a socket resolves `SetScriptSource` with an object
whose `content` is a string and whose `base64Encoded` is a string too; decoding
into a result with a string field and a bool field stores the first, fails on
the second, and the method returns the half-filled result with the error. -/
theorem decode_failure_returns_partial_result :
    (ResultMethod.Debugger_SetScriptSource.run resourceContentJson
        (answeringSocket Unit (some (Payload.obj
          (PayloadFields.cons "content" (Payload.str "abc")
            (PayloadFields.cons "base64Encoded" (Payload.str "yes") PayloadFields.nil)))))
        () none).2 =
      ({ Content := "abc", Base64Encoded := false },
        some (GoError.other "json: cannot unmarshal into Go struct field base64Encoded")) ∧
    ({ Content := "abc", Base64Encoded := false } : page.GetResourceContentResult) ≠
      resourceContentJson.zero := by
  constructor
  · rfl
  · decide

/-- C19 as amended: when a result-bearing method returns a non-nil error, either
the error is the command's error or a JSON encoding error and the result is the
freshly initialised value, or the error comes from JSON decoding and the result
is the decoding target as `json.Unmarshal` left it. The same holds of
`BeginFrame`, whose fresh value is a pointer to an empty result. -/
theorem result_is_fresh_unless_decoding_failed {σ H υ R : Type} :
    (∀ (m : ResultMethod) (json : Json R) (socket : Socketer σ H) (w : σ)
        (params : Option Payload) (command : Command),
      returnedCommands (m.run json socket.traced (w, []) params).1.2 = [command] →
      (m.run json socket w params).2.2 ≠ none →
      ((m.run json socket w params).2.1 = json.zero ∧
        (command.Error ≠ none ∨
          ∃ r e, command.Result = some r ∧ json.Marshal r = Except.error e)) ∨
      (∃ r resultData, command.Error = none ∧ command.Result = some r ∧
        json.Marshal r = Except.ok resultData ∧
        (m.run json socket w params).2 = json.Unmarshal resultData json.zero)) ∧
    (∀ (zero : R) (Result : Command → Bytes)
        (Unmarshal : Bytes → Option R → Option R × Option GoError)
        (protocol : HeadlessExperimentalProtocol σ υ) (w : σ) (params : Option Payload)
        (command : Command),
      returnedCommands (HeadlessExperimentalProtocol.BeginFrame zero Result Unmarshal
        protocol.traced (w, []) params).1.2 = [command] →
      (HeadlessExperimentalProtocol.BeginFrame zero Result Unmarshal protocol w params).2.2
        ≠ none →
      (command.Error ≠ none ∧
        (HeadlessExperimentalProtocol.BeginFrame zero Result Unmarshal protocol w params).2.1
          = some zero) ∨
      (command.Error = none ∧
        (HeadlessExperimentalProtocol.BeginFrame zero Result Unmarshal protocol w params).2
          = Unmarshal (Result command) (some zero))) := by
  constructor
  · intro m json socket w params command hcmd herr
    obtain ⟨sent, -, -, h⟩ := ResultMethod.run_eq m params
    rw [(h json socket w []).1] at hcmd
    simp only [List.nil_append, returnedCommands, List.cons.injEq, and_true] at hcmd
    rw [(h json socket w []).2, hcmd] at herr ⊢
    cases hE : command.Error with
    | some e => left; simp [hE]
    | none =>
      cases hR : command.Result with
      | none => simp [hE, hR] at herr
      | some r =>
        cases hM : json.Marshal r with
        | error e => left; simp [hE, hR, hM]
        | ok resultData =>
          right
          refine ⟨r, resultData, rfl, rfl, hM, ?_⟩
          cases hU : (json.Unmarshal resultData json.zero).2 with
          | none => simp [hE, hR, hM, hU] at herr
          | some e => simp [hE, hR, hM, hU, Prod.ext_iff]
  · intro zero Result Unmarshal protocol w params command hcmd herr
    have hsent : ∃ sent, returnedCommands (HeadlessExperimentalProtocol.BeginFrame zero Result
          Unmarshal protocol.traced (w, []) params).1.2 = [(protocol.Socket.SendCommand w sent).2] ∧
        (HeadlessExperimentalProtocol.BeginFrame zero Result Unmarshal protocol w params).2 =
          if (protocol.Socket.SendCommand w sent).2.Error ≠ none then
            (some zero, (protocol.Socket.SendCommand w sent).2.Error)
          else Unmarshal (Result (protocol.Socket.SendCommand w sent).2) (some zero) := by
      apply Exists.intro
      constructor
      · simp only [HeadlessExperimentalProtocol.BeginFrame, HeadlessExperimentalProtocol.traced,
          Socketer.traced]
        split <;> rfl
      · simp only [HeadlessExperimentalProtocol.BeginFrame]
        split <;> rfl
    obtain ⟨sent, h1, h2⟩ := hsent
    rw [h1] at hcmd
    simp only [List.cons.injEq, and_true] at hcmd
    rw [h2, hcmd]
    cases hE : command.Error with
    | some e => left; simp
    | none => right; simp

/-- C19 as amended, on a socket that fails the command: the result returned
with the error is the fresh value, for `SetScriptSource` and for `BeginFrame`. -/
theorem result_is_fresh_unless_decoding_failed_witness :
    (ResultMethod.Debugger_SetScriptSource.run resourceContentJson
        (failingSocket Unit GoError.notOpen (some Payload.null)) () none).2.1
      = resourceContentJson.zero ∧
    (HeadlessExperimentalProtocol.BeginFrame (0 : Nat) (fun _ => [])
        (fun _ target => (target, some (GoError.other "unexpected end of JSON input")))
        ({ Socket := failingSocket (EventHandler Unit) GoError.notOpen none } :
          HeadlessExperimentalProtocol Unit Unit) () none).2.1 = some 0 :=
  ⟨((result_is_fresh_unless_decoding_failed (σ := Unit) (H := Unit) (υ := Unit)
        (R := page.GetResourceContentResult)).1
      ResultMethod.Debugger_SetScriptSource resourceContentJson
      (failingSocket Unit GoError.notOpen (some Payload.null)) () none
      { method := "Debugger.setScriptSource", params := Params.ptr none,
        result := some Payload.null, Err := some GoError.notOpen }
      rfl (by decide)).elim (fun h => h.1)
        (fun h => absurd h.choose_spec.choose_spec.1 (by decide)),
   ((result_is_fresh_unless_decoding_failed (σ := Unit) (H := Unit) (υ := Unit)
        (R := Nat)).2
      0 (fun _ => [])
      (fun _ target => (target, some (GoError.other "unexpected end of JSON input")))
      { Socket := failingSocket (EventHandler Unit) GoError.notOpen none } () none
      { method := "HeadlessExperimental.beginFrame", params := Params.ptr none,
        Err := some GoError.notOpen }
      rfl (by decide)).elim (fun h => h.2) (fun h => absurd h.1 (by decide))⟩

/-- C20: a result-bearing method of the Debugger and ApplicationCache facades
returns a nil error exactly when the command carries no error and either
carries no result or carries one whose JSON encoding and decoding both succeed.
The command is the one value `SendCommand` left, so `Error()` and `Result()`
read the same at every use. -/
theorem result_method_error_nil_iff {σ H R : Type} (m : ResultMethod) (json : Json R)
    (socket : Socketer σ H) (w : σ) (params : Option Payload) (command : Command)
    (hcmd : returnedCommands (m.run json socket.traced (w, []) params).1.2 = [command]) :
    (m.run json socket w params).2.2 = none ↔
      command.Error = none ∧
      (command.Result = none ∨
        ∃ r resultData, command.Result = some r ∧ json.Marshal r = Except.ok resultData ∧
          (json.Unmarshal resultData json.zero).2 = none) := by
  obtain ⟨sent, -, -, h⟩ := ResultMethod.run_eq m params
  rw [(h json socket w []).1] at hcmd
  simp only [List.nil_append, returnedCommands, List.cons.injEq, and_true] at hcmd
  rw [(h json socket w []).2, hcmd]
  cases hE : command.Error with
  | some e => simp [hE]
  | none =>
    cases hR : command.Result with
    | none => simp [hE, hR]
    | some r =>
      cases hM : json.Marshal r with
      | error e => simp [hE, hR, hM]
      | ok resultData =>
        cases hU : (json.Unmarshal resultData json.zero).2 with
        | none => simp [hE, hR, hM, hU]
        | some e => simp [hE, hR, hM, hU]

/-- C20 on a socket that answers with a well-typed result, where the error is
nil, and on one that answers with an ill-typed result, where it is not. -/
theorem result_method_error_nil_iff_witness :
    (ResultMethod.ApplicationCache_GetManifestForFrame.run resourceContentJson
        (answeringSocket Unit (some (Payload.obj
          (PayloadFields.cons "content" (Payload.str "abc") PayloadFields.nil))))
        () none).2.2 = none ∧
    (ResultMethod.Debugger_SearchInContent.run resourceContentJson
        (answeringSocket Unit (some (Payload.obj
          (PayloadFields.cons "content" (Payload.num 5) PayloadFields.nil))))
        () none).2.2 ≠ none :=
  ⟨(result_method_error_nil_iff ResultMethod.ApplicationCache_GetManifestForFrame
      resourceContentJson
      (answeringSocket Unit (some (Payload.obj
        (PayloadFields.cons "content" (Payload.str "abc") PayloadFields.nil))))
      () none
      { method := "ApplicationCache.getManifestForFrame", params := Params.ptr none,
        result := some (Payload.obj
          (PayloadFields.cons "content" (Payload.str "abc") PayloadFields.nil)) }
      rfl).2
      ⟨rfl, Or.inr ⟨_, _, rfl, rfl, rfl⟩⟩,
   fun hnil =>
    ((result_method_error_nil_iff ResultMethod.Debugger_SearchInContent resourceContentJson
      (answeringSocket Unit (some (Payload.obj
        (PayloadFields.cons "content" (Payload.num 5) PayloadFields.nil))))
      () none
      { method := "Debugger.searchInContent", params := Params.ptr none,
        result := some (Payload.obj
          (PayloadFields.cons "content" (Payload.num 5) PayloadFields.nil)) }
      rfl).1 hnil).2.elim (fun h => Option.noConfusion h)
        (fun h => by
          obtain ⟨r, resultData, hr, hm, hu⟩ := h
          cases hr
          cases hm
          exact absurd hu (by decide))⟩

/-! ## Theorems: event handlers, BeginFrame, wire names and page.go -/

/-- C21: the handler an `On*` method registers, run on any event payload, calls
the user's callback once, on the event decoded from the payload, when the
payload decodes, and logs nothing; when the payload does not decode it leaves
the user's state as it was, never calling the callback, and logs the decoding
error. Either way the handler returns the state to its caller. This holds for
the `On*` methods of the Debugger and ApplicationCache facades, of the
HeadlessExperimental facade, and of the CSS and DOM facades. -/
theorem on_handler_calls_callback_once_iff_decoded {σ υ E : Type} (json : Json E)
    (callback : E → υ → υ) :
    (∀ (m : OnMethod) (socket : Socketer σ (EventHandler υ)) (w : σ),
      ∃ handler : EventHandler υ,
        addedHandlers (m.run json socket.traced (w, []) callback).2 = [handler] ∧
        ∀ (response : Response) (st : HandlerState υ),
          ((json.Unmarshal response.Params json.zero).2 = none →
            handler.Callback response st =
              { user := callback (json.Unmarshal response.Params json.zero).1 st.user,
                logged := st.logged }) ∧
          (∀ err, (json.Unmarshal response.Params json.zero).2 = some err →
            handler.Callback response st =
              { user := st.user, logged := st.logged ++ [err] })) ∧
    (∀ (m : HeadlessOnMethod) (protocol : HeadlessExperimentalProtocol σ υ) (w : σ),
      ∃ handler : EventHandler υ,
        addedHandlers (m.run json protocol.traced (w, []) callback).2 = [handler] ∧
        ∀ (response : Response) (st : HandlerState υ),
          ((json.Unmarshal response.Params json.zero).2 = none →
            handler.Callback response st =
              { user := callback (json.Unmarshal response.Params json.zero).1 st.user,
                logged := st.logged }) ∧
          (∀ err, (json.Unmarshal response.Params json.zero).2 = some err →
            handler.Callback response st =
              { user := st.user, logged := st.logged ++ [err] })) ∧
    (∀ (m : ChromeOnMethod) (socket : Socketer σ (protocol.EventHandler υ)) (w : σ),
      ∃ handler : protocol.EventHandler υ,
        addedHandlers (m.run json socket.traced (w, []) callback).2 = [handler] ∧
        ∀ (name : String) (params : Bytes) (st : HandlerState υ),
          ((json.Unmarshal params json.zero).2 = none →
            handler.Callback name params st =
              { user := callback (json.Unmarshal params json.zero).1 st.user,
                logged := st.logged }) ∧
          (∀ err, (json.Unmarshal params json.zero).2 = some err →
            handler.Callback name params st =
              { user := st.user, logged := st.logged ++ [err] })) := by
  refine ⟨?_, ?_, ?_⟩
  · intro m socket w
    cases m <;>
    · apply Exists.intro
      refine ⟨rfl, ?_⟩
      intro response st
      constructor
      · intro h
        simp [NewEventHandler, h, HandlerState.call]
      · intro err h
        simp [NewEventHandler, h, log.Error]
  · intro m protocol w
    cases m <;>
    · apply Exists.intro
      refine ⟨rfl, ?_⟩
      intro response st
      constructor
      · intro h
        simp [NewEventHandler, h, HandlerState.call]
      · intro err h
        simp [NewEventHandler, h, log.Error]
  · intro m socket w
    cases m <;>
    · apply Exists.intro
      refine ⟨rfl, ?_⟩
      intro name params st
      constructor
      · intro h
        simp [protocol.NewEventHandler, h, HandlerState.call]
      · intro err h
        simp [protocol.NewEventHandler, h, log.Error]

/-- C21 at the handler `OnPaused` registers, with a callback that records the
events it is given: on a payload that decodes to 7 the record is `[7]` and
nothing is logged; on a payload that does not decode the record stays empty and
the decoding error is logged. -/
theorem on_handler_calls_callback_once_iff_decoded_witness :
    (natJson.Unmarshal [7] natJson.zero).2 = none ∧
    (natJson.Unmarshal [] natJson.zero).2 = some (GoError.other "json: cannot unmarshal") ∧
    (addedHandlers (OnMethod.Debugger_OnPaused.run natJson
        (answeringSocket (EventHandler (List Nat)) none).traced ((), [])
        (fun event record => record ++ [event])).2).map
      (fun handler =>
        ((handler.Callback { Method := "Debugger.paused", Params := [7] }
            { user := [], logged := [] }).user,
         (handler.Callback { Method := "Debugger.paused", Params := [7] }
            { user := [], logged := [] }).logged,
         (handler.Callback { Method := "Debugger.paused", Params := [] }
            { user := [], logged := [] }).user,
         (handler.Callback { Method := "Debugger.paused", Params := [] }
            { user := [], logged := [] }).logged)) =
      [([7], [], [], [GoError.other "json: cannot unmarshal"])] := by
  obtain ⟨handler, hadd, hcb⟩ :=
    (on_handler_calls_callback_once_iff_decoded natJson
      (fun (event : Nat) (record : List Nat) => record ++ [event])).1
      OnMethod.Debugger_OnPaused (answeringSocket (EventHandler (List Nat)) none) ()
  have hdecoded := (hcb { Method := "Debugger.paused", Params := [7] }
    { user := [], logged := [] }).1 rfl
  have hfailed := (hcb { Method := "Debugger.paused", Params := [] }
    { user := [], logged := [] }).2 (GoError.other "json: cannot unmarshal") rfl
  refine ⟨rfl, rfl, ?_⟩
  rw [hadd, List.map_cons, List.map_nil, hdecoded, hfailed]
  rfl

/-- C22: when the command carries no error after `SendCommand`, the error
`BeginFrame` returns is the error of decoding `command.Result()`, whatever the
result is: there is no test for an absent result. So when the result is empty
and the JSON library refuses empty input, `BeginFrame` returns a non-nil error;
whereas a result-bearing method of the Debugger and ApplicationCache facades
returns the zero value and a nil error when the command's result is nil. -/
theorem begin_frame_returns_decoding_error {σ υ R : Type} (zero : R)
    (Result : Command → Bytes) (Unmarshal : Bytes → Option R → Option R × Option GoError)
    (protocol : HeadlessExperimentalProtocol σ υ) (w : σ) (params : Option Payload)
    (command : Command)
    (hcmd : returnedCommands (HeadlessExperimentalProtocol.BeginFrame zero Result Unmarshal
      protocol.traced (w, []) params).1.2 = [command])
    (herr : command.Error = none) :
    (HeadlessExperimentalProtocol.BeginFrame zero Result Unmarshal protocol w params).2.2 =
      (Unmarshal (Result command) (some zero)).2 ∧
    (Result command = [] → (Unmarshal [] (some zero)).2 ≠ none →
      (HeadlessExperimentalProtocol.BeginFrame zero Result Unmarshal protocol w params).2.2 ≠
        none) ∧
    (∀ {σ' H' R' : Type} (m : ResultMethod) (json : Json R') (socket : Socketer σ' H')
      (w' : σ') (params' : Option Payload) (command' : Command),
      returnedCommands (m.run json socket.traced (w', []) params').1.2 = [command'] →
      command'.Error = none → command'.Result = none →
      (m.run json socket w' params').2 = (json.zero, none)) := by
  have hc : (HeadlessExperimentalProtocol.BeginFrame zero Result Unmarshal
      protocol.traced (w, []) params).1.2 =
      [SocketCall.SendCommand
        (NewCommand "HeadlessExperimental.beginFrame" (Params.ptr params))
        (protocol.Socket.SendCommand w
          (NewCommand "HeadlessExperimental.beginFrame" (Params.ptr params))).2] := by
    simp only [HeadlessExperimentalProtocol.BeginFrame, HeadlessExperimentalProtocol.traced,
      Socketer.traced]
    split <;> rfl
  rw [hc] at hcmd
  simp only [returnedCommands, List.cons.injEq, and_true] at hcmd
  rw [← hcmd] at herr
  have hret : (HeadlessExperimentalProtocol.BeginFrame zero Result Unmarshal protocol w
      params).2.2 = (Unmarshal (Result command) (some zero)).2 := by
    simp only [HeadlessExperimentalProtocol.BeginFrame]
    rw [if_neg (by simp [herr]), hcmd]
  refine ⟨hret, ?_, ?_⟩
  · intro hempty hrefused
    rw [hret, hempty]
    exact hrefused
  · intro σ' H' R' m json socket w' params' command' hcmd' herr' hres'
    obtain ⟨sent, -, -, h⟩ := ResultMethod.run_eq m params'
    have hc' := (h json socket w' []).1
    rw [hc'] at hcmd'
    simp only [List.nil_append, returnedCommands, List.cons.injEq, and_true] at hcmd'
    rw [← hcmd'] at herr' hres'
    rw [(h json socket w' []).2, herr', hres']
    simp

/-- C22 at a socket that resolves the command with no error and no result: the
result text is empty, the decoder refuses it, and `BeginFrame` returns that
error. -/
theorem begin_frame_returns_decoding_error_witness :
    rawResult { method := "HeadlessExperimental.beginFrame", params := Params.ptr none } = [] ∧
    (HeadlessExperimentalProtocol.BeginFrame
        ({ Content := "", Base64Encoded := false } : page.GetResourceContentResult)
        rawResult page.GetResourceContentResult.unmarshalPtr
        ({ Socket := answeringSocket (EventHandler Unit) none } :
          HeadlessExperimentalProtocol Unit Unit) () none).2.2 =
      some (GoError.other "unexpected end of JSON input") :=
  ⟨rfl,
   (begin_frame_returns_decoding_error
      ({ Content := "", Base64Encoded := false } : page.GetResourceContentResult)
      rawResult page.GetResourceContentResult.unmarshalPtr
      ({ Socket := answeringSocket (EventHandler Unit) none } :
        HeadlessExperimentalProtocol Unit Unit) () none
      { method := "HeadlessExperimental.beginFrame", params := Params.ptr none }
      rfl rfl).1⟩

/-- C23, the divergence: on a socket that resolves the command with no error
and the JSON literal `null` as its result, `BeginFrame` returns a nil result
together with a nil error, whatever the parameters. The decoder is handed a
pointer to the result pointer, and sets the result pointer to nil on `null`. -/
theorem begin_frame_returns_nil_result_on_null (params : Option Payload) :
    printJson Payload.null = asciiBytes "null" ∧
    (HeadlessExperimentalProtocol.BeginFrame
        ({ Content := "", Base64Encoded := false } : page.GetResourceContentResult)
        rawResult page.GetResourceContentResult.unmarshalPtr
        ({ Socket := answeringSocket (EventHandler Unit) (some Payload.null) } :
          HeadlessExperimentalProtocol Unit Unit) () params).2 = (none, none) :=
  ⟨rfl, rfl⟩

/-- C26, the divergence: a `CaptureScreenshotParams` with `FromSurface` set to
false encodes with no `fromSurface` member, whatever its other fields, so a
receiver that takes an absent `fromSurface` for true, the default the field's
comment documents, reads true where the caller set false. Such a receiver reads
true from the encoding of every `CaptureScreenshotParams`. -/
theorem from_surface_false_reads_back_true (format : String) (quality : Int)
    (clip : Option page.ClipValue) :
    (page.CaptureScreenshotParams.toJSON
      { Format := format, Quality := quality, Clip := clip, FromSurface := false }).field
        "fromSurface" = none ∧
    readFromSurface (page.CaptureScreenshotParams.toJSON
      { Format := format, Quality := quality, Clip := clip, FromSurface := false }) = true ∧
    ∀ p : page.CaptureScreenshotParams, readFromSurface p.toJSON = true := by
  have hfield : ∀ p : page.CaptureScreenshotParams,
      p.toJSON.field "fromSurface" = if p.FromSurface then some (Payload.bool true) else none := by
    intro p
    by_cases hf : p.Format = "" <;> by_cases hq : p.Quality = 0 <;> cases hc : p.Clip <;>
      cases hs : p.FromSurface <;>
        simp [page.CaptureScreenshotParams.toJSON, omitEmpty, hf, hq, hc, hs, Payload.field,
          PayloadFields.lookup]
  refine ⟨hfield _, ?_, ?_⟩
  · unfold readFromSurface
    rw [hfield]
    rfl
  · intro p
    unfold readFromSurface
    rw [hfield]
    cases p.FromSurface <;> rfl

/-- Every name of `ErrorMethod` is in the list of them. -/
theorem errorMethod_mem_all (m : ErrorMethod) : m ∈ ErrorMethod.all := by
  cases m <;> decide

/-- Every name of `ChromeOnMethod` is in the list of them. -/
theorem chromeOnMethod_mem_all (m : ChromeOnMethod) : m ∈ ChromeOnMethod.all := by
  cases m <;> decide

/-- Every command method is in the list of them. -/
theorem commandMethod_mem_all (m : CommandMethod) : m ∈ CommandMethod.all := by
  cases m with
  | error m =>
    simp only [CommandMethod.all, List.mem_append, List.mem_map]
    exact Or.inl ⟨m, errorMethod_mem_all m, rfl⟩
  | headlessError m => cases m <;> decide
  | result m => cases m <;> decide
  | beginFrame => decide

/-- Every `On*` method is in the list of them. -/
theorem eventMethod_mem_all (m : EventMethod) : m ∈ EventMethod.all := by
  cases m with
  | protocol m => cases m <;> decide
  | headless m => cases m <;> decide
  | chrome m =>
    simp only [EventMethod.all, List.mem_append, List.mem_map]
    exact Or.inr (Or.inr ⟨m, chromeOnMethod_mem_all m, rfl⟩)

set_option maxRecDepth 100000 in
/-- The command names of the command methods, in source order, are pairwise
distinct. -/
theorem commandMethod_wire_nodup : (CommandMethod.all.map CommandMethod.wire).Nodup := by
  decide

set_option maxRecDepth 100000 in
/-- The event names of the `On*` methods, in source order, are pairwise
distinct. -/
theorem eventMethod_wire_nodup : (EventMethod.all.map EventMethod.wire).Nodup := by
  decide

/-- C24: two command methods of the CSS, DOM, Debugger, ApplicationCache and
HeadlessExperimental facades that submit the same command name are the same
method, and two `On*` methods that register under the same event name are the
same method. The name of a method is the one it submits, or registers under,
on every socket and with every parameter. -/
theorem wire_names_are_injective :
    (∀ a b : CommandMethod, a.wire = b.wire → a = b) ∧
    (∀ a b : EventMethod, a.wire = b.wire → a = b) ∧
    (∀ {σ H : Type} (m : ErrorMethod) (socket : Socketer σ H) (w : σ)
      (params : Option Payload),
      (sentCommands (m.run socket.traced (w, []) params).1.2).map Command.method =
        [(CommandMethod.error m).wire]) ∧
    (∀ {σ υ : Type} (m : HeadlessErrorMethod) (protocol : HeadlessExperimentalProtocol σ υ)
      (w : σ),
      (sentCommands (m.run protocol.traced (w, [])).1.2).map Command.method =
        [(CommandMethod.headlessError m).wire]) ∧
    (∀ {σ H R : Type} (m : ResultMethod) (json : Json R) (socket : Socketer σ H) (w : σ)
      (params : Option Payload),
      (sentCommands (m.run json socket.traced (w, []) params).1.2).map Command.method =
        [(CommandMethod.result m).wire]) ∧
    (∀ {σ υ R : Type} (zero : R) (Result : Command → Bytes)
      (Unmarshal : Bytes → Option R → Option R × Option GoError)
      (protocol : HeadlessExperimentalProtocol σ υ) (w : σ) (params : Option Payload),
      (sentCommands (HeadlessExperimentalProtocol.BeginFrame zero Result Unmarshal
        protocol.traced (w, []) params).1.2).map Command.method =
        [CommandMethod.beginFrame.wire]) ∧
    (∀ {σ υ E : Type} (m : OnMethod) (json : Json E) (socket : Socketer σ (EventHandler υ))
      (w : σ) (callback : E → υ → υ),
      (addedHandlers (m.run json socket.traced (w, []) callback).2).map EventHandler.Name =
        [(EventMethod.protocol m).wire]) ∧
    (∀ {σ υ E : Type} (m : HeadlessOnMethod) (json : Json E)
      (protocol : HeadlessExperimentalProtocol σ υ) (w : σ) (callback : E → υ → υ),
      (addedHandlers (m.run json protocol.traced (w, []) callback).2).map EventHandler.Name =
        [(EventMethod.headless m).wire]) ∧
    (∀ {σ υ E : Type} (m : ChromeOnMethod) (json : Json E)
      (socket : Socketer σ (protocol.EventHandler υ)) (w : σ) (callback : E → υ → υ),
      (addedHandlers (m.run json socket.traced (w, []) callback).2).map
        protocol.EventHandler.Name = [(EventMethod.chrome m).wire]) := by
  refine ⟨?_, ?_, ?_, ?_, ?_, ?_, ?_, ?_, ?_⟩
  · intro a b h
    exact List.inj_on_of_nodup_map commandMethod_wire_nodup (commandMethod_mem_all a)
      (commandMethod_mem_all b) h
  · intro a b h
    exact List.inj_on_of_nodup_map eventMethod_wire_nodup (eventMethod_mem_all a)
      (eventMethod_mem_all b) h
  · intro σ H m socket w params
    cases m <;> rfl
  · intro σ υ m protocol w
    cases m <;> rfl
  · intro σ H R m json socket w params
    cases m <;>
    · simp only [ResultMethod.run, Debugger.EvaluateOnCallFrame,
        Debugger.GetPossibleBreakpoints, Debugger.GetScriptSource, Debugger.GetStackTrace,
        Debugger.RestartFrame, Debugger.SearchInContent, Debugger.SetBreakpoint,
        Debugger.SetBreakpointByURL, Debugger.SetScriptSource, ApplicationCache.GetForFrame,
        ApplicationCache.GetFramesWithManifests, ApplicationCache.GetManifestForFrame,
        Socketer.traced]
      split
      · rfl
      · split
        · split
          · rfl
          · split <;> rfl
        · rfl
  · intro σ υ R zero Result Unmarshal protocol w params
    simp only [HeadlessExperimentalProtocol.BeginFrame, HeadlessExperimentalProtocol.traced,
      Socketer.traced]
    split <;> rfl
  · intro σ υ E m json socket w callback
    cases m <;> rfl
  · intro σ υ E m json protocol w callback
    cases m <;> rfl
  · intro σ υ E m json socket w callback
    cases m <;> rfl

/-- C24 at `CSS.Enable` and `DOM.Enable`, which submit different names, and at
`CSS.OnFontsUpdated` and `DOM.OnDocumentUpdated`, which register under
different names. -/
theorem wire_names_are_injective_witness :
    CommandMethod.wire (CommandMethod.error ErrorMethod.CSS_Enable) = "CSS.enable" ∧
    CommandMethod.wire (CommandMethod.error ErrorMethod.DOM_Enable) = "DOM.enable" ∧
    CommandMethod.wire (CommandMethod.error ErrorMethod.CSS_Enable) ≠
      CommandMethod.wire (CommandMethod.error ErrorMethod.DOM_Enable) ∧
    EventMethod.wire (EventMethod.chrome ChromeOnMethod.CSS_OnFontsUpdated) ≠
      EventMethod.wire (EventMethod.chrome ChromeOnMethod.DOM_OnDocumentUpdated) ∧
    CommandMethod.error ErrorMethod.CSS_Enable = CommandMethod.error ErrorMethod.CSS_Enable :=
  ⟨rfl, rfl,
   fun h => absurd (wire_names_are_injective.1 _ _ h) (by decide),
   fun h => absurd (wire_names_are_injective.2.1 _ _ h) (by decide),
   wire_names_are_injective.1 (CommandMethod.error ErrorMethod.CSS_Enable)
     (CommandMethod.error ErrorMethod.CSS_Enable) rfl⟩

/-- A key that no field has is not in the encoding. -/
theorem encodeFields_lookup_none (value : FieldSpec → GoValue) (fs : List FieldSpec)
    (key : String) (hkey : key ∉ fs.map FieldSpec.key) :
    (encodeFields value fs).lookup key = none := by
  induction fs with
  | nil => rfl
  | cons g gs ih =>
    simp only [List.map_cons, List.mem_cons, not_or] at hkey
    have hne : ¬ g.key = key := fun h => hkey.1 h.symm
    simp only [encodeFields, omitEmpty]
    split
    · exact ih hkey.2
    · simp only [PayloadFields.lookup, if_neg hne]
      exact ih hkey.2

/-- What the encoding of a struct holds under the key of one of its fields, the
keys of the struct being pairwise distinct: nothing when the field is tagged
`omitempty` and its value is empty, and the encoded value otherwise. -/
theorem encodeFields_lookup (value : FieldSpec → GoValue) (fs : List FieldSpec)
    (hkeys : (fs.map FieldSpec.key).Nodup) (f : FieldSpec) (hf : f ∈ fs) :
    (encodeFields value fs).lookup f.key =
      if (f.omitempty && (value f).isEmpty) = true then none else some (value f).toJSON := by
  induction fs with
  | nil => cases hf
  | cons g gs ih =>
    simp only [List.map_cons, List.nodup_cons] at hkeys
    by_cases hg : f = g
    · subst hg
      simp only [encodeFields, omitEmpty]
      split
      · exact encodeFields_lookup_none value gs f.key hkeys.1
      · simp [PayloadFields.lookup]
    · have hmem : f ∈ gs := by
        rcases List.mem_cons.1 hf with h | h
        · exact absurd h hg
        · exact h
      have hne : ¬ g.key = f.key := by
        intro h
        apply hkeys.1
        rw [h]
        exact List.mem_map_of_mem FieldSpec.key hmem
      simp only [encodeFields, omitEmpty]
      split
      · exact ih hkeys.2 hmem
      · simp only [PayloadFields.lookup, if_neg hne]
        exact ih hkeys.2 hmem

/-- In page.go a field is tagged `omitempty` exactly when its comment opens
with "Optional.". -/
theorem pageStructs_omitempty_eq_markedOptional :
    ∀ s ∈ pageStructs, ∀ f ∈ s.fields, f.omitempty = f.markedOptional := by
  decide

/-- In page.go the json keys of the fields of one struct are pairwise
distinct. -/
theorem pageStructs_keys_nodup :
    ∀ s ∈ pageStructs, (s.fields.map FieldSpec.key).Nodup := by
  decide

/-- In page.go no optional field of a params or event struct is a slice. -/
theorem pageStructs_optional_not_slice :
    ∀ s ∈ pageStructs, s.isParamsOrEvent = true →
      ∀ f ∈ s.fields, f.omitempty = true → f.kind ≠ GoKind.slice := by
  decide

/-- C25: in page.go a field's json tag carries `omitempty` if and only if the
field's comment marks it "Optional.". So in the JSON encoding of any value of
any struct of page.go, the key of each required field is present, with the
field's encoded value; and in the encoding of any value of a params or event
struct, the key of an optional field of string, number, bool or slice type is
absent exactly when the field holds the zero value of its type. -/
theorem page_omitempty_iff_marked_optional :
    (∀ s ∈ pageStructs, ∀ f ∈ s.fields, f.omitempty = true ↔ f.markedOptional = true) ∧
    (∀ s ∈ pageStructs, ∀ (value : FieldSpec → GoValue), ∀ f ∈ s.fields,
      f.markedOptional = false →
        (encodeStruct s value).field f.key = some (value f).toJSON) ∧
    (∀ s ∈ pageStructs, s.isParamsOrEvent = true →
      ∀ (value : FieldSpec → GoValue), ∀ f ∈ s.fields,
        f.markedOptional = true → (value f).kind = f.kind →
        f.kind ∈ [GoKind.string, GoKind.int, GoKind.float, GoKind.bool, GoKind.slice] →
          ((encodeStruct s value).field f.key = none ↔ (value f).holdsZero = true)) := by
  refine ⟨?_, ?_, ?_⟩
  · intro s hs f hf
    rw [pageStructs_omitempty_eq_markedOptional s hs f hf]
  · intro s hs value f hf hreq
    have homit : f.omitempty = false := by
      rw [pageStructs_omitempty_eq_markedOptional s hs f hf]
      exact hreq
    simp only [encodeStruct, Payload.field]
    rw [encodeFields_lookup value s.fields (pageStructs_keys_nodup s hs) f hf, homit]
    simp
  · intro s hs hpe value f hf hopt hkind hkinds
    have homit : f.omitempty = true := by
      rw [pageStructs_omitempty_eq_markedOptional s hs f hf]
      exact hopt
    have hslice := pageStructs_optional_not_slice s hs hpe f hf homit
    have hempty : (value f).isEmpty = (value f).holdsZero := by
      cases hv : value f <;> rw [hv] at hkind <;> simp only [GoValue.kind] at hkind <;>
        first
        | rfl
        | (exfalso; exact hslice hkind.symm)
        | (exfalso; rw [← hkind] at hkinds; revert hkinds; decide)
    simp only [encodeStruct, Payload.field]
    rw [encodeFields_lookup value s.fields (pageStructs_keys_nodup s hs) f hf, homit, hempty]
    cases (value f).holdsZero <;> simp

/-- C25 on `HandleJavaScriptDialogParams{Accept: false}`: the required key
`accept` is present with the value false, the optional key `promptText` is
absent, and the encoding is `{"accept":false}`. -/
theorem page_omitempty_iff_marked_optional_witness :
    (encodeStruct
        { name := "HandleJavaScriptDialogParams",
          fields :=
            [{ name := "Accept", kind := GoKind.bool, key := "accept", omitempty := false,
               commentHead := "Whether" },
             { name := "PromptText", kind := GoKind.string, key := "promptText",
               omitempty := true, commentHead := "Optional." }] }
        (fun f => if f.name = "Accept" then GoValue.bool false else GoValue.string "")).field
      "accept" = some (Payload.bool false) ∧
    (encodeStruct
        { name := "HandleJavaScriptDialogParams",
          fields :=
            [{ name := "Accept", kind := GoKind.bool, key := "accept", omitempty := false,
               commentHead := "Whether" },
             { name := "PromptText", kind := GoKind.string, key := "promptText",
               omitempty := true, commentHead := "Optional." }] }
        (fun f => if f.name = "Accept" then GoValue.bool false else GoValue.string "")).field
      "promptText" = none ∧
    printJson (encodeStruct
        { name := "HandleJavaScriptDialogParams",
          fields :=
            [{ name := "Accept", kind := GoKind.bool, key := "accept", omitempty := false,
               commentHead := "Whether" },
             { name := "PromptText", kind := GoKind.string, key := "promptText",
               omitempty := true, commentHead := "Optional." }] }
        (fun f => if f.name = "Accept" then GoValue.bool false else GoValue.string "")) =
      asciiBytes "\x7b\"accept\":false\x7d" :=
  ⟨page_omitempty_iff_marked_optional.2.1
      { name := "HandleJavaScriptDialogParams",
        fields :=
          [{ name := "Accept", kind := GoKind.bool, key := "accept", omitempty := false,
             commentHead := "Whether" },
           { name := "PromptText", kind := GoKind.string, key := "promptText",
             omitempty := true, commentHead := "Optional." }] }
      (by decide)
      (fun f => if f.name = "Accept" then GoValue.bool false else GoValue.string "")
      { name := "Accept", kind := GoKind.bool, key := "accept", omitempty := false,
        commentHead := "Whether" }
      (by decide) rfl,
   (page_omitempty_iff_marked_optional.2.2
      { name := "HandleJavaScriptDialogParams",
        fields :=
          [{ name := "Accept", kind := GoKind.bool, key := "accept", omitempty := false,
             commentHead := "Whether" },
           { name := "PromptText", kind := GoKind.string, key := "promptText",
             omitempty := true, commentHead := "Optional." }] }
      (by decide) rfl
      (fun f => if f.name = "Accept" then GoValue.bool false else GoValue.string "")
      { name := "PromptText", kind := GoKind.string, key := "promptText",
        omitempty := true, commentHead := "Optional." }
      (by decide) rfl rfl (by decide)).2 rfl,
   by decide⟩

end GoChrome
